import Mathlib

/-!
# XR3 Phoenix: mechanism activation, RCS configuration and scenario loading

A shallow embedding of the mechanism-activation methods of
`XR3Phoenix/XR3Phoenix/XR3Phoenix.cpp` (`ActivateBayDoors`, `ActivateElevator`,
`ActivateRadiator`, `ActivateLandingGear` and the `CHECK_DOOR_JUMP` macro), of its
RCS and autopilot methods (`SetRCSDockingMode`, `ConfigureRCSJets`,
`SetCustomAutopilotMode`, `clbkNavMode`, `GetRCSThrustMax`, `SetGearParameters`) and
of `clbkLoadStateEx` of `XR3Phoenix/XR3Phoenix/XR3Phoenix_IO.cpp`.

Conventions of the embedding:

* a C++ `double` is a rational number (finite values, exact comparison; no
  method embedded here performs floating-point arithmetic on a progress value,
  it only stores the literals `0.0` and `1.0` and compares);
* a `void` method of the vessel is a function `Vessel → Vessel`;
* calls into the event sink (`PlayErrorBeep`, `ShowWarning`, `SetXRAnimation`,
  `TriggerRedrawArea`, `UpdateCtrlDialog`, `RecordEvent`) append one entry to
  the chronological effect log `Vessel.log`;
* a call to a base-class method whose body is not part of the sources
  (`DeltaGliderXR1::ActivateBayDoors`, `DeltaGliderXR1::ActivateLandingGear`)
  is a function parameter of the overriding method.
-/

namespace XR3Phoenix

/-- Status of a door-like mechanism (the `DoorStatus` enumerators used by the sources). -/
inductive DoorStatus
  | DOOR_FAILED
  | DOOR_CLOSED
  | DOOR_OPEN
  | DOOR_CLOSING
  | DOOR_OPENING
  deriving DecidableEq, Repr

/-- Animation handles passed to `SetXRAnimation` by the embedded methods. -/
inductive Anim
  | anim_crewElevator
  | anim_radiator
  | anim_gear
  deriving DecidableEq, Repr

/-- Panel areas passed to `TriggerRedrawArea` by the embedded methods. -/
inductive AreaID
  | AID_ELEVATORSWITCH
  | AID_ELEVATORINDICATOR
  | AID_RADIATORSWITCH
  | AID_RADIATORINDICATOR
  | AID_RCS_CONFIG_BUTTON
  | AID_GEARINDICATOR
  | AID_SELECT_PAYLOAD_BAY_SLOT_SCREEN
  | AID_GRAPPLE_PAYLOAD_SCREEN
  | AID_DEPLOY_PAYLOAD_SCREEN
  deriving DecidableEq, Repr

/-- Sound type argument of `ShowWarning`, `ShowInfo` and `PlaySound`. -/
inductive SoundType
  | ST_WarningCallout
  | ST_InformationCallout
  | ST_Other
  deriving DecidableEq, Repr

/-- Sounds passed to `PlaySound` by the embedded methods. -/
inductive Sound
  | BeepHigh
  | BeepLow
  deriving DecidableEq, Repr

/-- One request sent to the event sink. -/
inductive Effect
  | PlayErrorBeep
  | ShowWarning (wav : String) (soundType : SoundType) (msg : String)
  | HydraulicPressureWarning (playWarning playErrorBeep : Bool)
  | SetXRAnimation (anim : Anim) (proc : ℚ)
  | TriggerRedrawArea (area : AreaID)
  | UpdateCtrlDialog
  | RecordEvent (event_type : String) (event : String)
  | PlaySound (sound : Sound) (soundType : SoundType)
  | ShowInfo (wav : String) (soundType : SoundType) (msg : String)
  deriving DecidableEq, Repr

/-- The vessel fields read or written by the embedded methods. `hydraulicPressure`
is what `CheckHydraulicPressure` reports, `altitudeGround` is
`GetAltitude(ALTMODE_GROUND)`, and `GEAR_FULLY_COMPRESSED_DISTANCE` is the
vessel constant of that name (its value is not part of the sources, so it is
carried as a field that no method writes). -/
structure Vessel where
  radiator_status : DoorStatus
  radiator_proc : ℚ
  bay_status : DoorStatus
  bay_proc : ℚ
  crewElevator_status : DoorStatus
  crewElevator_proc : ℚ
  gear_status : DoorStatus
  gear_proc : ℚ
  m_noseGearProc : ℚ
  m_rearGearProc : ℚ
  hydraulicPressure : Bool
  altitudeGround : ℚ
  GEAR_FULLY_COMPRESSED_DISTANCE : ℚ
  log : List Effect
  deriving DecidableEq, Repr

/-- Append one entry to the effect log. -/
def emit (e : Effect) (v : Vessel) : Vessel :=
  { v with log := v.log ++ [e] }

/-- `PlayErrorBeep()`. -/
def PlayErrorBeep (v : Vessel) : Vessel :=
  emit Effect.PlayErrorBeep v

/-- `ShowWarning(wav, soundType, msg)`. -/
def ShowWarning (wav : String) (soundType : SoundType) (msg : String) (v : Vessel) : Vessel :=
  emit (Effect.ShowWarning wav soundType msg) v

/-- `SetXRAnimation(anim, proc)`. -/
def SetXRAnimation (anim : Anim) (proc : ℚ) (v : Vessel) : Vessel :=
  emit (Effect.SetXRAnimation anim proc) v

/-- `TriggerRedrawArea(area)`. -/
def TriggerRedrawArea (area : AreaID) (v : Vessel) : Vessel :=
  emit (Effect.TriggerRedrawArea area) v

/-- `UpdateCtrlDialog(this)`. -/
def UpdateCtrlDialog (v : Vessel) : Vessel :=
  emit Effect.UpdateCtrlDialog v

/-- `RecordEvent(event_type, event)`. -/
def RecordEvent (event_type event : String) (v : Vessel) : Vessel :=
  emit (Effect.RecordEvent event_type event) v

/-- Modelled from the spec: the base-class helper
`DeltaGliderXR1::CheckHydraulicPressure(playWarning, playErrorBeep)` is called by
the sources but its body is not part of them. The spec describes it as a boolean
derived from non-mechanism state (hydraulic pressure present), evaluated by a pure
function; the call sites comment that it shows a warning if there is no hydraulic
pressure. It returns the pressure flag and, when pressure is absent, sends its
callout to the event sink. -/
def CheckHydraulicPressure (playWarning playErrorBeep : Bool) (v : Vessel) : Bool × Vessel :=
  if v.hydraulicPressure then (true, v)
  else (false, emit (Effect.HydraulicPressureWarning playWarning playErrorBeep) v)

/-- The assignment part of the macro `CHECK_DOOR_JUMP(proc, anim)`: the new value of `proc`. -/
def CHECK_DOOR_JUMP (action : DoorStatus) (proc : ℚ) : ℚ :=
  if action = DoorStatus.DOOR_OPEN then 1
  else if action = DoorStatus.DOOR_CLOSED then 0
  else proc

/-- `XR3Phoenix::ActivateBayDoors(action)`; `base` is `DeltaGliderXR1::ActivateBayDoors`. -/
def ActivateBayDoors (base : DoorStatus → Vessel → Vessel) (action : DoorStatus)
    (v : Vessel) : Vessel :=
  if v.radiator_status = DoorStatus.DOOR_OPENING ∨ v.radiator_status = DoorStatus.DOOR_CLOSING then
    ShowWarning "Warning Radiator in Motion Bay Doors Are Locked.wav" SoundType.ST_WarningCallout
      "Cannot open/close bay doors while&radiator is in motion." (PlayErrorBeep v)
  else
    base action v

/-- `XR3Phoenix::ActivateElevator(action)`. -/
def ActivateElevator (action : DoorStatus) (v : Vessel) : Vessel :=
  if v.crewElevator_status = DoorStatus.DOOR_FAILED then
    ShowWarning "Warning Elevator Failure.wav" SoundType.ST_WarningCallout
      "Elevator inoperative due to excessive&heat and/or dynamic pressure." (PlayErrorBeep v)
  else
    let r := CheckHydraulicPressure true true v
    if r.1 = false then r.2
    else
      let v1 := r.2
      if v1.altitudeGround < v1.GEAR_FULLY_COMPRESSED_DISTANCE - 0.2 then
        ShowWarning "Warning Elevator Failure.wav" SoundType.ST_WarningCallout
          "Elevator inoperative: ground impact." (PlayErrorBeep v1)
      else
        let close : Bool :=
          decide (action = DoorStatus.DOOR_CLOSING) || decide (action = DoorStatus.DOOR_CLOSED)
        let v2 := { v1 with crewElevator_status := action }
        let v3 := { v2 with crewElevator_proc := CHECK_DOOR_JUMP action v2.crewElevator_proc }
        let v4 := SetXRAnimation Anim.anim_crewElevator v3.crewElevator_proc v3
        let v5 := TriggerRedrawArea AreaID.AID_ELEVATORSWITCH v4
        let v6 := TriggerRedrawArea AreaID.AID_ELEVATORINDICATOR v5
        let v7 := UpdateCtrlDialog v6
        RecordEvent "ELEVATOR" (if close then "CLOSE" else "OPEN") v7

/-- `XR3Phoenix::ActivateRadiator(action)`. -/
def ActivateRadiator (action : DoorStatus) (v : Vessel) : Vessel :=
  if v.radiator_status = DoorStatus.DOOR_FAILED then
    ShowWarning "Warning Radiator Failure.wav" SoundType.ST_WarningCallout
      "Radiator inoperative due to excessive&heat and/or dynamic pressure." (PlayErrorBeep v)
  else
    let r := CheckHydraulicPressure true true v
    if r.1 = false then r.2
    else
      let v1 := r.2
      if v1.bay_status = DoorStatus.DOOR_OPENING ∨ v1.bay_status = DoorStatus.DOOR_CLOSING then
        ShowWarning "Warning Bay Doors in Motion Radiator is Locked.wav" SoundType.ST_WarningCallout
          "Cannot deploy/retract radiator&while bay doors are in motion." (PlayErrorBeep v1)
      else if v1.bay_status = DoorStatus.DOOR_OPEN then
        ShowWarning "Warning Bay Doors Open Radiator is Locked.wav" SoundType.ST_WarningCallout
          "Cannot deploy/retract radiator&while bay doors are open." (PlayErrorBeep v1)
      else
        let close : Bool :=
          decide (action = DoorStatus.DOOR_CLOSED) || decide (action = DoorStatus.DOOR_CLOSING)
        let v2 := { v1 with radiator_status := action }
        let v3 := { v2 with radiator_proc := CHECK_DOOR_JUMP action v2.radiator_proc }
        let v4 := SetXRAnimation Anim.anim_radiator v3.radiator_proc v3
        let v5 := TriggerRedrawArea AreaID.AID_RADIATORSWITCH v4
        let v6 := TriggerRedrawArea AreaID.AID_RADIATORINDICATOR v5
        let v7 := UpdateCtrlDialog v6
        RecordEvent "RADIATOR" (if close then "CLOSE" else "OPEN") v7

/-- `XR3Phoenix::ActivateLandingGear(action)`; `base` is `DeltaGliderXR1::ActivateLandingGear`. -/
def ActivateLandingGear (base : DoorStatus → Vessel → Vessel) (action : DoorStatus)
    (v : Vessel) : Vessel :=
  if (action = DoorStatus.DOOR_OPENING ∨ action = DoorStatus.DOOR_CLOSING) ∧
      (v.m_noseGearProc ≠ 1 ∨ v.m_rearGearProc ≠ 1) then
    ShowWarning "Gear Locked.wav" SoundType.ST_WarningCallout
      "Gear is still in contact with the&ground: cannot raise landing gear." (PlayErrorBeep v)
  else
    base action v

/-! ## Observations on the effect log -/

/-- The playback events of type `event_type` recorded so far, oldest first. -/
def recorded (event_type : String) (v : Vessel) : List String :=
  v.log.filterMap fun e =>
    match e with
    | Effect.RecordEvent t ev => if t = event_type then some ev else none
    | _ => none

/-- The redraw notifications sent so far, oldest first. -/
def redraws (v : Vessel) : List AreaID :=
  v.log.filterMap fun e =>
    match e with
    | Effect.TriggerRedrawArea a => some a
    | _ => none

/-- A vessel at rest on its gear: every mechanism closed, gear down and
uncompressed, hydraulic pressure present, nothing logged. -/
def parked : Vessel where
  radiator_status := DoorStatus.DOOR_CLOSED
  radiator_proc := 0
  bay_status := DoorStatus.DOOR_CLOSED
  bay_proc := 0
  crewElevator_status := DoorStatus.DOOR_CLOSED
  crewElevator_proc := 0
  gear_status := DoorStatus.DOOR_OPEN
  gear_proc := 1
  m_noseGearProc := 1
  m_rearGearProc := 1
  hydraulicPressure := true
  altitudeGround := 10
  GEAR_FULLY_COMPRESSED_DISTANCE := 8
  log := []

/-- The vessel with its effect log emptied: what is left is the vessel state proper. -/
def eraseLog (v : Vessel) : Vessel :=
  { v with log := [] }

/-- One call of a transition entry point of the radiator or of the crew elevator. -/
inductive Request
  | radiator (action : DoorStatus)
  | elevator (action : DoorStatus)
  deriving DecidableEq, Repr

/-- Perform one request. -/
def Request.run (r : Request) (v : Vessel) : Vessel :=
  match r with
  | Request.radiator action => ActivateRadiator action v
  | Request.elevator action => ActivateElevator action v

/-- Perform a sequence of requests, first to last. -/
def runAll (rs : List Request) (v : Vessel) : Vessel :=
  rs.foldl (fun s r => r.run s) v

/-- A stand-in for a base-class activation method: it commits the action on the bay doors. -/
def commitBay (action : DoorStatus) (v : Vessel) : Vessel :=
  { v with bay_status := action }

/-- A stand-in for a base-class activation method: it commits the action on the landing gear. -/
def commitGear (action : DoorStatus) (v : Vessel) : Vessel :=
  { v with gear_status := action }

/-! ## RCS configuration, autopilot hooks and scenario loading

The second part of the embedding covers `SetRCSDockingMode`, `ConfigureRCSJets`,
`SetCustomAutopilotMode`, `clbkNavMode`, `SetGearParameters` and `GetRCSThrustMax` of
`XR3Phoenix.cpp` and `clbkLoadStateEx` of `XR3Phoenix_IO.cpp`. Their state is the
structure `XR3`, which extends `Vessel` with the fields these methods read or write.
-/

/-- Custom autopilot modes: the `AUTOPILOT` enumerators named by the sources, and
`AP_AIRSPEEDHOLD` for the airspeed-hold autopilot their comments mention. -/
inductive AUTOPILOT
  | AP_OFF
  | AP_ATTITUDEHOLD
  | AP_DESCENTHOLD
  | AP_AIRSPEEDHOLD
  deriving DecidableEq, Repr

/-- The twelve attitude thruster-group types handled by `ConfigureRCSJets`. -/
inductive THGROUP_TYPE
  | THGROUP_ATT_PITCHUP
  | THGROUP_ATT_PITCHDOWN
  | THGROUP_ATT_YAWLEFT
  | THGROUP_ATT_YAWRIGHT
  | THGROUP_ATT_BANKLEFT
  | THGROUP_ATT_BANKRIGHT
  | THGROUP_ATT_RIGHT
  | THGROUP_ATT_LEFT
  | THGROUP_ATT_UP
  | THGROUP_ATT_DOWN
  | THGROUP_ATT_FORWARD
  | THGROUP_ATT_BACK
  deriving DecidableEq, Repr

/-- A thruster handle. -/
abbrev THRUSTER_HANDLE := Nat

/-- The member array `th_rcs`: `clbkSetClassCaps` fills its fourteen entries with
the results of fourteen separate `CreateThruster` calls, so the handles are
pairwise distinct; a handle is identified with its index. -/
def th_rcs (i : Nat) : THRUSTER_HANDLE := i

/-- Navigation mode `NAVMODE_KILLROT` of the simulator interface. -/
def NAVMODE_KILLROT : Int := 1

/-- The XR3 state read or written by the RCS, autopilot, gear-parameter and
scenario methods. Beyond the members of the class it holds what the simulator
keeps for the vessel (`thgroup`, `thrusterMax0`, `navmodeState`, `inAtm`,
`emptyMass`, `touchdownGearDown`, `nosewheelSteering`, `gearMeshVisible`) and
what base-class getters whose bodies are not part of the sources return
(`baseRCSThrustMax` for `DeltaGliderXR1::GetRCSThrustMax`, `payloadMass` for
`GetPayloadMass`, `fracIntegrity` for `GetDamageStatus(item).fracIntegrity`,
`DamageItem_RCS1` for the enumerator `DamageItem::RCS1`). -/
structure XR3 extends Vessel where
  thgroup : THGROUP_TYPE → Option (List THRUSTER_HANDLE)
  thrusterMax0 : THRUSTER_HANDLE → ℚ
  m_rcsDockingMode : Bool
  m_rcsDockingModeAtKillrotStart : Bool
  m_customAutopilotMode : AUTOPILOT
  navmodeState : Int → Bool
  inAtm : Bool
  emptyMass : ℚ
  payloadMass : ℚ
  baseRCSThrustMax : Nat → ℚ
  DamageItem_RCS1 : Nat
  fracIntegrity : Nat → ℚ
  touchdownGearDown : Bool
  nosewheelSteering : Bool
  gearMeshVisible : Bool
  m_parsedScenarioFile : Bool
  skinpath : String
  skin0 : Option String
  skin1 : Option String
  m_activeEVAPort : Int
  m_activeMultiDisplayMode : Int

/-- A call into the event sink, performed on the XR3 state. -/
def XR3.sink (f : Vessel → Vessel) (v : XR3) : XR3 :=
  { v with toVessel := f v.toVessel }

/-- `DelThrusterGroup(thgt)`: the group no longer exists; deleting a group
that does not exist changes nothing. -/
def DelThrusterGroup (thgt : THGROUP_TYPE) (v : XR3) : XR3 :=
  { v with thgroup := Function.update v.thgroup thgt none }

/-- `CreateThrusterGroup(th, nth, thgt)`: the group consists of the first `nth`
handles of the array `th`. -/
def CreateThrusterGroup (th : List THRUSTER_HANDLE) (nth : Nat) (thgt : THGROUP_TYPE)
    (v : XR3) : XR3 :=
  { v with thgroup := Function.update v.thgroup thgt (some (th.take nth)) }

/-- `SetThrusterMax0(th, maxth0)`. -/
def SetThrusterMax0 (th : THRUSTER_HANDLE) (maxth0 : ℚ) (v : XR3) : XR3 :=
  { v with thrusterMax0 := Function.update v.thrusterMax0 th maxth0 }

/-- The local constants `noPayloadMass` and `multiplier` of `GetRCSThrustMax`. -/
def GetRCSThrustMax.multiplier (withPayloadMass payloadMass : ℚ) : ℚ :=
  let noPayloadMass := withPayloadMass - payloadMass
  withPayloadMass / noPayloadMass

/-- `XR3Phoenix::GetRCSThrustMax(index)`. -/
def GetRCSThrustMax (index : Nat) (v : XR3) : ℚ :=
  let rcsThrustMax := v.baseRCSThrustMax index
  if v.inAtm then
    if v.m_customAutopilotMode = AUTOPILOT.AP_ATTITUDEHOLD ∨
        v.m_customAutopilotMode = AUTOPILOT.AP_DESCENTHOLD then
      let withPayloadMass := v.emptyMass
      let payloadMass := v.payloadMass
      rcsThrustMax * GetRCSThrustMax.multiplier withPayloadMass payloadMass
    else rcsThrustMax
  else rcsThrustMax

/-- The thruster groups built by the NORMAL branch of `ConfigureRCSJets`, from the
local arrays `th_att_rot` and `th_att_lin`. -/
def ConfigureRCSJets.normal (th_att_rot th_att_lin : List THRUSTER_HANDLE) (v : XR3) : XR3 :=
  let th_att_lin := th_att_lin.set 0 (th_rcs 0)
  let th_att_rot := th_att_rot.set 0 (th_rcs 0)
  let th_att_lin := th_att_lin.set 3 (th_rcs 1)
  let th_att_rot := th_att_rot.set 1 (th_rcs 1)
  let th_att_lin := th_att_lin.set 2 (th_rcs 2)
  let th_att_rot := th_att_rot.set 2 (th_rcs 2)
  let th_att_lin := th_att_lin.set 1 (th_rcs 3)
  let th_att_rot := th_att_rot.set 3 (th_rcs 3)
  let v := CreateThrusterGroup th_att_rot 2 THGROUP_TYPE.THGROUP_ATT_PITCHUP v
  let v := CreateThrusterGroup (th_att_rot.drop 2) 2 THGROUP_TYPE.THGROUP_ATT_PITCHDOWN v
  let v := CreateThrusterGroup th_att_lin 2 THGROUP_TYPE.THGROUP_ATT_UP v
  let v := CreateThrusterGroup (th_att_lin.drop 2) 2 THGROUP_TYPE.THGROUP_ATT_DOWN v
  let th_att_lin := th_att_lin.set 0 (th_rcs 4)
  let th_att_rot := th_att_rot.set 0 (th_rcs 4)
  let th_att_lin := th_att_lin.set 3 (th_rcs 5)
  let th_att_rot := th_att_rot.set 1 (th_rcs 5)
  let th_att_lin := th_att_lin.set 2 (th_rcs 6)
  let th_att_rot := th_att_rot.set 2 (th_rcs 6)
  let th_att_lin := th_att_lin.set 1 (th_rcs 7)
  let th_att_rot := th_att_rot.set 3 (th_rcs 7)
  let v := CreateThrusterGroup th_att_rot 2 THGROUP_TYPE.THGROUP_ATT_YAWLEFT v
  let v := CreateThrusterGroup (th_att_rot.drop 2) 2 THGROUP_TYPE.THGROUP_ATT_YAWRIGHT v
  let v := CreateThrusterGroup th_att_lin 2 THGROUP_TYPE.THGROUP_ATT_LEFT v
  let v := CreateThrusterGroup (th_att_lin.drop 2) 2 THGROUP_TYPE.THGROUP_ATT_RIGHT v
  let th_att_rot := th_att_rot.set 0 (th_rcs 8)
  let th_att_rot := th_att_rot.set 1 (th_rcs 9)
  let th_att_rot := th_att_rot.set 2 (th_rcs 10)
  let th_att_rot := th_att_rot.set 3 (th_rcs 11)
  let v := CreateThrusterGroup th_att_rot 2 THGROUP_TYPE.THGROUP_ATT_BANKLEFT v
  let v := CreateThrusterGroup (th_att_rot.drop 2) 2 THGROUP_TYPE.THGROUP_ATT_BANKRIGHT v
  let th_att_lin := th_att_lin.set 0 (th_rcs 12)
  let th_att_lin := th_att_lin.set 1 (th_rcs 13)
  let v := CreateThrusterGroup th_att_lin 1 THGROUP_TYPE.THGROUP_ATT_FORWARD v
  CreateThrusterGroup (th_att_lin.drop 1) 1 THGROUP_TYPE.THGROUP_ATT_BACK v

/-- The thruster groups built by the DOCKING branch of `ConfigureRCSJets`, from the
local arrays `th_att_rot` and `th_att_lin`. -/
def ConfigureRCSJets.docking (th_att_rot th_att_lin : List THRUSTER_HANDLE) (v : XR3) : XR3 :=
  let th_att_lin := th_att_lin.set 0 (th_rcs 0)
  let th_att_rot := th_att_rot.set 0 (th_rcs 0)
  let th_att_lin := th_att_lin.set 3 (th_rcs 1)
  let th_att_rot := th_att_rot.set 1 (th_rcs 1)
  let th_att_lin := th_att_lin.set 2 (th_rcs 2)
  let th_att_rot := th_att_rot.set 2 (th_rcs 2)
  let th_att_lin := th_att_lin.set 1 (th_rcs 3)
  let th_att_rot := th_att_rot.set 3 (th_rcs 3)
  let v := CreateThrusterGroup th_att_rot 2 THGROUP_TYPE.THGROUP_ATT_PITCHUP v
  let v := CreateThrusterGroup (th_att_rot.drop 2) 2 THGROUP_TYPE.THGROUP_ATT_PITCHDOWN v
  let v := CreateThrusterGroup th_att_lin 2 THGROUP_TYPE.THGROUP_ATT_FORWARD v
  let v := CreateThrusterGroup (th_att_lin.drop 2) 2 THGROUP_TYPE.THGROUP_ATT_BACK v
  let th_att_lin := th_att_lin.set 0 (th_rcs 4)
  let th_att_rot := th_att_rot.set 0 (th_rcs 4)
  let th_att_lin := th_att_lin.set 3 (th_rcs 5)
  let th_att_rot := th_att_rot.set 1 (th_rcs 5)
  let th_att_lin := th_att_lin.set 2 (th_rcs 6)
  let th_att_rot := th_att_rot.set 2 (th_rcs 6)
  let th_att_lin := th_att_lin.set 1 (th_rcs 7)
  let th_att_rot := th_att_rot.set 3 (th_rcs 7)
  let v := CreateThrusterGroup th_att_rot 2 THGROUP_TYPE.THGROUP_ATT_BANKRIGHT v
  let v := CreateThrusterGroup (th_att_rot.drop 2) 2 THGROUP_TYPE.THGROUP_ATT_BANKLEFT v
  let v := CreateThrusterGroup th_att_lin 2 THGROUP_TYPE.THGROUP_ATT_LEFT v
  let v := CreateThrusterGroup (th_att_lin.drop 2) 2 THGROUP_TYPE.THGROUP_ATT_RIGHT v
  let th_att_rot := th_att_rot.set 0 (th_rcs 8)
  let th_att_rot := th_att_rot.set 1 (th_rcs 9)
  let th_att_rot := th_att_rot.set 2 (th_rcs 10)
  let th_att_rot := th_att_rot.set 3 (th_rcs 11)
  let v := CreateThrusterGroup th_att_rot 2 THGROUP_TYPE.THGROUP_ATT_YAWLEFT v
  let v := CreateThrusterGroup (th_att_rot.drop 2) 2 THGROUP_TYPE.THGROUP_ATT_YAWRIGHT v
  let th_att_lin := th_att_lin.set 0 (th_rcs 12)
  let th_att_lin := th_att_lin.set 1 (th_rcs 13)
  let v := CreateThrusterGroup th_att_lin 1 THGROUP_TYPE.THGROUP_ATT_DOWN v
  CreateThrusterGroup (th_att_lin.drop 1) 1 THGROUP_TYPE.THGROUP_ATT_UP v

/-- The loop `for (int i=0; i < 14; i++)` of `ConfigureRCSJets`, at counter `i` with
`n` iterations left. -/
def ConfigureRCSJets.resetLevels (rcsThrusterPowerFrac : ℚ) : Nat → Nat → XR3 → XR3
  | _, 0, v => v
  | i, n + 1, v =>
    let damageIntegrityIndex := v.DamageItem_RCS1 + i
    let ds_fracIntegrity := v.fracIntegrity damageIntegrityIndex
    ConfigureRCSJets.resetLevels rcsThrusterPowerFrac (i + 1) n
      (SetThrusterMax0 (th_rcs i)
        (GetRCSThrustMax i v * rcsThrusterPowerFrac * ds_fracIntegrity) v)

/-- `XR3Phoenix::ConfigureRCSJets(dockingMode)`. The local arrays `th_att_rot` and
`th_att_lin` start uninitialised; every entry is written before it is read, and the
embedding starts them at handle 0. -/
def ConfigureRCSJets (dockingMode : Bool) (v : XR3) : XR3 :=
  let v := DelThrusterGroup THGROUP_TYPE.THGROUP_ATT_PITCHUP v
  let v := DelThrusterGroup THGROUP_TYPE.THGROUP_ATT_PITCHDOWN v
  let v := DelThrusterGroup THGROUP_TYPE.THGROUP_ATT_UP v
  let v := DelThrusterGroup THGROUP_TYPE.THGROUP_ATT_DOWN v
  let v := DelThrusterGroup THGROUP_TYPE.THGROUP_ATT_YAWLEFT v
  let v := DelThrusterGroup THGROUP_TYPE.THGROUP_ATT_YAWRIGHT v
  let v := DelThrusterGroup THGROUP_TYPE.THGROUP_ATT_LEFT v
  let v := DelThrusterGroup THGROUP_TYPE.THGROUP_ATT_RIGHT v
  let v := DelThrusterGroup THGROUP_TYPE.THGROUP_ATT_BANKLEFT v
  let v := DelThrusterGroup THGROUP_TYPE.THGROUP_ATT_BANKRIGHT v
  let v := DelThrusterGroup THGROUP_TYPE.THGROUP_ATT_FORWARD v
  let v := DelThrusterGroup THGROUP_TYPE.THGROUP_ATT_BACK v
  let th_att_rot : List THRUSTER_HANDLE := [0, 0, 0, 0]
  let th_att_lin : List THRUSTER_HANDLE := [0, 0, 0, 0]
  let v :=
    if dockingMode = false then ConfigureRCSJets.normal th_att_rot th_att_lin v
    else ConfigureRCSJets.docking th_att_rot th_att_lin v
  let rcsThrusterPowerFrac : ℚ := if dockingMode then 0.40 else 1.0
  let v := ConfigureRCSJets.resetLevels rcsThrusterPowerFrac 0 14 v
  let v := { v with m_rcsDockingMode := dockingMode }
  v.sink (TriggerRedrawArea AreaID.AID_RCS_CONFIG_BUTTON)

/-- The loop `for (int i=1; i <= 7; i++)` of `SetRCSDockingMode`, at counter `i` with
`n` iterations left: whether it leaves `autopilotEngaged` set. -/
def SetRCSDockingMode.scan (v : XR3) : Int → Nat → Bool
  | _, 0 => false
  | i, n + 1 => if v.navmodeState i then true else SetRCSDockingMode.scan v (i + 1) n

/-- `XR3Phoenix::SetRCSDockingMode(dockingMode)`: the returned flag and the new state. -/
def SetRCSDockingMode (dockingMode : Bool) (v : XR3) : Bool × XR3 :=
  let autopilotEngaged : Bool :=
    if dockingMode then
      SetRCSDockingMode.scan v 1 7 || decide (v.m_customAutopilotMode ≠ AUTOPILOT.AP_OFF)
    else false
  if dockingMode && autopilotEngaged then
    (false, (v.sink PlayErrorBeep).sink
      (ShowWarning "RCS locked by Autopilot.wav" SoundType.ST_WarningCallout
        "Autopilot is active: RCS mode is locked."))
  else
    let v := ConfigureRCSJets dockingMode v
    let v := v.sink (emit (Effect.PlaySound (if dockingMode then Sound.BeepHigh else Sound.BeepLow)
      SoundType.ST_Other))
    let v :=
      if dockingMode then
        v.sink (emit (Effect.ShowInfo "RCS Config Docking.wav" SoundType.ST_InformationCallout
          "RCS jets set to DOCKING configuration."))
      else
        v.sink (emit (Effect.ShowInfo "RCS Config Normal.wav" SoundType.ST_InformationCallout
          "RCS jets set to NORMAL configuration."))
    (true, v)

/-- `XR3Phoenix::SetCustomAutopilotMode(mode, playSound, force)`; `base` is
`DeltaGliderXR1::SetCustomAutopilotMode`. -/
def SetCustomAutopilotMode (base : AUTOPILOT → Bool → Bool → XR3 → XR3)
    (mode : AUTOPILOT) (playSound force : Bool) (v : XR3) : XR3 :=
  let v := if mode ≠ AUTOPILOT.AP_OFF then ConfigureRCSJets false v else v
  base mode playSound force v

/-- `XR3Phoenix::clbkNavMode(mode, active)`; `base` is `DeltaGliderXR1::clbkNavMode`. -/
def clbkNavMode (base : Int → Bool → XR3 → XR3) (mode : Int) (active : Bool) (v : XR3) : XR3 :=
  let v :=
    if mode = NAVMODE_KILLROT then
      if active then
        let v := { v with m_rcsDockingModeAtKillrotStart := v.m_rcsDockingMode }
        ConfigureRCSJets false v
      else
        ConfigureRCSJets v.m_rcsDockingModeAtKillrotStart v
    else
      if active then ConfigureRCSJets false v else v
  base mode active v

/-- `XR3Phoenix::SetGearParameters(state)`. Of each `SetXRTouchdownPoints` call only
the last argument is kept (`true` for the wheels, `false` for the belly); the
coordinates and friction coefficients are left out. -/
def SetGearParameters (state : ℚ) (v : XR3) : XR3 :=
  let v :=
    if state = 1 then
      let v := { v with touchdownGearDown := true }
      { v with nosewheelSteering := true }
    else
      let v := { v with touchdownGearDown := false }
      { v with nosewheelSteering := false }
  let v := { v with gear_proc := state }
  let v := v.sink (SetXRAnimation Anim.anim_gear v.gear_proc)
  let v := v.sink (TriggerRedrawArea AreaID.AID_GEARINDICATOR)
  { v with gearMeshVisible := decide (state ≠ 0) }

/-- What `clbkLoadStateEx` takes from files that are not part of the sources: the
common-line parser `ParseXRCommonScenarioLine` (its flag and the state it leaves),
the macros `IF_FOUND(name)`, `SSCANF1` and `SSCANF_BOOL` of `XRCommon_IO.h` applied
to the current line (the scanning macros map the old value of their target to the
new one), the simulator's default parser `ParseScenarioLineEx`, and the constant
`MDMID_HULL_TEMPS`. -/
structure ScenarioParsing where
  ParseXRCommonScenarioLine : String → XR3 → Bool × XR3
  IF_FOUND : String → String → Bool
  SSCANF1_s : String → String → String → String
  SSCANF_BOOL : String → String → Bool → Bool
  SSCANF1_d : String → String → Int → Int
  ParseScenarioLineEx : String → XR3 → XR3
  MDMID_HULL_TEMPS : Int

/-- The body of the `while` loop of `clbkLoadStateEx` for one scenario line. -/
def clbkLoadStateEx.line (io : ScenarioParsing) (line : String) (v : XR3) : XR3 :=
  let r := io.ParseXRCommonScenarioLine line v
  if r.1 then r.2
  else
    let v := r.2
    if io.IF_FOUND "SKIN" line then
      let v := { v with skinpath := io.SSCANF1_s "SKIN" line v.skinpath }
      let fname := "XR3Phoenix\\Skins\\" ++ v.skinpath ++ "\\"
      let v := { v with skin0 := some (fname ++ "XR3T.dds") }
      { v with skin1 := some (fname ++ "XR3B.dds") }
    else if io.IF_FOUND "RCS_DOCKING_MODE" line then
      { v with m_rcsDockingMode := io.SSCANF_BOOL "RCS_DOCKING_MODE" line v.m_rcsDockingMode }
    else if io.IF_FOUND "ACTIVE_EVA_PORT" line then
      { v with m_activeEVAPort := io.SSCANF1_d "ACTIVE_EVA_PORT" line v.m_activeEVAPort }
    else
      io.ParseScenarioLineEx line v

/-- `XR3Phoenix::clbkLoadStateEx(scn, vs)`; `scn` lists the lines that
`oapiReadScenario_nextline` delivers, in order. -/
def clbkLoadStateEx (io : ScenarioParsing) (scn : List String) (v : XR3) : XR3 :=
  let v := { v with m_parsedScenarioFile := true }
  let v := { v with gear_status := DoorStatus.DOOR_CLOSED }
  let v := { v with gear_proc := 0 }
  let v := scn.foldl (fun s line => clbkLoadStateEx.line io line s) v
  if v.m_activeMultiDisplayMode < 0 then
    { v with m_activeMultiDisplayMode := io.MDMID_HULL_TEMPS }
  else v

/-- The XR3 as its constructor leaves it, parked: no thruster groups yet, Normal
layout, no autopilot, in vacuum, undamaged RCS with 100 of base thrust per jet,
120 of mass of which 20 are payload. -/
def parkedXR3 : XR3 where
  toVessel := parked
  thgroup := fun _ => none
  thrusterMax0 := fun _ => 100
  m_rcsDockingMode := false
  m_rcsDockingModeAtKillrotStart := false
  m_customAutopilotMode := AUTOPILOT.AP_OFF
  navmodeState := fun _ => false
  inAtm := false
  emptyMass := 120
  payloadMass := 20
  baseRCSThrustMax := fun _ => 100
  DamageItem_RCS1 := 0
  fracIntegrity := fun _ => 1
  touchdownGearDown := true
  nosewheelSteering := true
  gearMeshVisible := true
  m_parsedScenarioFile := false
  skinpath := ""
  skin0 := none
  skin1 := none
  m_activeEVAPort := 0
  m_activeMultiDisplayMode := -1

/-- The relabelling of the twelve axes between the two layouts, as the spec words it:
for each axis in Docking layout, the axis of the Normal layout whose thrusters it
carries. Y and Z exchange roles, the X-axis groups stay. -/
def normalAxisOf : THGROUP_TYPE → THGROUP_TYPE
  | THGROUP_TYPE.THGROUP_ATT_FORWARD => THGROUP_TYPE.THGROUP_ATT_UP
  | THGROUP_TYPE.THGROUP_ATT_BACK => THGROUP_TYPE.THGROUP_ATT_DOWN
  | THGROUP_TYPE.THGROUP_ATT_DOWN => THGROUP_TYPE.THGROUP_ATT_FORWARD
  | THGROUP_TYPE.THGROUP_ATT_UP => THGROUP_TYPE.THGROUP_ATT_BACK
  | THGROUP_TYPE.THGROUP_ATT_BANKRIGHT => THGROUP_TYPE.THGROUP_ATT_YAWLEFT
  | THGROUP_TYPE.THGROUP_ATT_BANKLEFT => THGROUP_TYPE.THGROUP_ATT_YAWRIGHT
  | THGROUP_TYPE.THGROUP_ATT_YAWLEFT => THGROUP_TYPE.THGROUP_ATT_BANKLEFT
  | THGROUP_TYPE.THGROUP_ATT_YAWRIGHT => THGROUP_TYPE.THGROUP_ATT_BANKRIGHT
  | THGROUP_TYPE.THGROUP_ATT_PITCHUP => THGROUP_TYPE.THGROUP_ATT_PITCHUP
  | THGROUP_TYPE.THGROUP_ATT_PITCHDOWN => THGROUP_TYPE.THGROUP_ATT_PITCHDOWN
  | THGROUP_TYPE.THGROUP_ATT_LEFT => THGROUP_TYPE.THGROUP_ATT_LEFT
  | THGROUP_TYPE.THGROUP_ATT_RIGHT => THGROUP_TYPE.THGROUP_ATT_RIGHT

/-- A stand-in for `DeltaGliderXR1::clbkNavMode`: it does nothing. -/
def idleNavMode (_mode : Int) (_active : Bool) (v : XR3) : XR3 := v

/-- A stand-in for `DeltaGliderXR1::SetCustomAutopilotMode`: it stores the mode. -/
def storeAutopilotMode (mode : AUTOPILOT) (_playSound _force : Bool) (v : XR3) : XR3 :=
  { v with m_customAutopilotMode := mode }

/-! ## Playback, scenario saving, step queues and panel redraw

The third part of the embedding covers `clbkPlaybackEvent`, the step registration of
`clbkPostCreation` and `clbkPanelRedrawEvent` of `XR3Phoenix.cpp`, and `clbkSaveState`
of `XR3Phoenix_IO.cpp` together with a model of the scenario-line macros that
`clbkLoadStateEx` uses.
-/

/-- `_stricmp(a, b)` of the C runtime: 0 exactly when the two strings are equal up to
ASCII case, and a non-zero value otherwise (the sources only compare it with 0). -/
def stricmp (a b : String) : Int :=
  if a.data.map Char.toLower = b.data.map Char.toLower then 0 else 1

/-- `XR3Phoenix::clbkPlaybackEvent(simt, event_t, event_type, event)`: the returned
flag and the new state; `base` is `DeltaGliderXR1::clbkPlaybackEvent`. -/
def clbkPlaybackEvent (base : ℚ → ℚ → String → String → Vessel → Bool × Vessel)
    (simt event_t : ℚ) (event_type event : String) (v : Vessel) : Bool × Vessel :=
  if stricmp event_type "ELEVATOR" = 0 then
    (true, ActivateElevator
      (if stricmp event "CLOSE" = 0 then DoorStatus.DOOR_CLOSING else DoorStatus.DOOR_OPENING) v)
  else
    base simt event_t event_type event v

/-- The character of a decimal digit. -/
def digitChar (d : Nat) : Char := Char.ofNat (48 + d)

/-- The conversion `%d` of the C `printf` family applied to a natural number. -/
def printNat (n : Nat) : List Char :=
  if n = 0 then ['0'] else (Nat.digits 10 n).reverse.map digitChar

/-- The conversion `%d` of the C `printf` family. -/
def printInt : Int → List Char
  | Int.ofNat n => printNat n
  | Int.negSucc n => '-' :: printNat (n + 1)

/-- The digits read by the conversion `%d` of the C `scanf` family: the value of the
longest run of decimal digits at the front of the input, on top of `acc`. -/
def scanDigits (acc : Nat) : List Char → Nat
  | [] => acc
  | c :: cs => if c.isDigit then scanDigits (acc * 10 + (c.toNat - 48)) cs else acc

/-- The conversion `%d` of the C `scanf` family: white space is skipped, a sign may
precede the digits, and the conversion fails (`none`) when no digit follows. -/
def scanInt (s : List Char) : Option Int :=
  match s.dropWhile Char.isWhitespace with
  | [] => none
  | c :: cs =>
    if c = '-' then
      match cs with
      | [] => none
      | d :: _ => if d.isDigit then some (-(scanDigits 0 cs : Int)) else none
    else if c = '+' then
      match cs with
      | [] => none
      | d :: _ => if d.isDigit then some (scanDigits 0 cs : Int) else none
    else if c.isDigit then some (scanDigits 0 (c :: cs) : Int)
    else none

/-- The conversion `%s` of the C `scanf` family: white space is skipped and the
characters up to the next white space are read; it fails when there are none. -/
def scanToken (s : List Char) : Option String :=
  match (s.dropWhile Char.isWhitespace).takeWhile (fun c => !c.isWhitespace) with
  | [] => none
  | c :: cs => some (String.mk (c :: cs))

/-- `oapiWriteScenario_int(scn, item, i)` of the simulator, as the line that
`oapiReadScenario_nextline` delivers when the scenario is read back: the item name,
a blank and the integer. -/
def oapiWriteScenario_int (item : String) (i : Int) : String :=
  String.mk (item.data ++ ' ' :: printInt i)

/-- Modelled from the spec: the macros `IF_FOUND`, `SSCANF1` and `SSCANF_BOOL` of
`XRCommon_IO.h` are used by `clbkLoadStateEx` but their definitions are not part of
the sources. The spec says that persisted values are plain tokens keyed by a name
string, the RCS layout a boolean and the active EVA port an integer.
`IF_FOUND(name)` holds when the line starts with `name` up to case; `SSCANF1(fmt, a)`
scans the rest of the line after the name with `fmt` into `a`, which keeps its value
when the conversion fails; `SSCANF_BOOL(var)` scans an integer into a temporary that
starts at 0 and sets `var` to whether it is non-zero. The common-line parser, the
simulator's default parser and `MDMID_HULL_TEMPS` stay parameters. -/
def scenarioParsing (ParseXRCommonScenarioLine : String → XR3 → Bool × XR3)
    (ParseScenarioLineEx : String → XR3 → XR3) (MDMID_HULL_TEMPS : Int) : ScenarioParsing where
  ParseXRCommonScenarioLine := ParseXRCommonScenarioLine
  IF_FOUND := fun name line =>
    (line.data.take name.data.length).map Char.toLower == name.data.map Char.toLower
  SSCANF1_s := fun name line old =>
    (scanToken (line.data.drop name.data.length)).getD old
  SSCANF_BOOL := fun name line _ =>
    decide ((scanInt (line.data.drop name.data.length)).getD 0 ≠ 0)
  SSCANF1_d := fun name line old =>
    (scanInt (line.data.drop name.data.length)).getD old
  ParseScenarioLineEx := ParseScenarioLineEx
  MDMID_HULL_TEMPS := MDMID_HULL_TEMPS

/-- `XR3Phoenix::clbkSaveState(scn)`: the lines written, in order;
`WriteXRCommonScenarioLines` is the base-class writer of the common lines. -/
def clbkSaveState (WriteXRCommonScenarioLines : XR3 → List String) (v : XR3) : List String :=
  WriteXRCommonScenarioLines v ++
    [oapiWriteScenario_int "RCS_DOCKING_MODE" (if v.m_rcsDockingMode then 1 else 0),
     oapiWriteScenario_int "ACTIVE_EVA_PORT" v.m_activeEVAPort]

/-- The PreStep classes that `clbkPostCreation` registers. -/
inductive PreStep
  | DrainBayFuelTanksPreStep
  | RefreshSlotStatesPreStep
  | AttitudeHoldPreStep
  | DescentHoldPreStep
  | AirspeedHoldPreStep
  | ScramjetSoundPreStep
  | MmuPreStep
  | GearCalloutsPreStep
  | MachCalloutsPreStep
  | AltitudeCalloutsPreStep
  | DockingCalloutsPreStep
  | TakeoffAndLandingCalloutsAndCrashPreStep
  | AnimateGearCompressionPreStep
  | RotateWheelsPreStep
  | XR3NosewheelSteeringPreStep
  | RefreshGrappleTargetsInDisplayRangePreStep
  | UpdateVesselLightsPreStep
  | ParkingBrakePreStep
  | UpdatePreviousFieldsPreStep
  deriving DecidableEq, Repr

/-- The PostStep classes that `clbkPostCreation` registers. -/
inductive PostStep
  | PreventAutoRefuelPostStep
  | ComputeAccPostStep
  | ShowWarningPostStep
  | SetHullTempsPostStep
  | SetSlopePostStep
  | FuelCalloutsPostStep
  | UpdateIntervalTimersPostStep
  | APUPostStep
  | UpdateMassPostStep
  | DisableControlSurfForAPUPostStep
  | OneShotInitializationPostStep
  | AnimationPostStep
  | FuelDumpPostStep
  | XFeedPostStep
  | ResupplyPostStep
  | LOXConsumptionPostStep
  | UpdateCoolantTempPostStep
  | AirlockDecompressionPostStep
  | AutoCenteringSimpleButtonAreasPostStep
  | ResetAPUTimerForPolledSystemsPostStep
  | ManageMWSPostStep
  | SwitchTwoDPanelPostStep
  | XR3AnimationPostStep
  | XR3DoorSoundsPostStep
  | HandleDockChangesForActiveAirlockPostStep
  | TestXRVesselCtrlPostStep
  deriving DecidableEq, Repr

/-- The two step queues of the vessel, each in the order in which its steps are
invoked. -/
structure StepQueues where
  preSteps : List PreStep
  postSteps : List PostStep
  deriving DecidableEq, Repr

/-- Modelled from the spec: `AddPreStep` is a base-class method whose body is not
part of the sources. The spec asks for a single queue per phase run in the declared
order, and `clbkPostCreation` comments that the steps are invoked in order: the step
goes to the end of the queue. -/
def AddPreStep (step : PreStep) (q : StepQueues) : StepQueues :=
  { q with preSteps := q.preSteps ++ [step] }

/-- Modelled from the spec: `AddPostStep`, like `AddPreStep`, puts the step at the
end of its queue. -/
def AddPostStep (step : PostStep) (q : StepQueues) : StepQueues :=
  { q with postSteps := q.postSteps ++ [step] }

/-- The step registration of `XR3Phoenix::clbkPostCreation`: its `AddPreStep` and
`AddPostStep` statements, in order. `DEBUG` says whether the build defines `_DEBUG`;
`q` holds the queues as the statements before them left them. -/
def clbkPostCreation.addSteps (DEBUG : Bool) (q : StepQueues) : StepQueues :=
  let q := AddPreStep PreStep.DrainBayFuelTanksPreStep q
  let q := AddPreStep PreStep.RefreshSlotStatesPreStep q
  let q := AddPreStep PreStep.AttitudeHoldPreStep q
  let q := AddPreStep PreStep.DescentHoldPreStep q
  let q := AddPreStep PreStep.AirspeedHoldPreStep q
  let q := AddPreStep PreStep.ScramjetSoundPreStep q
  let q := AddPreStep PreStep.MmuPreStep q
  let q := AddPreStep PreStep.GearCalloutsPreStep q
  let q := AddPreStep PreStep.MachCalloutsPreStep q
  let q := AddPreStep PreStep.AltitudeCalloutsPreStep q
  let q := AddPreStep PreStep.DockingCalloutsPreStep q
  let q := AddPreStep PreStep.TakeoffAndLandingCalloutsAndCrashPreStep q
  let q := AddPreStep PreStep.AnimateGearCompressionPreStep q
  let q := AddPreStep PreStep.RotateWheelsPreStep q
  let q := AddPreStep PreStep.XR3NosewheelSteeringPreStep q
  let q := AddPreStep PreStep.RefreshGrappleTargetsInDisplayRangePreStep q
  let q := AddPreStep PreStep.UpdateVesselLightsPreStep q
  let q := AddPreStep PreStep.ParkingBrakePreStep q
  let q := AddPreStep PreStep.UpdatePreviousFieldsPreStep q
  let q := AddPostStep PostStep.PreventAutoRefuelPostStep q
  let q := AddPostStep PostStep.ComputeAccPostStep q
  let q := AddPostStep PostStep.ShowWarningPostStep q
  let q := AddPostStep PostStep.SetHullTempsPostStep q
  let q := AddPostStep PostStep.SetSlopePostStep q
  let q := AddPostStep PostStep.FuelCalloutsPostStep q
  let q := AddPostStep PostStep.UpdateIntervalTimersPostStep q
  let q := AddPostStep PostStep.APUPostStep q
  let q := AddPostStep PostStep.UpdateMassPostStep q
  let q := AddPostStep PostStep.DisableControlSurfForAPUPostStep q
  let q := AddPostStep PostStep.OneShotInitializationPostStep q
  let q := AddPostStep PostStep.AnimationPostStep q
  let q := AddPostStep PostStep.FuelDumpPostStep q
  let q := AddPostStep PostStep.XFeedPostStep q
  let q := AddPostStep PostStep.ResupplyPostStep q
  let q := AddPostStep PostStep.LOXConsumptionPostStep q
  let q := AddPostStep PostStep.UpdateCoolantTempPostStep q
  let q := AddPostStep PostStep.AirlockDecompressionPostStep q
  let q := AddPostStep PostStep.AutoCenteringSimpleButtonAreasPostStep q
  let q := AddPostStep PostStep.ResetAPUTimerForPolledSystemsPostStep q
  let q := AddPostStep PostStep.ManageMWSPostStep q
  let q := AddPostStep PostStep.SwitchTwoDPanelPostStep q
  let q := AddPostStep PostStep.XR3AnimationPostStep q
  let q := AddPostStep PostStep.XR3DoorSoundsPostStep q
  let q := AddPostStep PostStep.HandleDockChangesForActiveAirlockPostStep q
  if DEBUG then AddPostStep PostStep.TestXRVesselCtrlPostStep q else q

/-- Redraw event `PANEL_REDRAW_ALWAYS` of the simulator interface. -/
def PANEL_REDRAW_ALWAYS : Int := 1

/-- The superclass to which `clbkPanelRedrawEvent` hands a redraw event. -/
inductive Superclass
  | VESSEL3_EXT
  | DeltaGliderXR1
  deriving DecidableEq, Repr

/-- One redraw event handed to a superclass, stamped with the system uptime at which
`clbkPanelRedrawEvent` was called. -/
structure RedrawDispatch where
  uptime : ℚ
  via : Superclass
  areaID : AreaID
  event : Int
  deriving DecidableEq, Repr

/-- The state read or written by `clbkPanelRedrawEvent`: the member array
`m_nextPayloadScreensRefresh` (three entries, by index), the value of
`GetSystemUptime()`, the setting `PayloadScreensUpdateInterval` of the configuration,
and the redraw events handed to a superclass so far, oldest first. -/
structure PanelState where
  m_nextPayloadScreensRefresh : Nat → ℚ
  systemUptime : ℚ
  PayloadScreensUpdateInterval : ℚ
  dispatched : List RedrawDispatch

/-- Handing a redraw event to a superclass `clbkPanelRedrawEvent`: the call is
entered in `dispatched`, and `result` gives what the superclass returns. -/
def dispatchRedraw (result : Superclass → AreaID → Int → Bool) (via : Superclass)
    (areaID : AreaID) (event : Int) (v : PanelState) : Bool × PanelState :=
  (result via areaID event,
    { v with dispatched := v.dispatched ++ [⟨v.systemUptime, via, areaID, event⟩] })

/-- `XR3Phoenix::clbkPanelRedrawEvent(areaID, event, surf)`: the returned flag and the
new state. The `switch` with its `goto check` is the choice of `screenIndex`. -/
def clbkPanelRedrawEvent (result : Superclass → AreaID → Int → Bool) (areaID : AreaID)
    (event : Int) (v : PanelState) : Bool × PanelState :=
  if event = PANEL_REDRAW_ALWAYS then
    let uptime := v.systemUptime
    let check (screenIndex : Nat) : Bool × PanelState :=
      if uptime < v.m_nextPayloadScreensRefresh screenIndex then (false, v)
      else
        let refresh := Function.update v.m_nextPayloadScreensRefresh screenIndex
          (uptime + v.PayloadScreensUpdateInterval)
        let v := { v with m_nextPayloadScreensRefresh := refresh }
        dispatchRedraw result Superclass.VESSEL3_EXT areaID event v
    match areaID with
    | AreaID.AID_SELECT_PAYLOAD_BAY_SLOT_SCREEN => check 0
    | AreaID.AID_GRAPPLE_PAYLOAD_SCREEN => check 1
    | AreaID.AID_DEPLOY_PAYLOAD_SCREEN => check 2
    | _ => dispatchRedraw result Superclass.DeltaGliderXR1 areaID event v
  else
    dispatchRedraw result Superclass.DeltaGliderXR1 areaID event v

/-- One call of `clbkPanelRedrawEvent` by the simulator, at a system uptime. -/
structure RedrawCall where
  uptime : ℚ
  areaID : AreaID
  event : Int

/-- The simulator calling `clbkPanelRedrawEvent` for each call of the list in turn,
the clock standing at the uptime of the call. -/
def redrawRun (result : Superclass → AreaID → Int → Bool) (calls : List RedrawCall)
    (v : PanelState) : PanelState :=
  calls.foldl
    (fun s c => (clbkPanelRedrawEvent result c.areaID c.event
      { s with systemUptime := c.uptime }).2) v

/-- The uptimes at which redraws of the payload screen `areaID` were handed on by the
throttled path, oldest first. -/
def screenRedrawTimes (areaID : AreaID) (v : PanelState) : List ℚ :=
  (v.dispatched.filter
    (fun d => decide (d.via = Superclass.VESSEL3_EXT ∧ d.areaID = areaID))).map
    RedrawDispatch.uptime

/-- A panel in which no payload screen has been drawn yet: timers at 0, refresh
interval 0.5, nothing handed on. -/
def freshPanel : PanelState where
  m_nextPayloadScreensRefresh := fun _ => 0
  systemUptime := 0
  PayloadScreensUpdateInterval := 0.5
  dispatched := []

/-- One thing that happens to the RCS configuration: the pilot asks for a layout,
the simulator engages or disengages a navmode, or a custom autopilot mode is set. -/
inductive PilotEvent
  | setRCSDockingMode (dockingMode : Bool)
  | navMode (mode : Int) (active : Bool)
  | customAutopilot (mode : AUTOPILOT)

/-- Perform one event. For a navmode the simulator first records the new state of
the mode, which `GetNavmodeState` reports, and then calls `clbkNavMode`; the stand-ins
`idleNavMode` and `storeAutopilotMode` take the place of the base-class methods. -/
def PilotEvent.run (e : PilotEvent) (v : XR3) : XR3 :=
  match e with
  | PilotEvent.setRCSDockingMode dockingMode => (SetRCSDockingMode dockingMode v).2
  | PilotEvent.navMode mode active =>
    clbkNavMode idleNavMode mode active
      { v with navmodeState := Function.update v.navmodeState mode active }
  | PilotEvent.customAutopilot mode =>
    SetCustomAutopilotMode storeAutopilotMode mode true false v

/-- Perform a sequence of events, first to last. -/
def pilotRun (es : List PilotEvent) (v : XR3) : XR3 :=
  es.foldl (fun s e => e.run s) v

end XR3Phoenix

/-! ## XR2 Ravenstar: the XRVesselCtrl door and status methods

An embedding of `SetDoorState`, `GetDoorState` and `SetXRSystemStatus` of
`XR2Ravenstar/XR2Ravenstar/XR2VesselCtrl.cpp`.
-/

namespace XR2Ravenstar

/-- Door identifiers of the XRVesselCtrl interface: the two that the XR2 methods
name, and `other` for every identifier they leave to the superclass. -/
inductive XRDoorID
  | XRD_PayloadBayDoors
  | XRD_Ladder
  | other (id : Nat)
  deriving DecidableEq, Repr

/-- Door states of the XRVesselCtrl interface: the one that the XR2 methods name,
and `other` for the states that `ToXRDoorState` and `ToDoorStatus` convert. -/
inductive XRDoorState
  | XRDS_DoorNotSupported
  | other (state : Nat)
  deriving DecidableEq, Repr

/-- Damage states of the XRVesselCtrl interface named by the XR2 methods. -/
inductive XRDamageState
  | XRDMG_offline
  | XRDMG_online
  | XRDMG_NotSupported
  deriving DecidableEq, Repr

/-- The fields of `XRSystemStatusWrite` that the XR2 override reads. -/
structure XRSystemStatusWrite where
  PayloadBayDoors : XRDamageState
  CrewElevator : XRDamageState
  deriving DecidableEq, Repr

/-- The XR2 members read by the embedded methods. -/
structure XR2 where
  bay_status : XR3Phoenix.DoorStatus
  bay_proc : ℚ
  deriving DecidableEq, Repr

/-- What the XR2 methods call and whose bodies are not part of the sources:
`ActivateBayDoors`, the converters `ToDoorStatus` and `ToXRDoorState`, the superclass
methods `DeltaGliderXR1::SetDoorState`, `DeltaGliderXR1::GetDoorState` and
`DeltaGliderXR1::SetXRSystemStatus` (each with the value it returns and the state it
leaves), and `SetDamageStatus` for the item `BayDoors`. -/
structure Inherited where
  ActivateBayDoors : XR3Phoenix.DoorStatus → XR2 → XR2
  ToDoorStatus : XRDoorState → XR3Phoenix.DoorStatus
  ToXRDoorState : XR3Phoenix.DoorStatus → XRDoorState
  SetDoorState : XRDoorID → XRDoorState → XR2 → Bool × XR2
  GetDoorState : XRDoorID → Option ℚ → XR2 → XRDoorState × Option ℚ
  SetXRSystemStatus : XRSystemStatusWrite → XR2 → Bool × XR2
  SetDamageStatus_BayDoors : ℚ → XR2 → XR2

/-- `XR2Ravenstar::SetDoorState(id, state)`: the returned flag and the new state. -/
def SetDoorState (h : Inherited) (id : XRDoorID) (state : XRDoorState) (v : XR2) : Bool × XR2 :=
  let retVal := true
  match id with
  | XRDoorID.XRD_PayloadBayDoors => (retVal, h.ActivateBayDoors (h.ToDoorStatus state) v)
  | XRDoorID.XRD_Ladder => (false, v)
  | _ => h.SetDoorState id state v

/-- The macro `SET_IF_NOT_NULL(ptr, value)`; a pointer is `none` when it is null and
otherwise holds the value it points to. -/
def SET_IF_NOT_NULL (ptr : Option ℚ) (value : ℚ) : Option ℚ :=
  match ptr with
  | none => none
  | some _ => some value

/-- `XR2Ravenstar::GetDoorState(id, pProc)`: the returned state and what `pProc`
points to afterwards. -/
def GetDoorState (h : Inherited) (id : XRDoorID) (pProc : Option ℚ) (v : XR2) :
    XRDoorState × Option ℚ :=
  match id with
  | XRDoorID.XRD_PayloadBayDoors => (h.ToXRDoorState v.bay_status, SET_IF_NOT_NULL pProc v.bay_proc)
  | XRDoorID.XRD_Ladder => (XRDoorState.XRDS_DoorNotSupported, SET_IF_NOT_NULL pProc (-1))
  | _ => h.GetDoorState id pProc v

/-- `XR2Ravenstar::SetXRSystemStatus(status)`: the returned flag and the new state. -/
def SetXRSystemStatus (h : Inherited) (status : XRSystemStatusWrite) (v : XR2) : Bool × XR2 :=
  let v := (h.SetXRSystemStatus status v).2
  let bayDoorState : ℚ := if status.PayloadBayDoors = XRDamageState.XRDMG_online then 1.0 else 0.0
  let v := h.SetDamageStatus_BayDoors bayDoorState v
  let retVal := true
  let retVal := retVal && !(decide (status.CrewElevator ≠ XRDamageState.XRDMG_NotSupported))
  (retVal, v)

/-- An XR2 with its bay doors Opening at progress 0.25. -/
def bayOpening : XR2 where
  bay_status := XR3Phoenix.DoorStatus.DOOR_OPENING
  bay_proc := 0.25

/-- Stand-ins for the inherited methods: `ActivateBayDoors` commits the action, doors
and states convert by a fixed table, and the superclass methods report, as an XR1
does for what it does not have, that the door or the field is not supported. -/
def plainInherited : Inherited where
  ActivateBayDoors := fun action v => { v with bay_status := action }
  ToDoorStatus := fun state =>
    match state with
    | XRDoorState.other 1 => XR3Phoenix.DoorStatus.DOOR_OPENING
    | XRDoorState.other 2 => XR3Phoenix.DoorStatus.DOOR_OPEN
    | XRDoorState.other 3 => XR3Phoenix.DoorStatus.DOOR_CLOSING
    | XRDoorState.other 4 => XR3Phoenix.DoorStatus.DOOR_CLOSED
    | _ => XR3Phoenix.DoorStatus.DOOR_FAILED
  ToXRDoorState := fun status =>
    match status with
    | XR3Phoenix.DoorStatus.DOOR_OPENING => XRDoorState.other 1
    | XR3Phoenix.DoorStatus.DOOR_OPEN => XRDoorState.other 2
    | XR3Phoenix.DoorStatus.DOOR_CLOSING => XRDoorState.other 3
    | XR3Phoenix.DoorStatus.DOOR_CLOSED => XRDoorState.other 4
    | XR3Phoenix.DoorStatus.DOOR_FAILED => XRDoorState.other 5
  SetDoorState := fun _ _ v => (false, v)
  GetDoorState := fun _ pProc _ => (XRDoorState.XRDS_DoorNotSupported, SET_IF_NOT_NULL pProc (-1))
  SetXRSystemStatus := fun _ v => (false, v)
  SetDamageStatus_BayDoors := fun _ v => v

end XR2Ravenstar

/-! ## Framework: the vessel configuration file parser

An embedding of `VesselConfigFileParser::ParseVesselConfig` of
`framework/framework/VesselConfigFileParser.cpp`.
-/

/-- The members of the configuration parser that `ParseVesselConfig` reads or writes:
the log prefix set by `SetLogPrefix`, the two file-name strings, the name that
`GetDefaultFilename()` returns, and the lines written by `WriteLog`, oldest first. -/
structure VesselConfigFileParser where
  logPrefix : String
  m_csOverrideFilename : String
  m_csConfigFilenames : String
  defaultFilename : String
  log : List String
  deriving DecidableEq, Repr

namespace VesselConfigFileParser

/-- The statements of `ParseVesselConfig` before the first `ParseFile`: the log
prefix, the override file name and whether that file exists, the `+` or
`no override found` description of the files, and the log line. Gives
`overrideFileExists` and the new state. -/
def ParseVesselConfig.announce (PathFileExists : String → Bool) (pVesselName : String)
    (p : VesselConfigFileParser) : Bool × VesselConfigFileParser :=
  let p := { p with logPrefix := pVesselName }
  let p := { p with m_csOverrideFilename := "Config\\" ++ pVesselName ++ ".xrcfg" }
  let overrideFileExists := PathFileExists p.m_csOverrideFilename
  let p :=
    if overrideFileExists then
      { p with m_csConfigFilenames := p.defaultFilename ++ " + " ++ p.m_csOverrideFilename }
    else
      let p := { p with m_csConfigFilenames :=
        p.defaultFilename ++ " (no override found [" ++ p.m_csOverrideFilename ++ "])" }
      { p with m_csOverrideFilename := "" }
  let csTemp := "Using configuration file(s): " ++ p.m_csConfigFilenames
  (overrideFileExists, { p with log := p.log ++ [csTemp] })

/-- `VesselConfigFileParser::ParseVesselConfig(pVesselName)`: the returned flag and
the new state. `PathFileExists` is the file system; `ParseFile` is the base-class
method, called with no argument (`none`) for the default file or with a file name,
and gives the flag it returns and the state it leaves. -/
def ParseVesselConfig (PathFileExists : String → Bool)
    (ParseFile : Option String → VesselConfigFileParser → Bool × VesselConfigFileParser)
    (pVesselName : String) (p : VesselConfigFileParser) : Bool × VesselConfigFileParser :=
  let a := ParseVesselConfig.announce PathFileExists pVesselName p
  let overrideFileExists := a.1
  let p := a.2
  let r := ParseFile none p
  let retVal := r.1
  let p := r.2
  if overrideFileExists then
    let r := ParseFile (some p.m_csOverrideFilename) p
    (retVal && r.1, r.2)
  else
    (retVal, p)

/-- A parser before `ParseVesselConfig`, with `Config\\XR3PhoenixPrefs.cfg` as the
name that `GetDefaultFilename()` returns. -/
def fresh : VesselConfigFileParser where
  logPrefix := ""
  m_csOverrideFilename := ""
  m_csConfigFilenames := ""
  defaultFilename := "Config\\XR3PhoenixPrefs.cfg"
  log := []

/-- A stand-in for `ParseFile`: the default file parses, any other file does not;
each file parsed is noted in the log. -/
def parseOnlyDefault (file : Option String) (p : VesselConfigFileParser) :
    Bool × VesselConfigFileParser :=
  match file with
  | none => (true, { p with log := p.log ++ ["parsed default"] })
  | some name => (false, { p with log := p.log ++ ["failed " ++ name] })

end VesselConfigFileParser

namespace XR3Phoenix

/-! ## Shared lemmas -/

open DoorStatus

@[simp] theorem emit_radiator_status (e : Effect) (v : Vessel) :
    (emit e v).radiator_status = v.radiator_status := rfl

@[simp] theorem emit_radiator_proc (e : Effect) (v : Vessel) :
    (emit e v).radiator_proc = v.radiator_proc := rfl

@[simp] theorem emit_crewElevator_status (e : Effect) (v : Vessel) :
    (emit e v).crewElevator_status = v.crewElevator_status := rfl

@[simp] theorem emit_crewElevator_proc (e : Effect) (v : Vessel) :
    (emit e v).crewElevator_proc = v.crewElevator_proc := rfl

@[simp] theorem emit_bay_status (e : Effect) (v : Vessel) :
    (emit e v).bay_status = v.bay_status := rfl

@[simp] theorem emit_bay_proc (e : Effect) (v : Vessel) :
    (emit e v).bay_proc = v.bay_proc := rfl

@[simp] theorem emit_gear_status (e : Effect) (v : Vessel) :
    (emit e v).gear_status = v.gear_status := rfl

@[simp] theorem emit_gear_proc (e : Effect) (v : Vessel) :
    (emit e v).gear_proc = v.gear_proc := rfl

@[simp] theorem eraseLog_emit (e : Effect) (v : Vessel) :
    eraseLog (emit e v) = eraseLog v := rfl

theorem recorded_emit (t : String) (e : Effect) (v : Vessel) :
    recorded t (emit e v) = recorded t v ++
      (match e with
       | Effect.RecordEvent t1 ev => if t1 = t then [ev] else []
       | _ => []) := by
  cases e <;> simp [recorded, emit, List.filterMap_append]
  split_ifs with h <;> simp [List.filterMap_cons, h]

theorem redraws_emit (e : Effect) (v : Vessel) :
    redraws (emit e v) = redraws v ++
      (match e with
       | Effect.TriggerRedrawArea a => [a]
       | _ => []) := by
  cases e <;> simp [redraws, emit, List.filterMap_append]

/-- A blocked radiator request changes nothing but the log, to which it adds
neither a playback event nor a redraw notification. -/
theorem ActivateRadiator_blocked (action : DoorStatus) (v : Vessel)
    (h : v.radiator_status = DOOR_FAILED ∨ v.hydraulicPressure = false ∨
      v.bay_status = DOOR_OPENING ∨ v.bay_status = DOOR_CLOSING ∨ v.bay_status = DOOR_OPEN) :
    eraseLog (ActivateRadiator action v) = eraseLog v ∧
    (∀ t, recorded t (ActivateRadiator action v) = recorded t v) ∧
    redraws (ActivateRadiator action v) = redraws v := by
  unfold ActivateRadiator CheckHydraulicPressure
  by_cases h1 : v.radiator_status = DOOR_FAILED
  · simp [h1, ShowWarning, PlayErrorBeep, recorded_emit, redraws_emit]
  · by_cases h2 : v.hydraulicPressure = true
    · have h3 : v.bay_status = DOOR_OPENING ∨ v.bay_status = DOOR_CLOSING ∨
          v.bay_status = DOOR_OPEN := by
        simpa [h1, h2] using h
      rcases h3 with h3 | h3 | h3 <;>
        simp [h1, h2, h3, ShowWarning, PlayErrorBeep, recorded_emit, redraws_emit]
    · simp [h1, h2, recorded_emit, redraws_emit]

/-- An unblocked radiator request, written out. -/
theorem ActivateRadiator_commit (action : DoorStatus) (v : Vessel)
    (h1 : v.radiator_status ≠ DOOR_FAILED) (h2 : v.hydraulicPressure = true)
    (h3 : v.bay_status ≠ DOOR_OPENING) (h4 : v.bay_status ≠ DOOR_CLOSING)
    (h5 : v.bay_status ≠ DOOR_OPEN) :
    ActivateRadiator action v =
      { v with
        radiator_status := action
        radiator_proc := CHECK_DOOR_JUMP action v.radiator_proc
        log := v.log ++
          [Effect.SetXRAnimation Anim.anim_radiator (CHECK_DOOR_JUMP action v.radiator_proc),
           Effect.TriggerRedrawArea AreaID.AID_RADIATORSWITCH,
           Effect.TriggerRedrawArea AreaID.AID_RADIATORINDICATOR,
           Effect.UpdateCtrlDialog,
           Effect.RecordEvent "RADIATOR"
             (if action = DOOR_CLOSED ∨ action = DOOR_CLOSING then "CLOSE" else "OPEN")] } := by
  unfold ActivateRadiator CheckHydraulicPressure
  simp [h1, h2, h3, h4, h5, SetXRAnimation, TriggerRedrawArea, UpdateCtrlDialog, RecordEvent, emit]

/-- A blocked elevator request changes nothing but the log, to which it adds
neither a playback event nor a redraw notification. -/
theorem ActivateElevator_blocked (action : DoorStatus) (v : Vessel)
    (h : v.crewElevator_status = DOOR_FAILED ∨ v.hydraulicPressure = false ∨
      v.altitudeGround < v.GEAR_FULLY_COMPRESSED_DISTANCE - 0.2) :
    eraseLog (ActivateElevator action v) = eraseLog v ∧
    (∀ t, recorded t (ActivateElevator action v) = recorded t v) ∧
    redraws (ActivateElevator action v) = redraws v := by
  unfold ActivateElevator CheckHydraulicPressure
  by_cases h1 : v.crewElevator_status = DOOR_FAILED
  · simp [h1, ShowWarning, PlayErrorBeep, recorded_emit, redraws_emit]
  · by_cases h2 : v.hydraulicPressure = true
    · have h3 : v.altitudeGround < v.GEAR_FULLY_COMPRESSED_DISTANCE - 0.2 := by
        simpa [h1, h2] using h
      simp [h1, h2, h3, ShowWarning, PlayErrorBeep, recorded_emit, redraws_emit]
    · simp [h1, h2, recorded_emit, redraws_emit]

/-- An unblocked elevator request, written out. -/
theorem ActivateElevator_commit (action : DoorStatus) (v : Vessel)
    (h1 : v.crewElevator_status ≠ DOOR_FAILED) (h2 : v.hydraulicPressure = true)
    (h3 : ¬ v.altitudeGround < v.GEAR_FULLY_COMPRESSED_DISTANCE - 0.2) :
    ActivateElevator action v =
      { v with
        crewElevator_status := action
        crewElevator_proc := CHECK_DOOR_JUMP action v.crewElevator_proc
        log := v.log ++
          [Effect.SetXRAnimation Anim.anim_crewElevator
             (CHECK_DOOR_JUMP action v.crewElevator_proc),
           Effect.TriggerRedrawArea AreaID.AID_ELEVATORSWITCH,
           Effect.TriggerRedrawArea AreaID.AID_ELEVATORINDICATOR,
           Effect.UpdateCtrlDialog,
           Effect.RecordEvent "ELEVATOR"
             (if action = DOOR_CLOSING ∨ action = DOOR_CLOSED then "CLOSE" else "OPEN")] } := by
  unfold ActivateElevator CheckHydraulicPressure
  simp [h1, h2, h3, SetXRAnimation, TriggerRedrawArea, UpdateCtrlDialog, RecordEvent, emit]

/-- The radiator entry point never touches the crew elevator. -/
theorem ActivateRadiator_elevator (action : DoorStatus) (v : Vessel) :
    (ActivateRadiator action v).crewElevator_status = v.crewElevator_status ∧
    (ActivateRadiator action v).crewElevator_proc = v.crewElevator_proc := by
  unfold ActivateRadiator CheckHydraulicPressure
  simp only [ShowWarning, PlayErrorBeep, SetXRAnimation, TriggerRedrawArea, UpdateCtrlDialog,
    RecordEvent]
  split_ifs <;> simp

/-- The elevator entry point never touches the radiator. -/
theorem ActivateElevator_radiator (action : DoorStatus) (v : Vessel) :
    (ActivateElevator action v).radiator_status = v.radiator_status ∧
    (ActivateElevator action v).radiator_proc = v.radiator_proc := by
  unfold ActivateElevator CheckHydraulicPressure
  simp only [ShowWarning, PlayErrorBeep, SetXRAnimation, TriggerRedrawArea, UpdateCtrlDialog,
    RecordEvent]
  split_ifs <;> simp

theorem eraseLog_radiator_status {v w : Vessel} (h : eraseLog v = eraseLog w) :
    v.radiator_status = w.radiator_status :=
  show (eraseLog v).radiator_status = (eraseLog w).radiator_status from congrArg Vessel.radiator_status h

theorem eraseLog_radiator_proc {v w : Vessel} (h : eraseLog v = eraseLog w) :
    v.radiator_proc = w.radiator_proc :=
  show (eraseLog v).radiator_proc = (eraseLog w).radiator_proc from congrArg Vessel.radiator_proc h

theorem eraseLog_crewElevator_status {v w : Vessel} (h : eraseLog v = eraseLog w) :
    v.crewElevator_status = w.crewElevator_status :=
  show (eraseLog v).crewElevator_status = (eraseLog w).crewElevator_status from congrArg Vessel.crewElevator_status h

theorem eraseLog_crewElevator_proc {v w : Vessel} (h : eraseLog v = eraseLog w) :
    v.crewElevator_proc = w.crewElevator_proc :=
  show (eraseLog v).crewElevator_proc = (eraseLog w).crewElevator_proc from congrArg Vessel.crewElevator_proc h

/-- The radiator entry point leaves everything its guards read, except the radiator
status itself, as it was. -/
theorem ActivateRadiator_guard_inputs (action : DoorStatus) (v : Vessel) :
    (ActivateRadiator action v).hydraulicPressure = v.hydraulicPressure ∧
    (ActivateRadiator action v).bay_status = v.bay_status := by
  unfold ActivateRadiator CheckHydraulicPressure
  simp only [ShowWarning, PlayErrorBeep, SetXRAnimation, TriggerRedrawArea, UpdateCtrlDialog,
    RecordEvent]
  split_ifs <;> simp [emit]

/-- The elevator entry point leaves everything its guards read, except the elevator
status itself, as it was. -/
theorem ActivateElevator_guard_inputs (action : DoorStatus) (v : Vessel) :
    (ActivateElevator action v).hydraulicPressure = v.hydraulicPressure ∧
    (ActivateElevator action v).altitudeGround = v.altitudeGround ∧
    (ActivateElevator action v).GEAR_FULLY_COMPRESSED_DISTANCE
      = v.GEAR_FULLY_COMPRESSED_DISTANCE := by
  unfold ActivateElevator CheckHydraulicPressure
  simp only [ShowWarning, PlayErrorBeep, SetXRAnimation, TriggerRedrawArea, UpdateCtrlDialog,
    RecordEvent]
  split_ifs <;> simp [emit]

/-- Either a guard blocks the radiator or none does. -/
theorem radiator_blocked_or_free (v : Vessel) :
    (v.radiator_status = DOOR_FAILED ∨ v.hydraulicPressure = false ∨
      v.bay_status = DOOR_OPENING ∨ v.bay_status = DOOR_CLOSING ∨ v.bay_status = DOOR_OPEN) ∨
    (v.radiator_status ≠ DOOR_FAILED ∧ v.hydraulicPressure = true ∧
      v.bay_status ≠ DOOR_OPENING ∧ v.bay_status ≠ DOOR_CLOSING ∧ v.bay_status ≠ DOOR_OPEN) := by
  by_cases h1 : v.radiator_status = DOOR_FAILED
  · exact Or.inl (Or.inl h1)
  by_cases h2 : v.hydraulicPressure = true
  swap
  · exact Or.inl (Or.inr (Or.inl (by simpa using h2)))
  by_cases h3 : v.bay_status = DOOR_OPENING
  · exact Or.inl (Or.inr (Or.inr (Or.inl h3)))
  by_cases h4 : v.bay_status = DOOR_CLOSING
  · exact Or.inl (Or.inr (Or.inr (Or.inr (Or.inl h4))))
  by_cases h5 : v.bay_status = DOOR_OPEN
  · exact Or.inl (Or.inr (Or.inr (Or.inr (Or.inr h5))))
  exact Or.inr ⟨h1, h2, h3, h4, h5⟩

/-- Either a guard blocks the crew elevator or none does. -/
theorem elevator_blocked_or_free (v : Vessel) :
    (v.crewElevator_status = DOOR_FAILED ∨ v.hydraulicPressure = false ∨
      v.altitudeGround < v.GEAR_FULLY_COMPRESSED_DISTANCE - 0.2) ∨
    (v.crewElevator_status ≠ DOOR_FAILED ∧ v.hydraulicPressure = true ∧
      ¬ v.altitudeGround < v.GEAR_FULLY_COMPRESSED_DISTANCE - 0.2) := by
  by_cases h1 : v.crewElevator_status = DOOR_FAILED
  · exact Or.inl (Or.inl h1)
  by_cases h2 : v.hydraulicPressure = true
  swap
  · exact Or.inl (Or.inr (Or.inl (by simpa using h2)))
  by_cases h3 : v.altitudeGround < v.GEAR_FULLY_COMPRESSED_DISTANCE - 0.2
  · exact Or.inl (Or.inr (Or.inr h3))
  exact Or.inr ⟨h1, h2, h3⟩

/-! ## Interlocks and guards of the transition requests -/

/-- C1: in every vessel state whose bay doors are Opening, Closing or Open, and for
every requested action, `ActivateRadiator` leaves `radiator_status` and
`radiator_proc` unchanged and records no RADIATOR playback event. -/
theorem ActivateRadiator_locked_by_bay_doors (action : DoorStatus) (v : Vessel)
    (hbay : v.bay_status = DOOR_OPENING ∨ v.bay_status = DOOR_CLOSING ∨
      v.bay_status = DOOR_OPEN) :
    (ActivateRadiator action v).radiator_status = v.radiator_status ∧
    (ActivateRadiator action v).radiator_proc = v.radiator_proc ∧
    recorded "RADIATOR" (ActivateRadiator action v) = recorded "RADIATOR" v := by
  have h := ActivateRadiator_blocked action v (Or.inr (Or.inr hbay))
  exact ⟨eraseLog_radiator_status h.1, eraseLog_radiator_proc h.1, h.2.1 "RADIATOR"⟩

/-- Witness of C1: bay doors Opening at progress 0.5, radiator deploy requested. -/
theorem ActivateRadiator_locked_by_bay_doors_witness :
    (ActivateRadiator DOOR_OPENING
        { parked with bay_status := DOOR_OPENING, bay_proc := 0.5 }).radiator_status
      = DOOR_CLOSED ∧
    (ActivateRadiator DOOR_OPENING
        { parked with bay_status := DOOR_OPENING, bay_proc := 0.5 }).radiator_proc = 0 ∧
    recorded "RADIATOR" (ActivateRadiator DOOR_OPENING
        { parked with bay_status := DOOR_OPENING, bay_proc := 0.5 }) = [] :=
  ActivateRadiator_locked_by_bay_doors DOOR_OPENING
    { parked with bay_status := DOOR_OPENING, bay_proc := 0.5 } (Or.inl rfl)

/-- C2: a Failed radiator (resp. crew elevator) ignores every request: status and
progress are unchanged and no playback event of any type is recorded; and Failed is
sticky, no sequence of `ActivateRadiator` / `ActivateElevator` calls moves the
mechanism out of Failed or changes its progress. -/
theorem Failed_blocks_and_is_sticky :
    (∀ (action : DoorStatus) (v : Vessel), v.radiator_status = DOOR_FAILED →
      (ActivateRadiator action v).radiator_status = DOOR_FAILED ∧
      (ActivateRadiator action v).radiator_proc = v.radiator_proc ∧
      ∀ t, recorded t (ActivateRadiator action v) = recorded t v) ∧
    (∀ (action : DoorStatus) (v : Vessel), v.crewElevator_status = DOOR_FAILED →
      (ActivateElevator action v).crewElevator_status = DOOR_FAILED ∧
      (ActivateElevator action v).crewElevator_proc = v.crewElevator_proc ∧
      ∀ t, recorded t (ActivateElevator action v) = recorded t v) ∧
    (∀ (rs : List Request) (v : Vessel), v.radiator_status = DOOR_FAILED →
      (runAll rs v).radiator_status = DOOR_FAILED ∧
      (runAll rs v).radiator_proc = v.radiator_proc) ∧
    (∀ (rs : List Request) (v : Vessel), v.crewElevator_status = DOOR_FAILED →
      (runAll rs v).crewElevator_status = DOOR_FAILED ∧
      (runAll rs v).crewElevator_proc = v.crewElevator_proc) := by
  have hr : ∀ (action : DoorStatus) (v : Vessel), v.radiator_status = DOOR_FAILED →
      (ActivateRadiator action v).radiator_status = DOOR_FAILED ∧
      (ActivateRadiator action v).radiator_proc = v.radiator_proc ∧
      ∀ t, recorded t (ActivateRadiator action v) = recorded t v := by
    intro action v hf
    have h := ActivateRadiator_blocked action v (Or.inl hf)
    exact ⟨(eraseLog_radiator_status h.1).trans hf, eraseLog_radiator_proc h.1, h.2.1⟩
  have he : ∀ (action : DoorStatus) (v : Vessel), v.crewElevator_status = DOOR_FAILED →
      (ActivateElevator action v).crewElevator_status = DOOR_FAILED ∧
      (ActivateElevator action v).crewElevator_proc = v.crewElevator_proc ∧
      ∀ t, recorded t (ActivateElevator action v) = recorded t v := by
    intro action v hf
    have h := ActivateElevator_blocked action v (Or.inl hf)
    exact ⟨(eraseLog_crewElevator_status h.1).trans hf, eraseLog_crewElevator_proc h.1, h.2.1⟩
  refine ⟨hr, he, ?_, ?_⟩
  · intro rs
    induction rs with
    | nil => intro v hf; exact ⟨hf, rfl⟩
    | cons r rs ih =>
      intro v hf
      have step : (r.run v).radiator_status = DOOR_FAILED ∧
          (r.run v).radiator_proc = v.radiator_proc := by
        cases r with
        | radiator action => exact ⟨(hr action v hf).1, (hr action v hf).2.1⟩
        | elevator action =>
          exact ⟨(ActivateElevator_radiator action v).1.trans hf,
            (ActivateElevator_radiator action v).2⟩
      have h := ih (r.run v) step.1
      exact ⟨h.1, h.2.trans step.2⟩
  · intro rs
    induction rs with
    | nil => intro v hf; exact ⟨hf, rfl⟩
    | cons r rs ih =>
      intro v hf
      have step : (r.run v).crewElevator_status = DOOR_FAILED ∧
          (r.run v).crewElevator_proc = v.crewElevator_proc := by
        cases r with
        | radiator action =>
          exact ⟨(ActivateRadiator_elevator action v).1.trans hf,
            (ActivateRadiator_elevator action v).2⟩
        | elevator action => exact ⟨(he action v hf).1, (he action v hf).2.1⟩
      have h := ih (r.run v) step.1
      exact ⟨h.1, h.2.trans step.2⟩

/-- Witness of C2: a Failed radiator stuck at progress 0.37 stays so through a deploy
request, a jump to Open, an elevator request and a retract request. -/
theorem Failed_blocks_and_is_sticky_witness :
    (runAll [Request.radiator DOOR_OPENING, Request.radiator DOOR_OPEN,
        Request.elevator DOOR_OPENING, Request.radiator DOOR_CLOSING]
      { parked with radiator_status := DOOR_FAILED, radiator_proc := 0.37 }).radiator_status
      = DOOR_FAILED ∧
    (runAll [Request.radiator DOOR_OPENING, Request.radiator DOOR_OPEN,
        Request.elevator DOOR_OPENING, Request.radiator DOOR_CLOSING]
      { parked with radiator_status := DOOR_FAILED, radiator_proc := 0.37 }).radiator_proc
      = 0.37 :=
  Failed_blocks_and_is_sticky.2.2.1 _
    { parked with radiator_status := DOOR_FAILED, radiator_proc := 0.37 } rfl

/-- C3: `ActivateBayDoors` hands the request to the base-class logic exactly when the
radiator is neither Opening nor Closing: then its result is the base-class result;
when the radiator is moving, `bay_status` and `bay_proc` are unchanged and the result
does not depend on the base-class logic at all. A Failed radiator does not lock the
bay doors. -/
theorem ActivateBayDoors_forwards_iff_radiator_at_rest
    (base : DoorStatus → Vessel → Vessel) (action : DoorStatus) (v : Vessel) :
    (¬ (v.radiator_status = DOOR_OPENING ∨ v.radiator_status = DOOR_CLOSING) →
      ActivateBayDoors base action v = base action v) ∧
    ((v.radiator_status = DOOR_OPENING ∨ v.radiator_status = DOOR_CLOSING) →
      (ActivateBayDoors base action v).bay_status = v.bay_status ∧
      (ActivateBayDoors base action v).bay_proc = v.bay_proc ∧
      ∀ other : DoorStatus → Vessel → Vessel,
        ActivateBayDoors other action v = ActivateBayDoors base action v) ∧
    (v.radiator_status = DOOR_FAILED → ActivateBayDoors base action v = base action v) := by
  refine ⟨?_, ?_, ?_⟩
  · intro h
    simp [ActivateBayDoors, h]
  · intro h
    simp [ActivateBayDoors, h, ShowWarning, PlayErrorBeep]
  · intro h
    simp [ActivateBayDoors, h]

/-- Witness of C3: with the radiator Opening the bay doors stay Closed whatever the
base class would do; with the radiator Failed the request reaches the base class. -/
theorem ActivateBayDoors_forwards_iff_radiator_at_rest_witness :
    (ActivateBayDoors commitBay DOOR_OPENING
        { parked with radiator_status := DOOR_OPENING }).bay_status = DOOR_CLOSED ∧
    ActivateBayDoors commitBay DOOR_OPENING { parked with radiator_status := DOOR_FAILED }
      = commitBay DOOR_OPENING { parked with radiator_status := DOOR_FAILED } :=
  ⟨((ActivateBayDoors_forwards_iff_radiator_at_rest commitBay DOOR_OPENING
      { parked with radiator_status := DOOR_OPENING }).2.1 (Or.inl rfl)).1,
   (ActivateBayDoors_forwards_iff_radiator_at_rest commitBay DOOR_OPENING
      { parked with radiator_status := DOOR_FAILED }).2.2 rfl⟩

/-- C4: when the crew elevator is not Failed, `ActivateElevator` commits the requested
action (status set to the action, progress as `CHECK_DOOR_JUMP` leaves it, one ELEVATOR
playback event recorded) if and only if hydraulic pressure is present and the altitude
above ground is at least `GEAR_FULLY_COMPRESSED_DISTANCE - 0.2`; when either guard is
unmet, `crewElevator_status` and `crewElevator_proc` are unchanged and no ELEVATOR
event is recorded. -/
theorem ActivateElevator_commits_iff_guards (action : DoorStatus) (v : Vessel)
    (hnf : v.crewElevator_status ≠ DOOR_FAILED) :
    (((ActivateElevator action v).crewElevator_status = action ∧
      (ActivateElevator action v).crewElevator_proc
        = CHECK_DOOR_JUMP action v.crewElevator_proc ∧
      recorded "ELEVATOR" (ActivateElevator action v)
        = recorded "ELEVATOR" v ++
          [if action = DOOR_CLOSING ∨ action = DOOR_CLOSED then "CLOSE" else "OPEN"]) ↔
      (v.hydraulicPressure = true ∧
        v.GEAR_FULLY_COMPRESSED_DISTANCE - 0.2 ≤ v.altitudeGround)) ∧
    (¬ (v.hydraulicPressure = true ∧
        v.GEAR_FULLY_COMPRESSED_DISTANCE - 0.2 ≤ v.altitudeGround) →
      (ActivateElevator action v).crewElevator_status = v.crewElevator_status ∧
      (ActivateElevator action v).crewElevator_proc = v.crewElevator_proc ∧
      recorded "ELEVATOR" (ActivateElevator action v) = recorded "ELEVATOR" v) := by
  have hblocked : ¬ (v.hydraulicPressure = true ∧
        v.GEAR_FULLY_COMPRESSED_DISTANCE - 0.2 ≤ v.altitudeGround) →
      eraseLog (ActivateElevator action v) = eraseLog v ∧
      (∀ t, recorded t (ActivateElevator action v) = recorded t v) ∧
      redraws (ActivateElevator action v) = redraws v := by
    intro hg
    apply ActivateElevator_blocked
    by_cases hp : v.hydraulicPressure = true
    · exact Or.inr (Or.inr (lt_of_not_le fun hle => hg ⟨hp, hle⟩))
    · exact Or.inr (Or.inl (by simpa using hp))
  refine ⟨⟨?_, ?_⟩, ?_⟩
  · rintro ⟨-, -, hrec⟩
    by_contra hg
    rw [(hblocked hg).2.1 "ELEVATOR"] at hrec
    simp at hrec
  · rintro ⟨hp, halt⟩
    rw [ActivateElevator_commit action v hnf hp (not_lt.mpr halt)]
    simp [recorded, List.filterMap_append]
  · intro hg
    have h := hblocked hg
    exact ⟨eraseLog_crewElevator_status h.1, eraseLog_crewElevator_proc h.1, h.2.1 "ELEVATOR"⟩

/-- Witness of C4: parked at altitude 10 with the threshold at 8 - 0.2 and pressure
present, a request to raise the elevator is committed. -/
theorem ActivateElevator_commits_iff_guards_witness :
    (ActivateElevator DOOR_OPENING parked).crewElevator_status = DOOR_OPENING ∧
    (ActivateElevator DOOR_OPENING parked).crewElevator_proc
      = CHECK_DOOR_JUMP DOOR_OPENING parked.crewElevator_proc ∧
    recorded "ELEVATOR" (ActivateElevator DOOR_OPENING parked)
      = recorded "ELEVATOR" parked ++
        [if DOOR_OPENING = DOOR_CLOSING ∨ DOOR_OPENING = DOOR_CLOSED then "CLOSE" else "OPEN"] :=
  (ActivateElevator_commits_iff_guards DOOR_OPENING parked (by decide)).1.mpr
    ⟨rfl, by norm_num [parked]⟩

/-- C5: a retract request `ActivateLandingGear(DOOR_CLOSING)` reaches the base-class
gear logic only when `m_noseGearProc` and `m_rearGearProc` both equal exactly 1.0 (then
the result is the base-class result); otherwise `gear_status` and `gear_proc` are
unchanged and the result does not depend on the base-class logic. -/
theorem ActivateLandingGear_retract_needs_uncompressed_gear
    (base : DoorStatus → Vessel → Vessel) (v : Vessel) :
    ((v.m_noseGearProc = 1 ∧ v.m_rearGearProc = 1) →
      ActivateLandingGear base DOOR_CLOSING v = base DOOR_CLOSING v) ∧
    (¬ (v.m_noseGearProc = 1 ∧ v.m_rearGearProc = 1) →
      (ActivateLandingGear base DOOR_CLOSING v).gear_status = v.gear_status ∧
      (ActivateLandingGear base DOOR_CLOSING v).gear_proc = v.gear_proc ∧
      ∀ other : DoorStatus → Vessel → Vessel,
        ActivateLandingGear other DOOR_CLOSING v = ActivateLandingGear base DOOR_CLOSING v) := by
  constructor
  · rintro ⟨hn, hr⟩
    simp [ActivateLandingGear, hn, hr]
  · intro h
    have h2 : v.m_noseGearProc ≠ 1 ∨ v.m_rearGearProc ≠ 1 := by
      by_cases hn : v.m_noseGearProc = 1
      · exact Or.inr fun hr => h ⟨hn, hr⟩
      · exact Or.inl hn
    simp [ActivateLandingGear, h2, ShowWarning, PlayErrorBeep]

/-- Witness of C5: with the nose leg compressed to 0.5 the gear stays down, and with
both legs at 1.0 the retract request reaches the base class. -/
theorem ActivateLandingGear_retract_needs_uncompressed_gear_witness :
    (ActivateLandingGear commitGear DOOR_CLOSING
        { parked with m_noseGearProc := 0.5 }).gear_status = DOOR_OPEN ∧
    ActivateLandingGear commitGear DOOR_CLOSING parked = commitGear DOOR_CLOSING parked :=
  ⟨((ActivateLandingGear_retract_needs_uncompressed_gear commitGear
      { parked with m_noseGearProc := 0.5 }).2 (by norm_num [parked])).1,
   (ActivateLandingGear_retract_needs_uncompressed_gear commitGear parked).1 ⟨rfl, rfl⟩⟩

/-! ## Committed transitions -/

/-- C6: for a target in Opening, Closing and a state in which no guard blocks,
`ActivateRadiator` (resp. `ActivateElevator`) sets the mechanism status to the target,
leaves its progress exactly unchanged and records one playback event, "OPEN" for
Opening and "CLOSE" for Closing; this holds whatever the status before the call, so a
request for the opposite target mid-transition reverses the status without resetting
progress. -/
theorem Activate_commits_target_keeps_progress (target : DoorStatus) (v : Vessel)
    (htarget : target = DOOR_OPENING ∨ target = DOOR_CLOSING)
    (hp : v.hydraulicPressure = true) :
    ((v.radiator_status ≠ DOOR_FAILED ∧ v.bay_status ≠ DOOR_OPENING ∧
        v.bay_status ≠ DOOR_CLOSING ∧ v.bay_status ≠ DOOR_OPEN) →
      (ActivateRadiator target v).radiator_status = target ∧
      (ActivateRadiator target v).radiator_proc = v.radiator_proc ∧
      recorded "RADIATOR" (ActivateRadiator target v)
        = recorded "RADIATOR" v ++ [if target = DOOR_OPENING then "OPEN" else "CLOSE"]) ∧
    ((v.crewElevator_status ≠ DOOR_FAILED ∧
        ¬ v.altitudeGround < v.GEAR_FULLY_COMPRESSED_DISTANCE - 0.2) →
      (ActivateElevator target v).crewElevator_status = target ∧
      (ActivateElevator target v).crewElevator_proc = v.crewElevator_proc ∧
      recorded "ELEVATOR" (ActivateElevator target v)
        = recorded "ELEVATOR" v ++ [if target = DOOR_OPENING then "OPEN" else "CLOSE"]) := by
  constructor
  · rintro ⟨h1, h3, h4, h5⟩
    rw [ActivateRadiator_commit target v h1 hp h3 h4 h5]
    rcases htarget with rfl | rfl <;>
      simp [recorded, List.filterMap_append, CHECK_DOOR_JUMP]
  · rintro ⟨h1, h3⟩
    rw [ActivateElevator_commit target v h1 hp h3]
    rcases htarget with rfl | rfl <;>
      simp [recorded, List.filterMap_append, CHECK_DOOR_JUMP]

/-- Witness of C6: a radiator Opening at progress 0.37 is asked to close: the status
becomes Closing, the progress stays 0.37 and one "CLOSE" event is recorded. -/
theorem Activate_commits_target_keeps_progress_witness :
    (ActivateRadiator DOOR_CLOSING
        { parked with radiator_status := DOOR_OPENING, radiator_proc := 0.37 }).radiator_status
      = DOOR_CLOSING ∧
    (ActivateRadiator DOOR_CLOSING
        { parked with radiator_status := DOOR_OPENING, radiator_proc := 0.37 }).radiator_proc
      = 0.37 ∧
    recorded "RADIATOR" (ActivateRadiator DOOR_CLOSING
        { parked with radiator_status := DOOR_OPENING, radiator_proc := 0.37 })
      = [] ++ [if DOOR_CLOSING = DOOR_OPENING then "OPEN" else "CLOSE"] :=
  (Activate_commits_target_keeps_progress DOOR_CLOSING
    { parked with radiator_status := DOOR_OPENING, radiator_proc := 0.37 }
    (Or.inr rfl) rfl).1 (by decide)

/-- Counterexample to C7 as stated: with the bay doors Open, `ActivateRadiator(DOOR_OPEN)`
does not take effect; the radiator stays Closed at progress 0. -/
theorem instant_jump_always_takes_effect_counterexample :
    ¬ ((ActivateRadiator DOOR_OPEN
          { parked with bay_status := DOOR_OPEN, bay_proc := 1 }).radiator_status = DOOR_OPEN ∧
       (ActivateRadiator DOOR_OPEN
          { parked with bay_status := DOOR_OPEN, bay_proc := 1 }).radiator_proc = 1) := by
  decide

/-- C7, amended: in every state in which no guard blocks the request,
`ActivateRadiator(DOOR_OPEN)` (resp. `ActivateElevator(DOOR_OPEN)`) results in status
Open with progress exactly 1 and the Closed jump in status Closed with progress exactly
0, immediately; when a guard blocks (mechanism Failed, no hydraulic pressure, bay doors
moving or Open for the radiator, altitude below the threshold for the elevator), the
jump does not take effect: status and progress are unchanged. -/
theorem instant_jump_takes_effect_unless_blocked (v : Vessel) :
    ((v.radiator_status ≠ DOOR_FAILED ∧ v.hydraulicPressure = true ∧
        v.bay_status ≠ DOOR_OPENING ∧ v.bay_status ≠ DOOR_CLOSING ∧
        v.bay_status ≠ DOOR_OPEN) →
      (ActivateRadiator DOOR_OPEN v).radiator_status = DOOR_OPEN ∧
      (ActivateRadiator DOOR_OPEN v).radiator_proc = 1 ∧
      (ActivateRadiator DOOR_CLOSED v).radiator_status = DOOR_CLOSED ∧
      (ActivateRadiator DOOR_CLOSED v).radiator_proc = 0) ∧
    ((v.radiator_status = DOOR_FAILED ∨ v.hydraulicPressure = false ∨
        v.bay_status = DOOR_OPENING ∨ v.bay_status = DOOR_CLOSING ∨
        v.bay_status = DOOR_OPEN) →
      ∀ action, (ActivateRadiator action v).radiator_status = v.radiator_status ∧
        (ActivateRadiator action v).radiator_proc = v.radiator_proc) ∧
    ((v.crewElevator_status ≠ DOOR_FAILED ∧ v.hydraulicPressure = true ∧
        ¬ v.altitudeGround < v.GEAR_FULLY_COMPRESSED_DISTANCE - 0.2) →
      (ActivateElevator DOOR_OPEN v).crewElevator_status = DOOR_OPEN ∧
      (ActivateElevator DOOR_OPEN v).crewElevator_proc = 1 ∧
      (ActivateElevator DOOR_CLOSED v).crewElevator_status = DOOR_CLOSED ∧
      (ActivateElevator DOOR_CLOSED v).crewElevator_proc = 0) ∧
    ((v.crewElevator_status = DOOR_FAILED ∨ v.hydraulicPressure = false ∨
        v.altitudeGround < v.GEAR_FULLY_COMPRESSED_DISTANCE - 0.2) →
      ∀ action, (ActivateElevator action v).crewElevator_status = v.crewElevator_status ∧
        (ActivateElevator action v).crewElevator_proc = v.crewElevator_proc) := by
  refine ⟨?_, ?_, ?_, ?_⟩
  · rintro ⟨h1, h2, h3, h4, h5⟩
    rw [ActivateRadiator_commit DOOR_OPEN v h1 h2 h3 h4 h5,
      ActivateRadiator_commit DOOR_CLOSED v h1 h2 h3 h4 h5]
    simp [CHECK_DOOR_JUMP]
  · intro h action
    have hb := ActivateRadiator_blocked action v h
    exact ⟨eraseLog_radiator_status hb.1, eraseLog_radiator_proc hb.1⟩
  · rintro ⟨h1, h2, h3⟩
    rw [ActivateElevator_commit DOOR_OPEN v h1 h2 h3,
      ActivateElevator_commit DOOR_CLOSED v h1 h2 h3]
    simp [CHECK_DOOR_JUMP]
  · intro h action
    have hb := ActivateElevator_blocked action v h
    exact ⟨eraseLog_crewElevator_status hb.1, eraseLog_crewElevator_proc hb.1⟩

/-- Witness of C7 amended: a radiator Closing at progress 0.37 jumps to Open at 1 and to
Closed at 0 when nothing blocks. -/
theorem instant_jump_takes_effect_unless_blocked_witness :
    (ActivateRadiator DOOR_OPEN
        { parked with radiator_status := DOOR_CLOSING, radiator_proc := 0.37 }).radiator_status
      = DOOR_OPEN ∧
    (ActivateRadiator DOOR_OPEN
        { parked with radiator_status := DOOR_CLOSING, radiator_proc := 0.37 }).radiator_proc
      = 1 ∧
    (ActivateRadiator DOOR_CLOSED
        { parked with radiator_status := DOOR_CLOSING, radiator_proc := 0.37 }).radiator_status
      = DOOR_CLOSED ∧
    (ActivateRadiator DOOR_CLOSED
        { parked with radiator_status := DOOR_CLOSING, radiator_proc := 0.37 }).radiator_proc
      = 0 :=
  (instant_jump_takes_effect_unless_blocked
    { parked with radiator_status := DOOR_CLOSING, radiator_proc := 0.37 }).1 (by decide)

/-- Counterexample to C8 as stated: on the parked vessel two consecutive
`ActivateRadiator(DOOR_OPENING)` calls record two "OPEN" events and send four redraw
notifications, where the first call alone records one event and sends two; the second
call is not a no-op. -/
theorem repeated_request_is_noop_counterexample :
    recorded "RADIATOR" (ActivateRadiator DOOR_OPENING (ActivateRadiator DOOR_OPENING parked))
      = ["OPEN", "OPEN"] ∧
    recorded "RADIATOR" (ActivateRadiator DOOR_OPENING parked) = ["OPEN"] ∧
    (redraws (ActivateRadiator DOOR_OPENING (ActivateRadiator DOOR_OPENING parked))).length
      = 4 ∧
    ¬ ((recorded "RADIATOR"
          (ActivateRadiator DOOR_OPENING (ActivateRadiator DOOR_OPENING parked))).length = 1 ∧
       (redraws (ActivateRadiator DOOR_OPENING (ActivateRadiator DOOR_OPENING parked))).length
          = 1 ∧
       ActivateRadiator DOOR_OPENING (ActivateRadiator DOOR_OPENING parked)
          = ActivateRadiator DOOR_OPENING parked) := by
  decide

/-- C8, amended: calling `ActivateRadiator(DOOR_OPENING)` (resp.
`ActivateElevator(DOOR_OPENING)`) twice in a row leaves the same vessel state, the
effect log apart, as a single call; the sink is notified by each call: when no guard
blocks, two calls record two "OPEN" playback events and send the switch and indicator
redraw notifications twice, and when a guard blocks they record no event and send no
redraw notification. -/
theorem repeated_request_same_state_events_repeat (v : Vessel) :
    eraseLog (ActivateRadiator DOOR_OPENING (ActivateRadiator DOOR_OPENING v))
      = eraseLog (ActivateRadiator DOOR_OPENING v) ∧
    eraseLog (ActivateElevator DOOR_OPENING (ActivateElevator DOOR_OPENING v))
      = eraseLog (ActivateElevator DOOR_OPENING v) ∧
    ((v.radiator_status ≠ DOOR_FAILED ∧ v.hydraulicPressure = true ∧
        v.bay_status ≠ DOOR_OPENING ∧ v.bay_status ≠ DOOR_CLOSING ∧
        v.bay_status ≠ DOOR_OPEN) →
      recorded "RADIATOR" (ActivateRadiator DOOR_OPENING (ActivateRadiator DOOR_OPENING v))
        = recorded "RADIATOR" v ++ ["OPEN", "OPEN"] ∧
      redraws (ActivateRadiator DOOR_OPENING (ActivateRadiator DOOR_OPENING v))
        = redraws v ++ [AreaID.AID_RADIATORSWITCH, AreaID.AID_RADIATORINDICATOR,
            AreaID.AID_RADIATORSWITCH, AreaID.AID_RADIATORINDICATOR]) ∧
    ((v.radiator_status = DOOR_FAILED ∨ v.hydraulicPressure = false ∨
        v.bay_status = DOOR_OPENING ∨ v.bay_status = DOOR_CLOSING ∨
        v.bay_status = DOOR_OPEN) →
      recorded "RADIATOR" (ActivateRadiator DOOR_OPENING (ActivateRadiator DOOR_OPENING v))
        = recorded "RADIATOR" v ∧
      redraws (ActivateRadiator DOOR_OPENING (ActivateRadiator DOOR_OPENING v))
        = redraws v) ∧
    ((v.crewElevator_status ≠ DOOR_FAILED ∧ v.hydraulicPressure = true ∧
        ¬ v.altitudeGround < v.GEAR_FULLY_COMPRESSED_DISTANCE - 0.2) →
      recorded "ELEVATOR" (ActivateElevator DOOR_OPENING (ActivateElevator DOOR_OPENING v))
        = recorded "ELEVATOR" v ++ ["OPEN", "OPEN"] ∧
      redraws (ActivateElevator DOOR_OPENING (ActivateElevator DOOR_OPENING v))
        = redraws v ++ [AreaID.AID_ELEVATORSWITCH, AreaID.AID_ELEVATORINDICATOR,
            AreaID.AID_ELEVATORSWITCH, AreaID.AID_ELEVATORINDICATOR]) ∧
    ((v.crewElevator_status = DOOR_FAILED ∨ v.hydraulicPressure = false ∨
        v.altitudeGround < v.GEAR_FULLY_COMPRESSED_DISTANCE - 0.2) →
      recorded "ELEVATOR" (ActivateElevator DOOR_OPENING (ActivateElevator DOOR_OPENING v))
        = recorded "ELEVATOR" v ∧
      redraws (ActivateElevator DOOR_OPENING (ActivateElevator DOOR_OPENING v))
        = redraws v) := by
  have rfree : (v.radiator_status ≠ DOOR_FAILED ∧ v.hydraulicPressure = true ∧
        v.bay_status ≠ DOOR_OPENING ∧ v.bay_status ≠ DOOR_CLOSING ∧
        v.bay_status ≠ DOOR_OPEN) →
      eraseLog (ActivateRadiator DOOR_OPENING (ActivateRadiator DOOR_OPENING v))
        = eraseLog (ActivateRadiator DOOR_OPENING v) ∧
      recorded "RADIATOR" (ActivateRadiator DOOR_OPENING (ActivateRadiator DOOR_OPENING v))
        = recorded "RADIATOR" v ++ ["OPEN", "OPEN"] ∧
      redraws (ActivateRadiator DOOR_OPENING (ActivateRadiator DOOR_OPENING v))
        = redraws v ++ [AreaID.AID_RADIATORSWITCH, AreaID.AID_RADIATORINDICATOR,
            AreaID.AID_RADIATORSWITCH, AreaID.AID_RADIATORINDICATOR] := by
    rintro ⟨h1, h2, h3, h4, h5⟩
    have hc := ActivateRadiator_commit DOOR_OPENING v h1 h2 h3 h4 h5
    have hg := ActivateRadiator_guard_inputs DOOR_OPENING v
    have hc2 := ActivateRadiator_commit DOOR_OPENING (ActivateRadiator DOOR_OPENING v)
      (by rw [hc]; simp) (hg.1.trans h2) (hg.2 ▸ h3) (hg.2 ▸ h4) (hg.2 ▸ h5)
    rw [hc2, hc]
    simp [eraseLog, recorded, redraws, List.filterMap_append, CHECK_DOOR_JUMP]
  have rblocked : (v.radiator_status = DOOR_FAILED ∨ v.hydraulicPressure = false ∨
        v.bay_status = DOOR_OPENING ∨ v.bay_status = DOOR_CLOSING ∨
        v.bay_status = DOOR_OPEN) →
      eraseLog (ActivateRadiator DOOR_OPENING (ActivateRadiator DOOR_OPENING v))
        = eraseLog (ActivateRadiator DOOR_OPENING v) ∧
      recorded "RADIATOR" (ActivateRadiator DOOR_OPENING (ActivateRadiator DOOR_OPENING v))
        = recorded "RADIATOR" v ∧
      redraws (ActivateRadiator DOOR_OPENING (ActivateRadiator DOOR_OPENING v))
        = redraws v := by
    intro h
    have hb := ActivateRadiator_blocked DOOR_OPENING v h
    have hg := ActivateRadiator_guard_inputs DOOR_OPENING v
    have h2 : (ActivateRadiator DOOR_OPENING v).radiator_status = DOOR_FAILED ∨
        (ActivateRadiator DOOR_OPENING v).hydraulicPressure = false ∨
        (ActivateRadiator DOOR_OPENING v).bay_status = DOOR_OPENING ∨
        (ActivateRadiator DOOR_OPENING v).bay_status = DOOR_CLOSING ∨
        (ActivateRadiator DOOR_OPENING v).bay_status = DOOR_OPEN := by
      rw [eraseLog_radiator_status hb.1, hg.1, hg.2]
      exact h
    have hb2 := ActivateRadiator_blocked DOOR_OPENING _ h2
    exact ⟨hb2.1, (hb2.2.1 _).trans (hb.2.1 _), hb2.2.2.trans hb.2.2⟩
  have efree : (v.crewElevator_status ≠ DOOR_FAILED ∧ v.hydraulicPressure = true ∧
        ¬ v.altitudeGround < v.GEAR_FULLY_COMPRESSED_DISTANCE - 0.2) →
      eraseLog (ActivateElevator DOOR_OPENING (ActivateElevator DOOR_OPENING v))
        = eraseLog (ActivateElevator DOOR_OPENING v) ∧
      recorded "ELEVATOR" (ActivateElevator DOOR_OPENING (ActivateElevator DOOR_OPENING v))
        = recorded "ELEVATOR" v ++ ["OPEN", "OPEN"] ∧
      redraws (ActivateElevator DOOR_OPENING (ActivateElevator DOOR_OPENING v))
        = redraws v ++ [AreaID.AID_ELEVATORSWITCH, AreaID.AID_ELEVATORINDICATOR,
            AreaID.AID_ELEVATORSWITCH, AreaID.AID_ELEVATORINDICATOR] := by
    rintro ⟨h1, h2, h3⟩
    have hc := ActivateElevator_commit DOOR_OPENING v h1 h2 h3
    have hg := ActivateElevator_guard_inputs DOOR_OPENING v
    have hc2 := ActivateElevator_commit DOOR_OPENING (ActivateElevator DOOR_OPENING v)
      (by rw [hc]; simp) (hg.1.trans h2) (by rw [hg.2.1, hg.2.2]; exact h3)
    rw [hc2, hc]
    simp [eraseLog, recorded, redraws, List.filterMap_append, CHECK_DOOR_JUMP]
  have eblocked : (v.crewElevator_status = DOOR_FAILED ∨ v.hydraulicPressure = false ∨
        v.altitudeGround < v.GEAR_FULLY_COMPRESSED_DISTANCE - 0.2) →
      eraseLog (ActivateElevator DOOR_OPENING (ActivateElevator DOOR_OPENING v))
        = eraseLog (ActivateElevator DOOR_OPENING v) ∧
      recorded "ELEVATOR" (ActivateElevator DOOR_OPENING (ActivateElevator DOOR_OPENING v))
        = recorded "ELEVATOR" v ∧
      redraws (ActivateElevator DOOR_OPENING (ActivateElevator DOOR_OPENING v))
        = redraws v := by
    intro h
    have hb := ActivateElevator_blocked DOOR_OPENING v h
    have hg := ActivateElevator_guard_inputs DOOR_OPENING v
    have h2 : (ActivateElevator DOOR_OPENING v).crewElevator_status = DOOR_FAILED ∨
        (ActivateElevator DOOR_OPENING v).hydraulicPressure = false ∨
        (ActivateElevator DOOR_OPENING v).altitudeGround
          < (ActivateElevator DOOR_OPENING v).GEAR_FULLY_COMPRESSED_DISTANCE - 0.2 := by
      rw [eraseLog_crewElevator_status hb.1, hg.1, hg.2.1, hg.2.2]
      exact h
    have hb2 := ActivateElevator_blocked DOOR_OPENING _ h2
    exact ⟨hb2.1, (hb2.2.1 _).trans (hb.2.1 _), hb2.2.2.trans hb.2.2⟩
  refine ⟨?_, ?_, fun h => (rfree h).2, fun h => (rblocked h).2,
    fun h => (efree h).2, fun h => (eblocked h).2⟩
  · rcases radiator_blocked_or_free v with h | h
    · exact (rblocked h).1
    · exact (rfree h).1
  · rcases elevator_blocked_or_free v with h | h
    · exact (eblocked h).1
    · exact (efree h).1

/-- Witness of C8 amended: on the parked vessel no guard blocks the radiator, and two
deploy requests record two "OPEN" events. -/
theorem repeated_request_same_state_events_repeat_witness :
    recorded "RADIATOR" (ActivateRadiator DOOR_OPENING (ActivateRadiator DOOR_OPENING parked))
      = recorded "RADIATOR" parked ++ ["OPEN", "OPEN"] ∧
    redraws (ActivateRadiator DOOR_OPENING (ActivateRadiator DOOR_OPENING parked))
      = redraws parked ++ [AreaID.AID_RADIATORSWITCH, AreaID.AID_RADIATORINDICATOR,
          AreaID.AID_RADIATORSWITCH, AreaID.AID_RADIATORINDICATOR] :=
  (repeated_request_same_state_events_repeat parked).2.2.1 (by decide)

/-- C9: interlock release. In every state whose bay doors are moving,
`ActivateRadiator(target)` is blocked (radiator status and progress unchanged, no
RADIATOR event); in the state that differs only in that `bay_status` has become Closed,
the identical request succeeds, `radiator_status` becomes the target, provided the
radiator is not Failed and hydraulic pressure is present. -/
theorem radiator_interlock_released_when_bay_closed (target : DoorStatus) (v : Vessel)
    (hmoving : v.bay_status = DOOR_OPENING ∨ v.bay_status = DOOR_CLOSING) :
    ((ActivateRadiator target v).radiator_status = v.radiator_status ∧
      (ActivateRadiator target v).radiator_proc = v.radiator_proc ∧
      recorded "RADIATOR" (ActivateRadiator target v) = recorded "RADIATOR" v) ∧
    (v.radiator_status ≠ DOOR_FAILED → v.hydraulicPressure = true →
      (ActivateRadiator target { v with bay_status := DOOR_CLOSED }).radiator_status
        = target) := by
  constructor
  · have h := ActivateRadiator_blocked target v
      (Or.inr (Or.inr (hmoving.elim Or.inl fun h => Or.inr (Or.inl h))))
    exact ⟨eraseLog_radiator_status h.1, eraseLog_radiator_proc h.1, h.2.1 "RADIATOR"⟩
  · intro h1 h2
    rw [ActivateRadiator_commit target { v with bay_status := DOOR_CLOSED } h1 h2
      (by simp) (by simp) (by simp)]

/-- Witness of C9: bay doors Closing at 0.5 block a radiator deploy request; once the
doors are Closed the same request sets the radiator to Opening. -/
theorem radiator_interlock_released_when_bay_closed_witness :
    (ActivateRadiator DOOR_OPENING
        { parked with bay_status := DOOR_CLOSING, bay_proc := 0.5 }).radiator_status
      = DOOR_CLOSED ∧
    (ActivateRadiator DOOR_OPENING
        { ({ parked with bay_status := DOOR_CLOSING, bay_proc := 0.5 } : Vessel) with
          bay_status := DOOR_CLOSED }).radiator_status
      = DOOR_OPENING :=
  ⟨(radiator_interlock_released_when_bay_closed DOOR_OPENING
      { parked with bay_status := DOOR_CLOSING, bay_proc := 0.5 } (Or.inr rfl)).1.1,
   (radiator_interlock_released_when_bay_closed DOOR_OPENING
      { parked with bay_status := DOOR_CLOSING, bay_proc := 0.5 } (Or.inr rfl)).2
      (by decide) rfl⟩

/-- C10: a transition request never sets Failed. For every state and every target in
Opening, Closing, the status after `ActivateRadiator(target)` (resp.
`ActivateElevator(target)`) is the status before the call or the target, so it is Failed
only if it was Failed before. -/
theorem transition_request_never_sets_failed (target : DoorStatus) (v : Vessel)
    (htarget : target = DOOR_OPENING ∨ target = DOOR_CLOSING) :
    (((ActivateRadiator target v).radiator_status = v.radiator_status ∨
        (ActivateRadiator target v).radiator_status = target) ∧
      ((ActivateRadiator target v).radiator_status = DOOR_FAILED →
        v.radiator_status = DOOR_FAILED)) ∧
    (((ActivateElevator target v).crewElevator_status = v.crewElevator_status ∨
        (ActivateElevator target v).crewElevator_status = target) ∧
      ((ActivateElevator target v).crewElevator_status = DOOR_FAILED →
        v.crewElevator_status = DOOR_FAILED)) := by
  have hne : target ≠ DOOR_FAILED := by
    rcases htarget with rfl | rfl <;> decide
  constructor
  · rcases radiator_blocked_or_free v with h | ⟨h1, h2, h3, h4, h5⟩
    · have hs := eraseLog_radiator_status (ActivateRadiator_blocked target v h).1
      exact ⟨Or.inl hs, fun hf => hs ▸ hf⟩
    · have hs : (ActivateRadiator target v).radiator_status = target := by
        rw [ActivateRadiator_commit target v h1 h2 h3 h4 h5]
      exact ⟨Or.inr hs, fun hf => absurd (hs ▸ hf) hne⟩
  · rcases elevator_blocked_or_free v with h | ⟨h1, h2, h3⟩
    · have hs := eraseLog_crewElevator_status (ActivateElevator_blocked target v h).1
      exact ⟨Or.inl hs, fun hf => hs ▸ hf⟩
    · have hs : (ActivateElevator target v).crewElevator_status = target := by
        rw [ActivateElevator_commit target v h1 h2 h3]
      exact ⟨Or.inr hs, fun hf => absurd (hs ▸ hf) hne⟩

/-- Witness of C10: a deploy request on the parked vessel leaves the radiator in its
former status or in Opening. -/
theorem transition_request_never_sets_failed_witness :
    (ActivateRadiator DOOR_OPENING parked).radiator_status = parked.radiator_status ∨
    (ActivateRadiator DOOR_OPENING parked).radiator_status = DOOR_OPENING :=
  (transition_request_never_sets_failed DOOR_OPENING parked (Or.inl rfl)).1.1

/-! ## Lemmas on the RCS configuration -/

/-- The thrust-reset loop writes nothing but thrust limits. -/
theorem resetLevels_frame (f : ℚ) (n : Nat) : ∀ (i : Nat) (v : XR3),
    ConfigureRCSJets.resetLevels f i n v
      = { v with thrusterMax0 := (ConfigureRCSJets.resetLevels f i n v).thrusterMax0 } := by
  induction n with
  | zero => intro i v; rfl
  | succ n ih =>
    intro i v
    rw [ConfigureRCSJets.resetLevels]
    rw [ih]
    simp [SetThrusterMax0]

/-- The thrust-reset loop sets the limit of each thruster in its range, from the
state it starts in. -/
theorem resetLevels_thrusterMax0 (f : ℚ) (n : Nat) : ∀ (i : Nat) (v : XR3) (j : Nat),
    (ConfigureRCSJets.resetLevels f i n v).thrusterMax0 j
      = if i ≤ j ∧ j < i + n then
          GetRCSThrustMax j v * f * v.fracIntegrity (v.DamageItem_RCS1 + j)
        else v.thrusterMax0 j := by
  induction n with
  | zero =>
    intro i v j
    rw [ConfigureRCSJets.resetLevels, if_neg]
    omega
  | succ n ih =>
    intro i v j
    rw [ConfigureRCSJets.resetLevels, ih]
    by_cases hj : j = i
    · subst hj
      simp [SetThrusterMax0, th_rcs, GetRCSThrustMax]
    · have h1 : (i + 1 ≤ j ∧ j < i + 1 + n) ↔ (i ≤ j ∧ j < i + (n + 1)) := by omega
      simp only [h1]
      simp [SetThrusterMax0, th_rcs, GetRCSThrustMax, Function.update, hj]

theorem resetLevels_thgroup (f : ℚ) (n i : Nat) (v : XR3) :
    (ConfigureRCSJets.resetLevels f i n v).thgroup = v.thgroup := by
  rw [resetLevels_frame]

theorem normal_thgroup (v w : XR3) (g : THGROUP_TYPE) :
    (ConfigureRCSJets.normal [0, 0, 0, 0] [0, 0, 0, 0] v).thgroup g
      = (ConfigureRCSJets.normal [0, 0, 0, 0] [0, 0, 0, 0] w).thgroup g := by
  cases g <;> simp [ConfigureRCSJets.normal, CreateThrusterGroup, Function.update]

theorem docking_thgroup (v w : XR3) (g : THGROUP_TYPE) :
    (ConfigureRCSJets.docking [0, 0, 0, 0] [0, 0, 0, 0] v).thgroup g
      = (ConfigureRCSJets.docking [0, 0, 0, 0] [0, 0, 0, 0] w).thgroup g := by
  cases g <;> simp [ConfigureRCSJets.docking, CreateThrusterGroup, Function.update]

/-- The thruster groups that `ConfigureRCSJets` leaves depend on its argument only. -/
theorem ConfigureRCSJets_thgroup (d : Bool) (v w : XR3) (g : THGROUP_TYPE) :
    (ConfigureRCSJets d v).thgroup g = (ConfigureRCSJets d w).thgroup g := by
  unfold ConfigureRCSJets
  simp only [XR3.sink, resetLevels_thgroup]
  cases d
  · simp only [if_true]
    exact normal_thgroup _ _ g
  · simp only [Bool.true_eq_false, if_false]
    exact docking_thgroup _ _ g

/-- What `ConfigureRCSJets` leaves alone, and the two members it sets. -/
theorem ConfigureRCSJets_fields (d : Bool) (v : XR3) :
    (ConfigureRCSJets d v).m_rcsDockingMode = d ∧
    (ConfigureRCSJets d v).toVessel
      = TriggerRedrawArea AreaID.AID_RCS_CONFIG_BUTTON v.toVessel ∧
    (ConfigureRCSJets d v).m_rcsDockingModeAtKillrotStart = v.m_rcsDockingModeAtKillrotStart ∧
    (ConfigureRCSJets d v).m_customAutopilotMode = v.m_customAutopilotMode ∧
    (ConfigureRCSJets d v).navmodeState = v.navmodeState ∧
    (ConfigureRCSJets d v).inAtm = v.inAtm ∧
    (ConfigureRCSJets d v).emptyMass = v.emptyMass ∧
    (ConfigureRCSJets d v).payloadMass = v.payloadMass ∧
    (ConfigureRCSJets d v).baseRCSThrustMax = v.baseRCSThrustMax ∧
    (ConfigureRCSJets d v).DamageItem_RCS1 = v.DamageItem_RCS1 ∧
    (ConfigureRCSJets d v).fracIntegrity = v.fracIntegrity := by
  unfold ConfigureRCSJets
  simp only [XR3.sink]
  rw [resetLevels_frame]
  cases d <;>
    simp [ConfigureRCSJets.normal, ConfigureRCSJets.docking, CreateThrusterGroup,
      DelThrusterGroup]

/-- `GetRCSThrustMax` reads nothing that `ConfigureRCSJets` writes. -/
theorem GetRCSThrustMax_ConfigureRCSJets (d : Bool) (v : XR3) (i : Nat) :
    GetRCSThrustMax i (ConfigureRCSJets d v) = GetRCSThrustMax i v := by
  have h := ConfigureRCSJets_fields d v
  simp only [GetRCSThrustMax, h.2.2.2.1, h.2.2.2.2.2.1, h.2.2.2.2.2.2.1, h.2.2.2.2.2.2.2.1,
    h.2.2.2.2.2.2.2.2.1]

/-- The thrust limits that `ConfigureRCSJets` leaves. -/
theorem ConfigureRCSJets_thrusterMax0 (d : Bool) (v : XR3) (j : Nat) :
    (ConfigureRCSJets d v).thrusterMax0 j
      = if j < 14 then
          GetRCSThrustMax j v * (if d then 0.40 else 1.0) *
            v.fracIntegrity (v.DamageItem_RCS1 + j)
        else v.thrusterMax0 j := by
  unfold ConfigureRCSJets
  simp only [XR3.sink]
  rw [resetLevels_thrusterMax0]
  have h14 : (0 ≤ j ∧ j < 0 + 14) ↔ j < 14 := by omega
  simp only [h14]
  cases d <;>
    simp [GetRCSThrustMax, ConfigureRCSJets.normal, ConfigureRCSJets.docking,
      CreateThrusterGroup, DelThrusterGroup]

/-! ## RCS layouts -/

/-- C11: after `ConfigureRCSJets(dockingMode)`, for every RCS thruster index `i` in
0..13 the maximum thrust of thruster `th_rcs[i]` is
`GetRCSThrustMax(i) × f × integrity(RCS1 + i)` with `f = 0.40` in docking mode and
`f = 1.0` otherwise, and `m_rcsDockingMode` equals `dockingMode`. -/
theorem ConfigureRCSJets_sets_thrust_limits (dockingMode : Bool) (v : XR3) (i : Nat)
    (hi : i < 14) :
    (ConfigureRCSJets dockingMode v).thrusterMax0 (th_rcs i)
      = GetRCSThrustMax i v * (if dockingMode then 0.40 else 1.0) *
          v.fracIntegrity (v.DamageItem_RCS1 + i) ∧
    (ConfigureRCSJets dockingMode v).m_rcsDockingMode = dockingMode := by
  refine ⟨?_, (ConfigureRCSJets_fields dockingMode v).1⟩
  rw [th_rcs, ConfigureRCSJets_thrusterMax0, if_pos hi]

/-- Witness of C11: base thrust 100 at integrity 0.5 in docking mode gives a limit of
100 × 0.40 × 0.5 = 20 for thruster 3. -/
theorem ConfigureRCSJets_sets_thrust_limits_witness :
    (ConfigureRCSJets true { parkedXR3 with fracIntegrity := fun _ => 0.5 }).thrusterMax0
        (th_rcs 3) = 20 ∧
    (ConfigureRCSJets true { parkedXR3 with fracIntegrity := fun _ => 0.5 }).m_rcsDockingMode
      = true :=
  ⟨(ConfigureRCSJets_sets_thrust_limits true
      { parkedXR3 with fracIntegrity := fun _ => 0.5 } 3 (by decide)).1.trans
        (by norm_num [GetRCSThrustMax, parkedXR3]),
   (ConfigureRCSJets_sets_thrust_limits true
      { parkedXR3 with fracIntegrity := fun _ => 0.5 } 3 (by decide)).2⟩

/-- C12: after `ConfigureRCSJets` in either layout, each of the twelve attitude
thruster groups exists and consists of a non-empty list of RCS thrusters, whatever
groups the state held before the call. -/
theorem ConfigureRCSJets_mapping_total (dockingMode : Bool) (v : XR3) (g : THGROUP_TYPE) :
    ∃ ths : List THRUSTER_HANDLE,
      (ConfigureRCSJets dockingMode v).thgroup g = some ths ∧ ths ≠ [] ∧
      ∀ h ∈ ths, ∃ i, i < 14 ∧ h = th_rcs i := by
  rw [ConfigureRCSJets_thgroup dockingMode v parkedXR3 g]
  cases dockingMode <;> cases g <;>
    exact ⟨_, rfl, by decide, by simp [th_rcs]⟩

/-- C13: the Docking mapping is the Normal mapping under the relabelling
`normalAxisOf`, a permutation of the twelve axes that exchanges the Y and Z roles and
leaves the X-axis groups alone: each Docking group carries exactly the thrusters of
the Normal group that `normalAxisOf` names, whatever the states the two layouts were
configured from. -/
theorem docking_mapping_is_relabelled_normal_mapping :
    Function.Bijective normalAxisOf ∧
    ∀ (v w : XR3) (g : THGROUP_TYPE),
      (ConfigureRCSJets true v).thgroup g = (ConfigureRCSJets false w).thgroup (normalAxisOf g) := by
  refine ⟨⟨?_, ?_⟩, ?_⟩
  · intro a b h
    cases a <;> cases b <;> first | rfl | exact absurd h (by decide)
  · intro b
    exact ⟨normalAxisOf (normalAxisOf (normalAxisOf b)), by cases b <;> rfl⟩
  · intro v w g
    rw [ConfigureRCSJets_thgroup true v parkedXR3 g,
      ConfigureRCSJets_thgroup false w parkedXR3 (normalAxisOf g)]
    cases g <;> decide

/-- C14: round trip. From a state in Normal layout, that is a state `s` left by
`ConfigureRCSJets(false)`, the calls `ConfigureRCSJets(true)` then
`ConfigureRCSJets(false)` restore the thruster groups, the thrust limits and the
layout flag of `s`; and the groups that `ConfigureRCSJets` leaves depend on its
argument only, not on the state it is called in. -/
theorem ConfigureRCSJets_round_trip (v : XR3) :
    (ConfigureRCSJets false (ConfigureRCSJets true (ConfigureRCSJets false v))).thgroup
      = (ConfigureRCSJets false v).thgroup ∧
    (ConfigureRCSJets false (ConfigureRCSJets true (ConfigureRCSJets false v))).thrusterMax0
      = (ConfigureRCSJets false v).thrusterMax0 ∧
    (ConfigureRCSJets false (ConfigureRCSJets true (ConfigureRCSJets false v))).m_rcsDockingMode
      = (ConfigureRCSJets false v).m_rcsDockingMode ∧
    ∀ (dockingMode : Bool) (w : XR3),
      (ConfigureRCSJets dockingMode w).thgroup = (ConfigureRCSJets dockingMode v).thgroup := by
  refine ⟨?_, ?_, ?_, ?_⟩
  · funext g
    exact ConfigureRCSJets_thgroup false _ _ g
  · funext j
    have hf := ConfigureRCSJets_fields true (ConfigureRCSJets false v)
    have hg := ConfigureRCSJets_fields false v
    rw [ConfigureRCSJets_thrusterMax0 false, ConfigureRCSJets_thrusterMax0 false v,
      GetRCSThrustMax_ConfigureRCSJets, GetRCSThrustMax_ConfigureRCSJets,
      hf.2.2.2.2.2.2.2.2.2.1, hf.2.2.2.2.2.2.2.2.2.2, hg.2.2.2.2.2.2.2.2.2.1,
      hg.2.2.2.2.2.2.2.2.2.2, ConfigureRCSJets_thrusterMax0 true,
      ConfigureRCSJets_thrusterMax0 false v]
    by_cases hj : j < 14 <;> simp [hj]
  · rw [(ConfigureRCSJets_fields false _).1, (ConfigureRCSJets_fields false v).1]
  · intro d w
    funext g
    exact ConfigureRCSJets_thgroup d w v g

/-! ## Autopilot hooks -/

/-- C15: when a standard navmode other than kill-rotation is engaged, or a custom
autopilot other than `AP_OFF` is engaged, the hook hands to the base class the state
left by `ConfigureRCSJets(false)`, whose layout is Normal whatever it was before;
when such a navmode is disengaged, or the custom autopilot is set to `AP_OFF`, the
base class receives the state unchanged. -/
theorem autopilot_engagement_reverts_layout_to_normal (v : XR3) :
    (∀ (base : Int → Bool → XR3 → XR3) (mode : Int), mode ≠ NAVMODE_KILLROT →
      clbkNavMode base mode true v = base mode true (ConfigureRCSJets false v) ∧
      clbkNavMode base mode false v = base mode false v) ∧
    (∀ (base : AUTOPILOT → Bool → Bool → XR3 → XR3) (mode : AUTOPILOT)
        (playSound force : Bool),
      (mode ≠ AUTOPILOT.AP_OFF →
        SetCustomAutopilotMode base mode playSound force v
          = base mode playSound force (ConfigureRCSJets false v)) ∧
      SetCustomAutopilotMode base AUTOPILOT.AP_OFF playSound force v
        = base AUTOPILOT.AP_OFF playSound force v) ∧
    (ConfigureRCSJets false v).m_rcsDockingMode = false ∧
    (∀ w : XR3, (ConfigureRCSJets false v).thgroup = (ConfigureRCSJets false w).thgroup) := by
  refine ⟨?_, ?_, (ConfigureRCSJets_fields false v).1, ?_⟩
  · intro base mode hmode
    simp [clbkNavMode, hmode]
  · intro base mode playSound force
    constructor
    · intro hmode
      simp [SetCustomAutopilotMode, hmode]
    · simp [SetCustomAutopilotMode]
  · intro w
    funext g
    exact ConfigureRCSJets_thgroup false v w g

/-- Witness of C15: in docking layout, engaging navmode 3 or the attitude-hold
autopilot leaves the layout flag cleared. -/
theorem autopilot_engagement_reverts_layout_to_normal_witness :
    (clbkNavMode idleNavMode 3 true (ConfigureRCSJets true parkedXR3)).m_rcsDockingMode
      = false ∧
    (SetCustomAutopilotMode storeAutopilotMode AUTOPILOT.AP_ATTITUDEHOLD true false
        (ConfigureRCSJets true parkedXR3)).m_rcsDockingMode = false := by
  have h := autopilot_engagement_reverts_layout_to_normal (ConfigureRCSJets true parkedXR3)
  constructor
  · rw [(h.1 idleNavMode 3 (by decide)).1]
    exact h.2.2.1
  · rw [(h.2.1 storeAutopilotMode AUTOPILOT.AP_ATTITUDEHOLD true false).1 (by decide)]
    exact h.2.2.1

/-- C16: kill-rotation save and restore. Engaging kill-rotation while the layout is
`L = m_rcsDockingMode` hands to the base class a state in Normal layout in which `L`
is saved; provided the base-class callback leaves the saved member alone (it is a
member of the XR3 class), disengaging kill-rotation next hands to the base class the
state left by `ConfigureRCSJets(L)`: layout flag `L`, and the thruster groups that
`ConfigureRCSJets(L)` builds. -/
theorem killrot_saves_and_restores_layout (base : Int → Bool → XR3 → XR3) (v : XR3)
    (hbase : ∀ (mode : Int) (active : Bool) (s : XR3),
      (base mode active s).m_rcsDockingModeAtKillrotStart = s.m_rcsDockingModeAtKillrotStart) :
    clbkNavMode base NAVMODE_KILLROT true v
      = base NAVMODE_KILLROT true
          (ConfigureRCSJets false
            { v with m_rcsDockingModeAtKillrotStart := v.m_rcsDockingMode }) ∧
    (ConfigureRCSJets false
        { v with m_rcsDockingModeAtKillrotStart := v.m_rcsDockingMode }).m_rcsDockingMode
      = false ∧
    (ConfigureRCSJets false
        { v with m_rcsDockingModeAtKillrotStart := v.m_rcsDockingMode
        }).m_rcsDockingModeAtKillrotStart = v.m_rcsDockingMode ∧
    clbkNavMode base NAVMODE_KILLROT false (clbkNavMode base NAVMODE_KILLROT true v)
      = base NAVMODE_KILLROT false
          (ConfigureRCSJets v.m_rcsDockingMode (clbkNavMode base NAVMODE_KILLROT true v)) ∧
    (ConfigureRCSJets v.m_rcsDockingMode
        (clbkNavMode base NAVMODE_KILLROT true v)).m_rcsDockingMode = v.m_rcsDockingMode ∧
    (∀ w : XR3,
      (ConfigureRCSJets v.m_rcsDockingMode (clbkNavMode base NAVMODE_KILLROT true v)).thgroup
        = (ConfigureRCSJets v.m_rcsDockingMode w).thgroup) := by
  have hengage : clbkNavMode base NAVMODE_KILLROT true v
      = base NAVMODE_KILLROT true
          (ConfigureRCSJets false
            { v with m_rcsDockingModeAtKillrotStart := v.m_rcsDockingMode }) := by
    simp [clbkNavMode]
  have hsaved : (clbkNavMode base NAVMODE_KILLROT true v).m_rcsDockingModeAtKillrotStart
      = v.m_rcsDockingMode := by
    rw [hengage, hbase, (ConfigureRCSJets_fields false _).2.2.1]
  refine ⟨hengage, (ConfigureRCSJets_fields false _).1,
    (ConfigureRCSJets_fields false _).2.2.1, ?_, (ConfigureRCSJets_fields _ _).1, ?_⟩
  · generalize clbkNavMode base NAVMODE_KILLROT true v = e at hsaved
    simp [clbkNavMode, hsaved]
  · intro w
    funext g
    exact ConfigureRCSJets_thgroup _ _ w g

/-- Witness of C16: from docking layout, engaging and then disengaging kill-rotation
ends in docking layout again. -/
theorem killrot_saves_and_restores_layout_witness :
    (clbkNavMode idleNavMode NAVMODE_KILLROT false
        (clbkNavMode idleNavMode NAVMODE_KILLROT true
          (ConfigureRCSJets true parkedXR3))).m_rcsDockingMode = true := by
  have h := killrot_saves_and_restores_layout idleNavMode (ConfigureRCSJets true parkedXR3)
    (fun _ _ _ => rfl)
  rw [h.2.2.2.1]
  exact h.2.2.2.2.1.trans (ConfigureRCSJets_fields true parkedXR3).1

/-- The navmode loop of `SetRCSDockingMode` finds an engaged navmode exactly when
one of the modes it visits is engaged. -/
theorem SetRCSDockingMode_scan_iff (v : XR3) (n : Nat) : ∀ i : Int,
    SetRCSDockingMode.scan v i n = true ↔
      ∃ j : Int, i ≤ j ∧ j < i + n ∧ v.navmodeState j = true := by
  induction n with
  | zero =>
    intro i
    constructor
    · intro h
      simp [SetRCSDockingMode.scan] at h
    · rintro ⟨j, h1, h2, -⟩
      exfalso
      simp at h2
      omega
  | succ n ih =>
    intro i
    by_cases hi : v.navmodeState i = true
    · have hs : SetRCSDockingMode.scan v i (n + 1) = true := by
        simp [SetRCSDockingMode.scan, hi]
      rw [hs]
      simp only [true_iff]
      exact ⟨i, le_refl i, by push_cast; omega, hi⟩
    · have hs : SetRCSDockingMode.scan v i (n + 1) = SetRCSDockingMode.scan v (i + 1) n := by
        simp [SetRCSDockingMode.scan, hi]
      rw [hs, ih]
      constructor
      · rintro ⟨j, h1, h2, h3⟩
        exact ⟨j, by omega, by push_cast; omega, h3⟩
      · rintro ⟨j, h1, h2, h3⟩
        have hne : j ≠ i := fun h => hi (h ▸ h3)
        push_cast at h2
        exact ⟨j, by omega, by omega, h3⟩

/-- C17: `SetRCSDockingMode(dockingMode)` returns false exactly when `dockingMode` is
true and an autopilot is engaged (some navmode 1..7 is active, or the custom
autopilot mode is not `AP_OFF`); the layout flag, the thruster groups and the thrust
limits are then unchanged. In every other case it returns true and the layout is the
requested one, as `ConfigureRCSJets(dockingMode)` leaves it. A request for Normal
mode is never inhibited. -/
theorem SetRCSDockingMode_inhibited_iff_autopilot (dockingMode : Bool) (v : XR3) :
    ((SetRCSDockingMode dockingMode v).1 = false ↔
      (dockingMode = true ∧
        ((∃ i : Int, 1 ≤ i ∧ i ≤ 7 ∧ v.navmodeState i = true) ∨
          v.m_customAutopilotMode ≠ AUTOPILOT.AP_OFF))) ∧
    ((SetRCSDockingMode dockingMode v).1 = false →
      (SetRCSDockingMode dockingMode v).2.m_rcsDockingMode = v.m_rcsDockingMode ∧
      (SetRCSDockingMode dockingMode v).2.thgroup = v.thgroup ∧
      (SetRCSDockingMode dockingMode v).2.thrusterMax0 = v.thrusterMax0) ∧
    ((SetRCSDockingMode dockingMode v).1 = true →
      (SetRCSDockingMode dockingMode v).2.m_rcsDockingMode = dockingMode ∧
      (SetRCSDockingMode dockingMode v).2.thgroup
        = (ConfigureRCSJets dockingMode v).thgroup ∧
      (SetRCSDockingMode dockingMode v).2.thrusterMax0
        = (ConfigureRCSJets dockingMode v).thrusterMax0) ∧
    (SetRCSDockingMode false v).1 = true := by
  have hscan : SetRCSDockingMode.scan v 1 7 = true ↔
      ∃ i : Int, 1 ≤ i ∧ i ≤ 7 ∧ v.navmodeState i = true := by
    rw [SetRCSDockingMode_scan_iff]
    constructor
    · rintro ⟨j, h1, h2, h3⟩
      exact ⟨j, h1, by push_cast at h2; omega, h3⟩
    · rintro ⟨j, h1, h2, h3⟩
      exact ⟨j, h1, by push_cast; omega, h3⟩
  by_cases hengaged : dockingMode = true ∧
      ((∃ i : Int, 1 ≤ i ∧ i ≤ 7 ∧ v.navmodeState i = true) ∨
        v.m_customAutopilotMode ≠ AUTOPILOT.AP_OFF)
  · obtain ⟨hd, hap⟩ := hengaged
    have hflag : (SetRCSDockingMode.scan v 1 7 ||
        decide (v.m_customAutopilotMode ≠ AUTOPILOT.AP_OFF)) = true := by
      rcases hap with h | h
      · simp [hscan.mpr h]
      · simp [h]
    have hres : SetRCSDockingMode dockingMode v
        = (false, (v.sink PlayErrorBeep).sink
            (ShowWarning "RCS locked by Autopilot.wav" SoundType.ST_WarningCallout
              "Autopilot is active: RCS mode is locked.")) := by
      subst hd
      simp only [SetRCSDockingMode, if_true, hflag, Bool.and_self]
    rw [hres]
    refine ⟨⟨fun _ => ⟨hd, hap⟩, fun _ => rfl⟩, fun _ => ⟨rfl, rfl, rfl⟩, ?_, ?_⟩
    · intro h; cases h
    · simp [SetRCSDockingMode]
  · have hflag : (dockingMode && (if dockingMode = true then
          SetRCSDockingMode.scan v 1 7 ||
            decide (v.m_customAutopilotMode ≠ AUTOPILOT.AP_OFF)
        else false)) = false := by
      cases dockingMode
      · rfl
      · have h1 : ¬ ∃ i : Int, 1 ≤ i ∧ i ≤ 7 ∧ v.navmodeState i = true :=
          fun h => hengaged ⟨rfl, Or.inl h⟩
        have h2 : v.m_customAutopilotMode = AUTOPILOT.AP_OFF := by
          by_contra h
          exact hengaged ⟨rfl, Or.inr h⟩
        have h3 : SetRCSDockingMode.scan v 1 7 = false :=
          Bool.eq_false_iff.mpr fun hc => h1 (hscan.mp hc)
        simp [h2, h3]
    have h1 : (SetRCSDockingMode dockingMode v).1 = true := by
      simp only [SetRCSDockingMode, hflag]
      simp
    have h2 : (SetRCSDockingMode dockingMode v).2.m_rcsDockingMode = dockingMode ∧
        (SetRCSDockingMode dockingMode v).2.thgroup
          = (ConfigureRCSJets dockingMode v).thgroup ∧
        (SetRCSDockingMode dockingMode v).2.thrusterMax0
          = (ConfigureRCSJets dockingMode v).thrusterMax0 := by
      simp only [SetRCSDockingMode, hflag]
      cases dockingMode <;> simp [XR3.sink, (ConfigureRCSJets_fields _ v).1]
    refine ⟨⟨fun h => ?_, fun h => absurd h hengaged⟩, fun h => ?_, fun _ => h2, ?_⟩
    · rw [h1] at h; cases h
    · rw [h1] at h; cases h
    · simp [SetRCSDockingMode]

/-- Witness of C17: with the prograde navmode (3) active a request for docking mode
is refused and the layout flag stays as it was. -/
theorem SetRCSDockingMode_inhibited_iff_autopilot_witness :
    (SetRCSDockingMode true
        { parkedXR3 with navmodeState := fun i => decide (i = 3) }).1 = false ∧
    (SetRCSDockingMode true
        { parkedXR3 with navmodeState := fun i => decide (i = 3) }).2.m_rcsDockingMode
      = false := by
  have h := SetRCSDockingMode_inhibited_iff_autopilot true
    { parkedXR3 with navmodeState := fun i => decide (i = 3) }
  have hfalse := h.1.mpr ⟨rfl, Or.inl ⟨3, by decide, by decide, by decide⟩⟩
  exact ⟨hfalse, (h.2.1 hfalse).1⟩

/-! ## Damage-aware thrust limits -/

/-- C18: the maximum thrust that `ConfigureRCSJets(false)` gives RCS jet `i` is
`baseMax × integrity`, multiplied further by
`withPayloadMass / (withPayloadMass - payloadMass)` exactly when the vessel is in
atmosphere and the attitude-hold or descent-hold autopilot is active. With base 100
and integrity 0.5 the limit is 50 without the bonus, and 60 with it at a mass of 120
of which 20 are payload (ratio 1.2). -/
theorem normal_layout_effective_max_thrust (v : XR3) (i : Nat) (hi : i < 14) :
    ((v.inAtm = true ∧
        (v.m_customAutopilotMode = AUTOPILOT.AP_ATTITUDEHOLD ∨
          v.m_customAutopilotMode = AUTOPILOT.AP_DESCENTHOLD)) →
      (ConfigureRCSJets false v).thrusterMax0 (th_rcs i)
        = v.baseRCSThrustMax i * v.fracIntegrity (v.DamageItem_RCS1 + i) *
            (v.emptyMass / (v.emptyMass - v.payloadMass))) ∧
    (¬ (v.inAtm = true ∧
        (v.m_customAutopilotMode = AUTOPILOT.AP_ATTITUDEHOLD ∨
          v.m_customAutopilotMode = AUTOPILOT.AP_DESCENTHOLD)) →
      (ConfigureRCSJets false v).thrusterMax0 (th_rcs i)
        = v.baseRCSThrustMax i * v.fracIntegrity (v.DamageItem_RCS1 + i)) ∧
    (ConfigureRCSJets false
        { parkedXR3 with fracIntegrity := fun _ => 0.5 }).thrusterMax0 (th_rcs i) = 50 ∧
    (ConfigureRCSJets false
        { parkedXR3 with
          fracIntegrity := fun _ => 0.5
          inAtm := true
          m_customAutopilotMode := AUTOPILOT.AP_ATTITUDEHOLD }).thrusterMax0 (th_rcs i)
      = 60 := by
  have key : ∀ w : XR3, (ConfigureRCSJets false w).thrusterMax0 (th_rcs i)
      = GetRCSThrustMax i w * w.fracIntegrity (w.DamageItem_RCS1 + i) := by
    intro w
    rw [th_rcs, ConfigureRCSJets_thrusterMax0, if_pos hi]
    norm_num
  refine ⟨?_, ?_, ?_, ?_⟩
  · rintro ⟨hatm, hap⟩
    rw [key]
    simp only [GetRCSThrustMax, GetRCSThrustMax.multiplier, hatm, hap, if_true]
    ring
  · intro h
    rw [key]
    by_cases hatm : v.inAtm = true
    · have hap : ¬ (v.m_customAutopilotMode = AUTOPILOT.AP_ATTITUDEHOLD ∨
          v.m_customAutopilotMode = AUTOPILOT.AP_DESCENTHOLD) := fun hap => h ⟨hatm, hap⟩
      simp only [GetRCSThrustMax, hatm, hap, if_true, if_false]
    · simp [GetRCSThrustMax, hatm]
  · rw [key]
    norm_num [GetRCSThrustMax, parkedXR3]
  · rw [key]
    norm_num [GetRCSThrustMax, GetRCSThrustMax.multiplier, parkedXR3]

/-- Witness of C18: jet 0 with base thrust 100 and integrity 0.5 in vacuum is
limited to 50. -/
theorem normal_layout_effective_max_thrust_witness :
    (ConfigureRCSJets false
        { parkedXR3 with fracIntegrity := fun _ => 0.5 }).thrusterMax0 (th_rcs 0) = 50 :=
  (normal_layout_effective_max_thrust parkedXR3 0 (by decide)).2.2.1

/-- C19: the payload compensation multiplier of `GetRCSThrustMax`,
`withPayloadMass / (withPayloadMass - payloadMass)`, is at least 1 and its divisor is
not zero whenever `0 ≤ payloadMass < withPayloadMass`, and it is exactly 1 when
`payloadMass` is 0; it is the factor applied to the base-class thrust in atmosphere
under attitude hold or descent hold. -/
theorem payload_multiplier_at_least_one (withPayloadMass payloadMass : ℚ)
    (h0 : 0 ≤ payloadMass) (hlt : payloadMass < withPayloadMass) :
    1 ≤ GetRCSThrustMax.multiplier withPayloadMass payloadMass ∧
    withPayloadMass - payloadMass ≠ 0 ∧
    GetRCSThrustMax.multiplier withPayloadMass payloadMass
      = withPayloadMass / (withPayloadMass - payloadMass) ∧
    (payloadMass = 0 → GetRCSThrustMax.multiplier withPayloadMass payloadMass = 1) ∧
    (∀ (v : XR3) (i : Nat), v.inAtm = true →
      (v.m_customAutopilotMode = AUTOPILOT.AP_ATTITUDEHOLD ∨
        v.m_customAutopilotMode = AUTOPILOT.AP_DESCENTHOLD) →
      GetRCSThrustMax i v
        = v.baseRCSThrustMax i * GetRCSThrustMax.multiplier v.emptyMass v.payloadMass) := by
  have hpos : 0 < withPayloadMass - payloadMass := sub_pos.mpr hlt
  refine ⟨?_, ne_of_gt hpos, rfl, ?_, ?_⟩
  · show 1 ≤ withPayloadMass / (withPayloadMass - payloadMass)
    rw [one_le_div hpos]
    linarith
  · intro hp
    show withPayloadMass / (withPayloadMass - payloadMass) = 1
    rw [hp, sub_zero]
    exact div_self (ne_of_gt (lt_of_le_of_lt h0 hlt))
  · intro v i hatm hap
    simp only [GetRCSThrustMax, hatm, hap, if_true]

/-- Witness of C19: at a mass of 120 of which 20 are payload the multiplier is at
least 1. -/
theorem payload_multiplier_at_least_one_witness :
    1 ≤ GetRCSThrustMax.multiplier 120 20 :=
  (payload_multiplier_at_least_one 120 20 (by norm_num) (by norm_num)).1

/-! ## Scenario loading -/

/-- Lines that make neither the common parser nor the default parser write the gear
leave the gear as it was. -/
theorem clbkLoadStateEx_line_gear (io : ScenarioParsing) (line : String) (v : XR3)
    (hcommon : (io.ParseXRCommonScenarioLine line v).2.gear_status = v.gear_status ∧
      (io.ParseXRCommonScenarioLine line v).2.gear_proc = v.gear_proc)
    (hdefault : ∀ s : XR3, (io.ParseScenarioLineEx line s).gear_status = s.gear_status ∧
      (io.ParseScenarioLineEx line s).gear_proc = s.gear_proc) :
    (clbkLoadStateEx.line io line v).gear_status = v.gear_status ∧
    (clbkLoadStateEx.line io line v).gear_proc = v.gear_proc := by
  unfold clbkLoadStateEx.line
  simp only
  split_ifs
  · exact hcommon
  · exact hcommon
  · exact hcommon
  · exact hcommon
  · exact ⟨(hdefault _).1.trans hcommon.1, (hdefault _).2.trans hcommon.2⟩

/-- A scenario none of whose lines makes the common or the default parser write the
gear ends the load with the gear status Closed at progress 0. -/
theorem clbkLoadStateEx_gear (io : ScenarioParsing) (scn : List String) (v : XR3)
    (hcommon : ∀ line ∈ scn, ∀ s : XR3,
      (io.ParseXRCommonScenarioLine line s).2.gear_status = s.gear_status ∧
      (io.ParseXRCommonScenarioLine line s).2.gear_proc = s.gear_proc)
    (hdefault : ∀ line ∈ scn, ∀ s : XR3,
      (io.ParseScenarioLineEx line s).gear_status = s.gear_status ∧
      (io.ParseScenarioLineEx line s).gear_proc = s.gear_proc) :
    (clbkLoadStateEx io scn v).gear_status = DOOR_CLOSED ∧
    (clbkLoadStateEx io scn v).gear_proc = 0 := by
  have hfold : ∀ (l : List String), (∀ line ∈ l, line ∈ scn) → ∀ s : XR3,
      (l.foldl (fun s line => clbkLoadStateEx.line io line s) s).gear_status = s.gear_status ∧
      (l.foldl (fun s line => clbkLoadStateEx.line io line s) s).gear_proc = s.gear_proc := by
    intro l
    induction l with
    | nil => intro _ s; exact ⟨rfl, rfl⟩
    | cons a l ih =>
      intro hl s
      have ha : a ∈ scn := hl a (List.mem_cons_self a l)
      have h1 := clbkLoadStateEx_line_gear io a s (hcommon a ha s) (hdefault a ha)
      have h2 := ih (fun x hx => hl x (List.mem_cons_of_mem a hx)) (clbkLoadStateEx.line io a s)
      exact ⟨h2.1.trans h1.1, h2.2.trans h1.2⟩
  unfold clbkLoadStateEx
  simp only
  have h := hfold scn (fun _ hx => hx)
    { v with m_parsedScenarioFile := true, gear_status := DOOR_CLOSED, gear_proc := 0 }
  split_ifs
  · exact h
  · exact h

/-- C20, the claim as written fails: a vessel whose gear is fully deployed
(`SetGearParameters(1.0)`, as `clbkSetClassCaps` leaves it, with status Open) loads a
scenario block that holds no line at all, so no landing-gear line; the load ends
with `gear_status = DOOR_CLOSED` and `gear_proc = 0`, not with the deployed status
and 1. -/
theorem gear_deployed_after_load_counterexample :
    (SetGearParameters 1 parkedXR3).gear_status = DOOR_OPEN ∧
    (SetGearParameters 1 parkedXR3).gear_proc = 1 ∧
    (clbkLoadStateEx (scenarioParsing (fun _ s => (false, s)) (fun _ s => s) 0) []
      (SetGearParameters 1 parkedXR3)).gear_status = DOOR_CLOSED ∧
    (clbkLoadStateEx (scenarioParsing (fun _ s => (false, s)) (fun _ s => s) 0) []
      (SetGearParameters 1 parkedXR3)).gear_proc = 0 ∧
    (clbkLoadStateEx (scenarioParsing (fun _ s => (false, s)) (fun _ s => s) 0) []
      (SetGearParameters 1 parkedXR3)).gear_proc ≠ 1 := by
  have h := clbkLoadStateEx_gear (scenarioParsing (fun _ s => (false, s)) (fun _ s => s) 0) []
    (SetGearParameters 1 parkedXR3) (fun _ hx => absurd hx (List.not_mem_nil _))
    (fun _ hx => absurd hx (List.not_mem_nil _))
  refine ⟨?_, ?_, h.1, h.2, ?_⟩
  · simp [SetGearParameters, XR3.sink, TriggerRedrawArea, SetXRAnimation, emit, parkedXR3,
      parked]
  · simp [SetGearParameters, XR3.sink, TriggerRedrawArea, SetXRAnimation, emit]
  · rw [h.2]
    norm_num

/-- C20, amended. When `clbkLoadStateEx` reads a scenario none of whose lines makes
the common parser or the default parser write the gear, so in particular a scenario
with no landing-gear line, the gear ends the load in the retracted default whatever
it was before: `gear_status = DOOR_CLOSED` and `gear_proc = 0`, which is not 1 and
which `SetGearParameters` treats as not fully deployed (belly touchdown points, no
nosewheel steering, gear mesh hidden). -/
theorem clbkLoadStateEx_without_gear_line_leaves_gear_retracted (io : ScenarioParsing)
    (scn : List String) (v : XR3)
    (hcommon : ∀ line ∈ scn, ∀ s : XR3,
      (io.ParseXRCommonScenarioLine line s).2.gear_status = s.gear_status ∧
      (io.ParseXRCommonScenarioLine line s).2.gear_proc = s.gear_proc)
    (hdefault : ∀ line ∈ scn, ∀ s : XR3,
      (io.ParseScenarioLineEx line s).gear_status = s.gear_status ∧
      (io.ParseScenarioLineEx line s).gear_proc = s.gear_proc) :
    (clbkLoadStateEx io scn v).gear_status = DOOR_CLOSED ∧
    (clbkLoadStateEx io scn v).gear_proc = 0 ∧
    (clbkLoadStateEx io scn v).gear_proc ≠ 1 ∧
    (SetGearParameters (clbkLoadStateEx io scn v).gear_proc
        (clbkLoadStateEx io scn v)).touchdownGearDown = false ∧
    (SetGearParameters (clbkLoadStateEx io scn v).gear_proc
        (clbkLoadStateEx io scn v)).nosewheelSteering = false ∧
    (SetGearParameters (clbkLoadStateEx io scn v).gear_proc
        (clbkLoadStateEx io scn v)).gearMeshVisible = false := by
  have h := clbkLoadStateEx_gear io scn v hcommon hdefault
  rw [h.2]
  refine ⟨h.1, rfl, by norm_num, ?_, ?_, ?_⟩ <;>
    simp [SetGearParameters, XR3.sink, TriggerRedrawArea, SetXRAnimation, emit]

/-- C20 amended, at a concrete input: a parked XR3 with its gear deployed reads a
scenario that holds the two XR3 lines and no landing-gear line, with parsers that
leave the gear alone; the load ends with the gear Closed at progress 0. -/
theorem clbkLoadStateEx_without_gear_line_leaves_gear_retracted_witness :
    parkedXR3.gear_status = DOOR_OPEN ∧ parkedXR3.gear_proc = 1 ∧
    (clbkLoadStateEx (scenarioParsing (fun _ s => (false, s)) (fun _ s => s) 0)
      ["RCS_DOCKING_MODE 0", "ACTIVE_EVA_PORT 1"] parkedXR3).gear_status = DOOR_CLOSED ∧
    (clbkLoadStateEx (scenarioParsing (fun _ s => (false, s)) (fun _ s => s) 0)
      ["RCS_DOCKING_MODE 0", "ACTIVE_EVA_PORT 1"] parkedXR3).gear_proc = 0 :=
  ⟨rfl, rfl,
    (clbkLoadStateEx_without_gear_line_leaves_gear_retracted
      (scenarioParsing (fun _ s => (false, s)) (fun _ s => s) 0)
      ["RCS_DOCKING_MODE 0", "ACTIVE_EVA_PORT 1"] parkedXR3
      (fun _ _ _ => ⟨rfl, rfl⟩) (fun _ _ _ => ⟨rfl, rfl⟩)).1,
    (clbkLoadStateEx_without_gear_line_leaves_gear_retracted
      (scenarioParsing (fun _ s => (false, s)) (fun _ s => s) 0)
      ["RCS_DOCKING_MODE 0", "ACTIVE_EVA_PORT 1"] parkedXR3
      (fun _ _ _ => ⟨rfl, rfl⟩) (fun _ _ _ => ⟨rfl, rfl⟩)).2.1⟩

/-! ## Playback, progress bounds and the gear guard -/

/-- C21: `clbkPlaybackEvent` with event type ELEVATOR (up to case) goes through
`ActivateElevator`, guards included, and returns true; and for a target in Opening,
Closing, replaying on the same state the event that a successful live
`ActivateElevator(target)` recorded gives the very state of the live call, so the
same `crewElevator_status` and `crewElevator_proc`. -/
theorem playback_replays_elevator_request
    (base : ℚ → ℚ → String → String → Vessel → Bool × Vessel) (simt event_t : ℚ)
    (v : Vessel) :
    (∀ event_type event : String, stricmp event_type "ELEVATOR" = 0 →
      clbkPlaybackEvent base simt event_t event_type event v
        = (true, ActivateElevator
            (if stricmp event "CLOSE" = 0 then DOOR_CLOSING else DOOR_OPENING) v)) ∧
    (∀ (target : DoorStatus) (event : String),
      (target = DOOR_OPENING ∨ target = DOOR_CLOSING) →
      recorded "ELEVATOR" (ActivateElevator target v) = recorded "ELEVATOR" v ++ [event] →
      clbkPlaybackEvent base simt event_t "ELEVATOR" event v
          = (true, ActivateElevator target v) ∧
        (clbkPlaybackEvent base simt event_t "ELEVATOR" event v).2.crewElevator_status
          = (ActivateElevator target v).crewElevator_status ∧
        (clbkPlaybackEvent base simt event_t "ELEVATOR" event v).2.crewElevator_proc
          = (ActivateElevator target v).crewElevator_proc) := by
  have hfirst : ∀ event_type event : String, stricmp event_type "ELEVATOR" = 0 →
      clbkPlaybackEvent base simt event_t event_type event v
        = (true, ActivateElevator
            (if stricmp event "CLOSE" = 0 then DOOR_CLOSING else DOOR_OPENING) v) := by
    intro event_type event h
    simp [clbkPlaybackEvent, h]
  refine ⟨hfirst, ?_⟩
  intro target event htarget hrec
  have hreplay : clbkPlaybackEvent base simt event_t "ELEVATOR" event v
      = (true, ActivateElevator target v) := by
    rw [hfirst "ELEVATOR" event (by decide)]
    rcases elevator_blocked_or_free v with hb | ⟨h1, h2, h3⟩
    · exfalso
      rw [(ActivateElevator_blocked target v hb).2.1 "ELEVATOR"] at hrec
      simp at hrec
    · rw [ActivateElevator_commit target v h1 h2 h3] at hrec
      simp [recorded, List.filterMap_append] at hrec
      rcases htarget with rfl | rfl
      · have he : event = "OPEN" := by simpa using hrec.symm
        subst he
        have hne : stricmp "OPEN" "CLOSE" ≠ 0 := by decide
        simp [hne]
      · have he : event = "CLOSE" := by simpa using hrec.symm
        subst he
        have heq : stricmp "CLOSE" "CLOSE" = 0 := by decide
        simp [heq]
  exact ⟨hreplay, by rw [hreplay], by rw [hreplay]⟩

/-- Witness of C21: on the parked vessel the live request to raise the elevator
records "OPEN", and replaying ("ELEVATOR", "OPEN") gives the state of the live call. -/
theorem playback_replays_elevator_request_witness :
    clbkPlaybackEvent (fun _ _ _ _ s => (false, s)) 0 0 "ELEVATOR" "OPEN" parked
      = (true, ActivateElevator DOOR_OPENING parked) :=
  ((playback_replays_elevator_request (fun _ _ _ _ s => (false, s)) 0 0 parked).2
    DOOR_OPENING "OPEN" (Or.inl rfl)
    (by
      rw [ActivateElevator_commit DOOR_OPENING parked (by decide) rfl (by norm_num [parked])]
      simp [recorded, parked])).1

/-- C23: neither `ActivateRadiator` nor `ActivateElevator` drives progress out of
the range 0..1. For every state and every action the progress after the call is the
progress before it, or exactly 0 together with status Closed, or exactly 1 together
with status Open; so a progress within 0..1 stays within 0..1. -/
theorem activation_keeps_progress_within_bounds (action : DoorStatus) (v : Vessel) :
    ((ActivateRadiator action v).radiator_proc = v.radiator_proc ∨
      ((ActivateRadiator action v).radiator_proc = 0 ∧
        (ActivateRadiator action v).radiator_status = DOOR_CLOSED) ∨
      ((ActivateRadiator action v).radiator_proc = 1 ∧
        (ActivateRadiator action v).radiator_status = DOOR_OPEN)) ∧
    ((ActivateElevator action v).crewElevator_proc = v.crewElevator_proc ∨
      ((ActivateElevator action v).crewElevator_proc = 0 ∧
        (ActivateElevator action v).crewElevator_status = DOOR_CLOSED) ∨
      ((ActivateElevator action v).crewElevator_proc = 1 ∧
        (ActivateElevator action v).crewElevator_status = DOOR_OPEN)) ∧
    ((0 ≤ v.radiator_proc ∧ v.radiator_proc ≤ 1) →
      0 ≤ (ActivateRadiator action v).radiator_proc ∧
      (ActivateRadiator action v).radiator_proc ≤ 1) ∧
    ((0 ≤ v.crewElevator_proc ∧ v.crewElevator_proc ≤ 1) →
      0 ≤ (ActivateElevator action v).crewElevator_proc ∧
      (ActivateElevator action v).crewElevator_proc ≤ 1) := by
  have hr : (ActivateRadiator action v).radiator_proc = v.radiator_proc ∨
      ((ActivateRadiator action v).radiator_proc = 0 ∧
        (ActivateRadiator action v).radiator_status = DOOR_CLOSED) ∨
      ((ActivateRadiator action v).radiator_proc = 1 ∧
        (ActivateRadiator action v).radiator_status = DOOR_OPEN) := by
    rcases radiator_blocked_or_free v with hb | ⟨h1, h2, h3, h4, h5⟩
    · exact Or.inl (eraseLog_radiator_proc (ActivateRadiator_blocked action v hb).1)
    · rw [ActivateRadiator_commit action v h1 h2 h3 h4 h5]
      cases action <;> simp [CHECK_DOOR_JUMP]
  have he : (ActivateElevator action v).crewElevator_proc = v.crewElevator_proc ∨
      ((ActivateElevator action v).crewElevator_proc = 0 ∧
        (ActivateElevator action v).crewElevator_status = DOOR_CLOSED) ∨
      ((ActivateElevator action v).crewElevator_proc = 1 ∧
        (ActivateElevator action v).crewElevator_status = DOOR_OPEN) := by
    rcases elevator_blocked_or_free v with hb | ⟨h1, h2, h3⟩
    · exact Or.inl (eraseLog_crewElevator_proc (ActivateElevator_blocked action v hb).1)
    · rw [ActivateElevator_commit action v h1 h2 h3]
      cases action <;> simp [CHECK_DOOR_JUMP]
  refine ⟨hr, he, ?_, ?_⟩
  · rintro ⟨h0, h1⟩
    rcases hr with h | ⟨h, -⟩ | ⟨h, -⟩ <;> rw [h] <;> constructor <;> norm_num <;> assumption
  · rintro ⟨h0, h1⟩
    rcases he with h | ⟨h, -⟩ | ⟨h, -⟩ <;> rw [h] <;> constructor <;> norm_num <;> assumption

/-- Witness of C23: a radiator Closing at progress 0.37 that is told to jump to Open
ends with a progress within 0..1. -/
theorem activation_keeps_progress_within_bounds_witness :
    0 ≤ (ActivateRadiator DOOR_OPEN
        { parked with radiator_status := DOOR_CLOSING, radiator_proc := 0.37 }).radiator_proc ∧
    (ActivateRadiator DOOR_OPEN
        { parked with radiator_status := DOOR_CLOSING, radiator_proc := 0.37 }).radiator_proc
      ≤ 1 :=
  (activation_keeps_progress_within_bounds DOOR_OPEN
    { parked with radiator_status := DOOR_CLOSING, radiator_proc := 0.37 }).2.2.1
    (by norm_num [parked])

/-- C29: the gear-compression guard of `ActivateLandingGear` covers both ramped
directions and no instant jump. When the nose or the rear gear proc is not 1.0, a
deploy request (Opening) is blocked exactly as a retract request (Closing) is: same
resulting state, gear status and progress unchanged, the base class not reached.
When both are 1.0 both requests reach the base class. Requests with action Open or
Closed always reach the base class. -/
theorem ActivateLandingGear_guard_on_both_ramps
    (base : DoorStatus → Vessel → Vessel) (v : Vessel) :
    ((v.m_noseGearProc ≠ 1 ∨ v.m_rearGearProc ≠ 1) →
      ActivateLandingGear base DOOR_OPENING v = ActivateLandingGear base DOOR_CLOSING v ∧
      (ActivateLandingGear base DOOR_OPENING v).gear_status = v.gear_status ∧
      (ActivateLandingGear base DOOR_OPENING v).gear_proc = v.gear_proc ∧
      ∀ other : DoorStatus → Vessel → Vessel,
        ActivateLandingGear other DOOR_OPENING v = ActivateLandingGear base DOOR_OPENING v) ∧
    (¬ (v.m_noseGearProc ≠ 1 ∨ v.m_rearGearProc ≠ 1) →
      ActivateLandingGear base DOOR_OPENING v = base DOOR_OPENING v ∧
      ActivateLandingGear base DOOR_CLOSING v = base DOOR_CLOSING v) ∧
    ActivateLandingGear base DOOR_OPEN v = base DOOR_OPEN v ∧
    ActivateLandingGear base DOOR_CLOSED v = base DOOR_CLOSED v := by
  refine ⟨?_, ?_, ?_, ?_⟩
  · intro h
    simp [ActivateLandingGear, h, ShowWarning, PlayErrorBeep]
  · intro h
    simp [ActivateLandingGear, h]
  · simp [ActivateLandingGear]
  · simp [ActivateLandingGear]

/-- Witness of C29: with the rear gear compressed to 0.8 a deploy request leaves the
gear status as it was. -/
theorem ActivateLandingGear_guard_on_both_ramps_witness :
    (ActivateLandingGear commitGear DOOR_OPENING
        { parked with gear_status := DOOR_CLOSING, m_rearGearProc := 0.8 }).gear_status
      = DOOR_CLOSING :=
  ((ActivateLandingGear_guard_on_both_ramps commitGear
      { parked with gear_status := DOOR_CLOSING, m_rearGearProc := 0.8 }).1
    (Or.inr (by norm_num [parked]))).2.1

/-! ## Step queues -/

/-- C24: the step registration of `clbkPostCreation` puts its steps behind the ones
already queued, in the declared order: among the PreSteps it registers,
`DrainBayFuelTanksPreStep` is first and `UpdatePreviousFieldsPreStep` is last; among
the PostSteps, `FuelCalloutsPostStep` comes before `UpdateMassPostStep`, which comes
before `AnimationPostStep`, which comes before `XR3DoorSoundsPostStep`, each of them
being registered once, in a debug build as in a release build. -/
theorem clbkPostCreation_step_order (DEBUG : Bool) (q : StepQueues) :
    (clbkPostCreation.addSteps DEBUG q).preSteps
      = q.preSteps ++ (clbkPostCreation.addSteps DEBUG ⟨[], []⟩).preSteps ∧
    (clbkPostCreation.addSteps DEBUG q).postSteps
      = q.postSteps ++ (clbkPostCreation.addSteps DEBUG ⟨[], []⟩).postSteps ∧
    (clbkPostCreation.addSteps DEBUG ⟨[], []⟩).preSteps.head?
      = some PreStep.DrainBayFuelTanksPreStep ∧
    (clbkPostCreation.addSteps DEBUG ⟨[], []⟩).preSteps.getLast?
      = some PreStep.UpdatePreviousFieldsPreStep ∧
    (clbkPostCreation.addSteps DEBUG ⟨[], []⟩).preSteps.Nodup ∧
    (clbkPostCreation.addSteps DEBUG ⟨[], []⟩).postSteps.Nodup ∧
    PostStep.XR3DoorSoundsPostStep ∈ (clbkPostCreation.addSteps DEBUG ⟨[], []⟩).postSteps ∧
    (clbkPostCreation.addSteps DEBUG ⟨[], []⟩).postSteps.indexOf PostStep.FuelCalloutsPostStep
      < (clbkPostCreation.addSteps DEBUG ⟨[], []⟩).postSteps.indexOf
          PostStep.UpdateMassPostStep ∧
    (clbkPostCreation.addSteps DEBUG ⟨[], []⟩).postSteps.indexOf PostStep.UpdateMassPostStep
      < (clbkPostCreation.addSteps DEBUG ⟨[], []⟩).postSteps.indexOf
          PostStep.AnimationPostStep ∧
    (clbkPostCreation.addSteps DEBUG ⟨[], []⟩).postSteps.indexOf PostStep.AnimationPostStep
      < (clbkPostCreation.addSteps DEBUG ⟨[], []⟩).postSteps.indexOf
          PostStep.XR3DoorSoundsPostStep := by
  refine ⟨?_, ?_, ?_⟩
  · cases DEBUG <;> simp [clbkPostCreation.addSteps, AddPreStep, AddPostStep]
  · cases DEBUG <;> simp [clbkPostCreation.addSteps, AddPreStep, AddPostStep]
  · cases DEBUG <;> decide

/-! ## Payload-screen redraw throttling -/

/-- One call of `clbkPanelRedrawEvent` at uptime `c.uptime`, seen from payload screen
`areaID` with timer index `i`: the refresh interval stays, and either the screen is
not redrawn and its timer stays, or it is redrawn at `c.uptime`, which its timer
allowed, and the timer moves to `c.uptime` plus the interval. -/
theorem clbkPanelRedrawEvent_screen (result : Superclass → AreaID → Int → Bool)
    (areaID : AreaID) (i : Nat)
    (hscreen : (areaID, i) ∈ [(AreaID.AID_SELECT_PAYLOAD_BAY_SLOT_SCREEN, 0),
      (AreaID.AID_GRAPPLE_PAYLOAD_SCREEN, 1), (AreaID.AID_DEPLOY_PAYLOAD_SCREEN, 2)])
    (c : RedrawCall) (s : PanelState) :
    (clbkPanelRedrawEvent result c.areaID c.event
        { s with systemUptime := c.uptime }).2.PayloadScreensUpdateInterval
      = s.PayloadScreensUpdateInterval ∧
    ((screenRedrawTimes areaID (clbkPanelRedrawEvent result c.areaID c.event
          { s with systemUptime := c.uptime }).2 = screenRedrawTimes areaID s ∧
        (clbkPanelRedrawEvent result c.areaID c.event
          { s with systemUptime := c.uptime }).2.m_nextPayloadScreensRefresh i
            = s.m_nextPayloadScreensRefresh i) ∨
      (screenRedrawTimes areaID (clbkPanelRedrawEvent result c.areaID c.event
          { s with systemUptime := c.uptime }).2 = screenRedrawTimes areaID s ++ [c.uptime] ∧
        s.m_nextPayloadScreensRefresh i ≤ c.uptime ∧
        (clbkPanelRedrawEvent result c.areaID c.event
          { s with systemUptime := c.uptime }).2.m_nextPayloadScreensRefresh i
            = c.uptime + s.PayloadScreensUpdateInterval)) := by
  simp only [List.mem_cons, Prod.mk.injEq, List.mem_singleton, List.not_mem_nil, or_false]
    at hscreen
  unfold clbkPanelRedrawEvent
  by_cases hev : c.event = PANEL_REDRAW_ALWAYS
  · rcases hscreen with ⟨rfl, rfl⟩ | ⟨rfl, rfl⟩ | ⟨rfl, rfl⟩ <;>
      cases hc : c.areaID <;>
      simp [hev, dispatchRedraw, screenRedrawTimes, List.filter_append] <;>
      split_ifs <;>
      simp_all [Function.update, not_lt]
  · rcases hscreen with ⟨rfl, rfl⟩ | ⟨rfl, rfl⟩ | ⟨rfl, rfl⟩ <;>
      simp [hev, dispatchRedraw, screenRedrawTimes, List.filter_append]

/-- Along a run of calls whose uptimes do not decrease and are at least `u`, the
redraw times of a payload screen stay pairwise at least one refresh interval apart,
below the timer of the screen by one interval, and at most the uptime reached. -/
theorem redrawRun_invariant (result : Superclass → AreaID → Int → Bool)
    (areaID : AreaID) (i : Nat)
    (hscreen : (areaID, i) ∈ [(AreaID.AID_SELECT_PAYLOAD_BAY_SLOT_SCREEN, 0),
      (AreaID.AID_GRAPPLE_PAYLOAD_SCREEN, 1), (AreaID.AID_DEPLOY_PAYLOAD_SCREEN, 2)])
    (calls : List RedrawCall) : ∀ (s : PanelState) (u : ℚ),
    List.Pairwise (fun c c' : RedrawCall => c.uptime ≤ c'.uptime) calls →
    (∀ c ∈ calls, u ≤ c.uptime) →
    List.Pairwise (fun t t' => t + s.PayloadScreensUpdateInterval ≤ t')
      (screenRedrawTimes areaID s) →
    (∀ t ∈ screenRedrawTimes areaID s,
      t + s.PayloadScreensUpdateInterval ≤ s.m_nextPayloadScreensRefresh i ∧ t ≤ u) →
    List.Pairwise (fun t t' => t + s.PayloadScreensUpdateInterval ≤ t')
      (screenRedrawTimes areaID (redrawRun result calls s)) := by
  induction calls with
  | nil =>
    intro s u _ _ hpw _
    exact hpw
  | cons c cs ih =>
    intro s u hsorted hlow hpw hinv
    have hstep := clbkPanelRedrawEvent_screen result areaID i hscreen c s
    have hcu : u ≤ c.uptime := hlow c (List.mem_cons_self c cs)
    rw [List.pairwise_cons] at hsorted
    have hrun : redrawRun result (c :: cs) s
        = redrawRun result cs (clbkPanelRedrawEvent result c.areaID c.event
            { s with systemUptime := c.uptime }).2 := rfl
    rw [hrun]
    generalize (clbkPanelRedrawEvent result c.areaID c.event
      { s with systemUptime := c.uptime }).2 = s' at hstep ⊢
    obtain ⟨hI, hcases⟩ := hstep
    have key := ih s' c.uptime hsorted.2 hsorted.1
    rw [hI] at key
    apply key
    · rcases hcases with ⟨ht, -⟩ | ⟨ht, hle, -⟩
      · rw [ht]; exact hpw
      · rw [ht, List.pairwise_append]
        refine ⟨hpw, List.pairwise_singleton _ _, ?_⟩
        intro t ht1 t' ht2
        rw [List.mem_singleton] at ht2
        rw [ht2]
        exact le_trans (hinv t ht1).1 hle
    · rcases hcases with ⟨ht, hn⟩ | ⟨ht, hle, hn⟩
      · rw [ht, hn]
        intro t ht1
        exact ⟨(hinv t ht1).1, le_trans (hinv t ht1).2 hcu⟩
      · rw [ht, hn]
        intro t ht1
        rw [List.mem_append, List.mem_singleton] at ht1
        rcases ht1 with ht1 | rfl
        · have htu : t ≤ c.uptime := le_trans (hinv t ht1).2 hcu
          exact ⟨by linarith, htu⟩
        · exact ⟨le_refl _, le_refl _⟩

/-- C30: payload-screen redraw throttling. For a `PANEL_REDRAW_ALWAYS` event on one
of the three payload screen areas, `clbkPanelRedrawEvent` returns false and hands
nothing on when the uptime is below the next-refresh time of that screen; otherwise
it hands the event to `VESSEL3_EXT`, returns its result, and sets the next-refresh
time of that screen to uptime + `PayloadScreensUpdateInterval`, leaving the timers of
the other two screens unchanged. Hence, over any run of calls with non-decreasing
uptime, two redraws of the same screen that were handed on are at least
`PayloadScreensUpdateInterval` apart. -/
theorem payload_screen_redraw_throttled (result : Superclass → AreaID → Int → Bool)
    (areaID : AreaID) (i : Nat)
    (hscreen : (areaID, i) ∈ [(AreaID.AID_SELECT_PAYLOAD_BAY_SLOT_SCREEN, 0),
      (AreaID.AID_GRAPPLE_PAYLOAD_SCREEN, 1), (AreaID.AID_DEPLOY_PAYLOAD_SCREEN, 2)])
    (v : PanelState) :
    (v.systemUptime < v.m_nextPayloadScreensRefresh i →
      clbkPanelRedrawEvent result areaID PANEL_REDRAW_ALWAYS v = (false, v)) ∧
    (¬ v.systemUptime < v.m_nextPayloadScreensRefresh i →
      (clbkPanelRedrawEvent result areaID PANEL_REDRAW_ALWAYS v).1
        = result Superclass.VESSEL3_EXT areaID PANEL_REDRAW_ALWAYS ∧
      (clbkPanelRedrawEvent result areaID PANEL_REDRAW_ALWAYS v).2.dispatched
        = v.dispatched ++
            [⟨v.systemUptime, Superclass.VESSEL3_EXT, areaID, PANEL_REDRAW_ALWAYS⟩] ∧
      (clbkPanelRedrawEvent result areaID PANEL_REDRAW_ALWAYS v).2.m_nextPayloadScreensRefresh i
        = v.systemUptime + v.PayloadScreensUpdateInterval ∧
      ∀ j, j ≠ i →
        (clbkPanelRedrawEvent result areaID PANEL_REDRAW_ALWAYS
            v).2.m_nextPayloadScreensRefresh j = v.m_nextPayloadScreensRefresh j) ∧
    (∀ calls : List RedrawCall, v.dispatched = [] →
      List.Pairwise (fun c c' : RedrawCall => c.uptime ≤ c'.uptime) calls →
      List.Pairwise (fun t t' => t + v.PayloadScreensUpdateInterval ≤ t')
        (screenRedrawTimes areaID (redrawRun result calls v))) := by
  have hs := hscreen
  simp only [List.mem_cons, Prod.mk.injEq, List.mem_singleton, List.not_mem_nil, or_false]
    at hs
  refine ⟨?_, ?_, ?_⟩
  · intro hlt
    rcases hs with ⟨rfl, rfl⟩ | ⟨rfl, rfl⟩ | ⟨rfl, rfl⟩ <;>
      simp [clbkPanelRedrawEvent, hlt]
  · intro hge
    rcases hs with ⟨rfl, rfl⟩ | ⟨rfl, rfl⟩ | ⟨rfl, rfl⟩ <;>
      simp [clbkPanelRedrawEvent, hge, dispatchRedraw] <;>
      intro j hj <;> simp [Function.update, hj]
  · intro calls hempty hsorted
    cases calls with
    | nil => simp [redrawRun, screenRedrawTimes, hempty]
    | cons c cs =>
      have hlow : ∀ c' ∈ c :: cs, c.uptime ≤ c'.uptime := by
        intro c' hc'
        rw [List.mem_cons] at hc'
        rcases hc' with rfl | hc'
        · exact le_refl _
        · exact (List.pairwise_cons.mp hsorted).1 c' hc'
      apply redrawRun_invariant result areaID i hscreen (c :: cs) v c.uptime hsorted hlow
      · simp [screenRedrawTimes, hempty]
      · simp [screenRedrawTimes, hempty]

/-- Witness of C30: with a refresh interval of 0.5, of the calls for the grapple
screen at uptimes 1, 1.2 and 1.6 the first and the last are handed on. -/
theorem payload_screen_redraw_throttled_witness :
    List.Pairwise (fun t t' => t + freshPanel.PayloadScreensUpdateInterval ≤ t')
      (screenRedrawTimes AreaID.AID_GRAPPLE_PAYLOAD_SCREEN
        (redrawRun (fun _ _ _ => true)
          [⟨1, AreaID.AID_GRAPPLE_PAYLOAD_SCREEN, PANEL_REDRAW_ALWAYS⟩,
           ⟨1.2, AreaID.AID_GRAPPLE_PAYLOAD_SCREEN, PANEL_REDRAW_ALWAYS⟩,
           ⟨1.6, AreaID.AID_GRAPPLE_PAYLOAD_SCREEN, PANEL_REDRAW_ALWAYS⟩] freshPanel)) :=
  (payload_screen_redraw_throttled (fun _ _ _ => true) AreaID.AID_GRAPPLE_PAYLOAD_SCREEN 1
    (by decide) freshPanel).2.2 _ rfl (by norm_num)

/-! ## Docking layout and autopilots over a run of events -/

/-- C28, the code at the failing input: from Normal layout with no autopilot
engaged, the pilot selects docking mode, kill-rotation engages, navmode 7 engages,
and kill-rotation disengages. Every step before the last leaves the layout Normal
while a navmode is active, but the last restores the layout saved when kill-rotation
engaged: the run ends with `m_rcsDockingMode` true while navmode 7 is still active.
The same happens when the descent-hold autopilot is engaged in place of navmode 7. -/
theorem docking_layout_restored_under_active_navmode :
    (pilotRun [PilotEvent.setRCSDockingMode true]
      (ConfigureRCSJets false parkedXR3)).m_rcsDockingMode = true ∧
    (pilotRun [PilotEvent.setRCSDockingMode true, PilotEvent.navMode NAVMODE_KILLROT true]
      (ConfigureRCSJets false parkedXR3)).m_rcsDockingMode = false ∧
    (pilotRun [PilotEvent.setRCSDockingMode true, PilotEvent.navMode NAVMODE_KILLROT true,
        PilotEvent.navMode 7 true]
      (ConfigureRCSJets false parkedXR3)).m_rcsDockingMode = false ∧
    (pilotRun [PilotEvent.setRCSDockingMode true, PilotEvent.navMode NAVMODE_KILLROT true,
        PilotEvent.navMode 7 true, PilotEvent.navMode NAVMODE_KILLROT false]
      (ConfigureRCSJets false parkedXR3)).m_rcsDockingMode = true ∧
    (pilotRun [PilotEvent.setRCSDockingMode true, PilotEvent.navMode NAVMODE_KILLROT true,
        PilotEvent.navMode 7 true, PilotEvent.navMode NAVMODE_KILLROT false]
      (ConfigureRCSJets false parkedXR3)).navmodeState 7 = true ∧
    (pilotRun [PilotEvent.setRCSDockingMode true, PilotEvent.navMode NAVMODE_KILLROT true,
        PilotEvent.customAutopilot AUTOPILOT.AP_DESCENTHOLD,
        PilotEvent.navMode NAVMODE_KILLROT false]
      (ConfigureRCSJets false parkedXR3)).m_rcsDockingMode = true ∧
    (pilotRun [PilotEvent.setRCSDockingMode true, PilotEvent.navMode NAVMODE_KILLROT true,
        PilotEvent.customAutopilot AUTOPILOT.AP_DESCENTHOLD,
        PilotEvent.navMode NAVMODE_KILLROT false]
      (ConfigureRCSJets false parkedXR3)).m_customAutopilotMode
      = AUTOPILOT.AP_DESCENTHOLD := by
  refine ⟨?_, ?_, ?_, ?_, ?_, ?_, ?_⟩ <;> decide

/-! ## Scenario round trip -/

/-- The characters of the ten decimal digits are digits, neither signs nor white
space, and give their digit back. -/
theorem digitChar_facts : ∀ d, d < 10 →
    (digitChar d).isDigit = true ∧ (digitChar d).toNat - 48 = d ∧
    (digitChar d).isWhitespace = false ∧ digitChar d ≠ '-' ∧ digitChar d ≠ '+' := by
  decide

/-- Scanning a run of digit characters folds the digits, most significant first. -/
theorem scanDigits_map (l : List Nat) : ∀ acc : Nat, (∀ d ∈ l, d < 10) →
    scanDigits acc (l.map digitChar) = l.foldl (fun a d => a * 10 + d) acc := by
  induction l with
  | nil => intro acc _; rfl
  | cons d l ih =>
    intro acc h
    have hd := digitChar_facts d (h d (List.mem_cons_self d l))
    simp only [List.map_cons, scanDigits, hd.1, if_true, hd.2.1, List.foldl_cons]
    exact ih _ (fun x hx => h x (List.mem_cons_of_mem d hx))

/-- Scanning what `%d` prints for a natural number gives the number back. -/
theorem scanDigits_printNat (n : Nat) : scanDigits 0 (printNat n) = n := by
  by_cases hn : n = 0
  · subst hn
    decide
  · rw [printNat, if_neg hn,
      scanDigits_map _ 0 (fun d hd => Nat.digits_lt_base (by norm_num) (List.mem_reverse.mp hd)),
      List.foldl_reverse]
    have h := Nat.ofDigits_digits 10 n
    rw [Nat.ofDigits_eq_foldr] at h
    have hf : (fun (x y : ℕ) => y * 10 + x) = (fun (x y : ℕ) => (x : ℕ) + 10 * y) := by
      funext x y
      ring
    rw [hf]
    simpa using h

/-- What `%d` prints for a natural number starts with a digit character. -/
theorem printNat_head (n : Nat) : ∃ d cs, d < 10 ∧ printNat n = digitChar d :: cs := by
  by_cases hn : n = 0
  · subst hn
    exact ⟨0, [], by norm_num, by decide⟩
  · have hne : (Nat.digits 10 n).reverse ≠ [] := by
      simpa using Nat.digits_ne_nil_iff_ne_zero.mpr hn
    obtain ⟨d, ds, hds⟩ := List.exists_cons_of_ne_nil hne
    have hd : d < 10 :=
      Nat.digits_lt_base (by norm_num)
        (List.mem_reverse.mp (hds ▸ List.mem_cons_self d ds))
    exact ⟨d, ds.map digitChar, hd, by rw [printNat, if_neg hn, hds, List.map_cons]⟩

/-- Scanning with `%d` a blank followed by what `%d` prints gives the integer back. -/
theorem scanInt_printInt (i : Int) : scanInt (' ' :: printInt i) = some i := by
  have hblank : scanInt (' ' :: printInt i)
      = scanInt (printInt i) := by
    simp [scanInt, List.dropWhile]
  rw [hblank]
  cases i with
  | ofNat n =>
    obtain ⟨d, cs, hd, hp⟩ := printNat_head n
    have hf := digitChar_facts d hd
    have hs := scanDigits_printNat n
    simp only [printInt]
    rw [hp] at hs ⊢
    simp [scanInt, List.dropWhile, hf.2.2.1, hf.2.2.2.1, hf.2.2.2.2, hf.1, hs]
  | negSucc n =>
    obtain ⟨d, cs, hd, hp⟩ := printNat_head (n + 1)
    have hf := digitChar_facts d hd
    have hs := scanDigits_printNat (n + 1)
    simp only [printInt]
    rw [hp] at hs ⊢
    simp [scanInt, List.dropWhile, hf.1, hs]
    rw [Int.negSucc_eq]
    ring

/-- On the line written for `RCS_DOCKING_MODE`, a loader whose common parser does
not take the line sets `m_rcsDockingMode` to whether the integer is not 0 and
changes nothing else. -/
theorem clbkLoadStateEx_line_rcs (common : String → XR3 → Bool × XR3)
    (default : String → XR3 → XR3) (mdm : Int) (i : Int) (s : XR3)
    (hc : common (oapiWriteScenario_int "RCS_DOCKING_MODE" i) s = (false, s)) :
    clbkLoadStateEx.line (scenarioParsing common default mdm)
        (oapiWriteScenario_int "RCS_DOCKING_MODE" i) s
      = { s with m_rcsDockingMode := decide (i ≠ 0) } := by
  have hdata : (oapiWriteScenario_int "RCS_DOCKING_MODE" i).data
      = "RCS_DOCKING_MODE".data ++ ' ' :: printInt i := rfl
  have hskin : (scenarioParsing common default mdm).IF_FOUND "SKIN"
      (oapiWriteScenario_int "RCS_DOCKING_MODE" i) = false := by
    simp only [scenarioParsing, hdata]
    rw [List.take_append_of_le_length (by decide)]
    decide
  have hkey : (scenarioParsing common default mdm).IF_FOUND "RCS_DOCKING_MODE"
      (oapiWriteScenario_int "RCS_DOCKING_MODE" i) = true := by
    simp only [scenarioParsing, hdata]
    rw [List.take_left]
    simp
  have hscan : (scenarioParsing common default mdm).SSCANF_BOOL "RCS_DOCKING_MODE"
      (oapiWriteScenario_int "RCS_DOCKING_MODE" i) s.m_rcsDockingMode = decide (i ≠ 0) := by
    simp only [scenarioParsing, hdata]
    rw [List.drop_left, scanInt_printInt]
    rfl
  have hcommon : (scenarioParsing common default mdm).ParseXRCommonScenarioLine
      (oapiWriteScenario_int "RCS_DOCKING_MODE" i) s = (false, s) := hc
  simp only [clbkLoadStateEx.line, hcommon, hskin, hkey, hscan]
  simp

/-- On the line written for `ACTIVE_EVA_PORT`, a loader whose common parser does not
take the line sets `m_activeEVAPort` to the integer and changes nothing else. -/
theorem clbkLoadStateEx_line_port (common : String → XR3 → Bool × XR3)
    (default : String → XR3 → XR3) (mdm : Int) (i : Int) (s : XR3)
    (hc : common (oapiWriteScenario_int "ACTIVE_EVA_PORT" i) s = (false, s)) :
    clbkLoadStateEx.line (scenarioParsing common default mdm)
        (oapiWriteScenario_int "ACTIVE_EVA_PORT" i) s
      = { s with m_activeEVAPort := i } := by
  have hdata : (oapiWriteScenario_int "ACTIVE_EVA_PORT" i).data
      = "ACTIVE_EVA_PORT".data ++ ' ' :: printInt i := rfl
  have hskin : (scenarioParsing common default mdm).IF_FOUND "SKIN"
      (oapiWriteScenario_int "ACTIVE_EVA_PORT" i) = false := by
    simp only [scenarioParsing, hdata]
    rw [List.take_append_of_le_length (by decide)]
    decide
  have hrcs : (scenarioParsing common default mdm).IF_FOUND "RCS_DOCKING_MODE"
      (oapiWriteScenario_int "ACTIVE_EVA_PORT" i) = false := by
    simp only [scenarioParsing, hdata]
    have h1 : "RCS_DOCKING_MODE".data.length = 15 + 1 := by decide
    have h2 : "ACTIVE_EVA_PORT".data.length = 15 := by decide
    rw [h1, List.take_append_eq_append_take, h2]
    simp
  have hkey : (scenarioParsing common default mdm).IF_FOUND "ACTIVE_EVA_PORT"
      (oapiWriteScenario_int "ACTIVE_EVA_PORT" i) = true := by
    simp only [scenarioParsing, hdata]
    rw [List.take_left]
    simp
  have hscan : (scenarioParsing common default mdm).SSCANF1_d "ACTIVE_EVA_PORT"
      (oapiWriteScenario_int "ACTIVE_EVA_PORT" i) s.m_activeEVAPort = i := by
    simp only [scenarioParsing, hdata]
    rw [List.drop_left, scanInt_printInt]
    rfl
  have hcommon : (scenarioParsing common default mdm).ParseXRCommonScenarioLine
      (oapiWriteScenario_int "ACTIVE_EVA_PORT" i) s = (false, s) := hc
  simp only [clbkLoadStateEx.line, hcommon, hskin, hrcs, hkey, hscan]
  simp

/-- The last step of `clbkLoadStateEx`, setting the default display mode, touches
neither `m_rcsDockingMode` nor `m_activeEVAPort`; the loop is a fold of
`clbkLoadStateEx.line`. -/
theorem clbkLoadStateEx_xr3_fields (io : ScenarioParsing) (scn : List String) (w : XR3) :
    ∃ w0 : XR3,
      (clbkLoadStateEx io scn w).m_rcsDockingMode
        = (scn.foldl (fun s line => clbkLoadStateEx.line io line s) w0).m_rcsDockingMode ∧
      (clbkLoadStateEx io scn w).m_activeEVAPort
        = (scn.foldl (fun s line => clbkLoadStateEx.line io line s) w0).m_activeEVAPort := by
  refine ⟨{ ({ ({ w with m_parsedScenarioFile := true } : XR3) with
    gear_status := DoorStatus.DOOR_CLOSED } : XR3) with gear_proc := 0 }, ?_, ?_⟩ <;>
    · simp only [clbkLoadStateEx]
      split_ifs <;> rfl

/-- C22. Scenario round trip of the XR3-specific fields: whatever the vessel `v`
that is saved and the vessel `w` that loads, and whatever the common lines written
before them, reading the lines written by `clbkSaveState` with `clbkLoadStateEx`
leaves `m_rcsDockingMode` and `m_activeEVAPort` of `v` in the loading vessel,
provided the common parser does not take the two XR3 lines for itself. -/
theorem scenario_round_trip_of_xr3_fields (common : String → XR3 → Bool × XR3)
    (default : String → XR3 → XR3) (mdm : Int) (writer : XR3 → List String) (v w : XR3)
    (hcommon : ∀ (i : Int) (s : XR3),
      common (oapiWriteScenario_int "RCS_DOCKING_MODE" i) s = (false, s) ∧
      common (oapiWriteScenario_int "ACTIVE_EVA_PORT" i) s = (false, s)) :
    (clbkLoadStateEx (scenarioParsing common default mdm) (clbkSaveState writer v) w).m_rcsDockingMode
        = v.m_rcsDockingMode ∧
    (clbkLoadStateEx (scenarioParsing common default mdm) (clbkSaveState writer v) w).m_activeEVAPort
        = v.m_activeEVAPort := by
  obtain ⟨w0, h1, h2⟩ :=
    clbkLoadStateEx_xr3_fields (scenarioParsing common default mdm) (clbkSaveState writer v) w
  rw [h1, h2]
  simp only [clbkSaveState, List.foldl_append, List.foldl_cons, List.foldl_nil]
  rw [clbkLoadStateEx_line_rcs common default mdm _ _ (hcommon _ _).1,
    clbkLoadStateEx_line_port common default mdm _ _ (hcommon _ _).2]
  constructor
  · cases v.m_rcsDockingMode <;> simp
  · rfl

/-- C22 at a concrete input: a parked XR3 in docking layout with EVA port 1 is saved
behind one common line, and a freshly constructed XR3 reads the lines back. -/
theorem scenario_round_trip_of_xr3_fields_witness :
    (∀ (i : Int) (s : XR3),
      (fun (_ : String) (s : XR3) => (false, s)) (oapiWriteScenario_int "RCS_DOCKING_MODE" i) s
        = (false, s) ∧
      (fun (_ : String) (s : XR3) => (false, s)) (oapiWriteScenario_int "ACTIVE_EVA_PORT" i) s
        = (false, s)) ∧
    (clbkLoadStateEx (scenarioParsing (fun _ s => (false, s)) (fun _ s => s) 0)
        (clbkSaveState (fun _ => ["GEAR 1 1.0000"])
          { parkedXR3 with m_rcsDockingMode := true, m_activeEVAPort := 1 })
        parkedXR3).m_rcsDockingMode = true ∧
    (clbkLoadStateEx (scenarioParsing (fun _ s => (false, s)) (fun _ s => s) 0)
        (clbkSaveState (fun _ => ["GEAR 1 1.0000"])
          { parkedXR3 with m_rcsDockingMode := true, m_activeEVAPort := 1 })
        parkedXR3).m_activeEVAPort = 1 :=
  ⟨fun _ _ => ⟨rfl, rfl⟩,
    scenario_round_trip_of_xr3_fields (fun _ s => (false, s)) (fun _ s => s) 0
      (fun _ => ["GEAR 1 1.0000"])
      { parkedXR3 with m_rcsDockingMode := true, m_activeEVAPort := 1 } parkedXR3
      (fun _ _ => ⟨rfl, rfl⟩)⟩

end XR3Phoenix

/-! ## XR2 Ravenstar: doors and system status -/

namespace XR2Ravenstar

/-- C26. On the XR2 the airlock ladder is rejected consistently and the payload bay
doors are served: `SetDoorState(XRD_Ladder, s)` returns false and leaves the vessel
as it was, `GetDoorState(XRD_Ladder, pProc)` returns `XRDS_DoorNotSupported` and
stores -1 through a non-null `pProc` (and nothing through a null one), while
`SetDoorState(XRD_PayloadBayDoors, s)` returns true after `ActivateBayDoors` and
`GetDoorState(XRD_PayloadBayDoors, pProc)` returns the converted `bay_status` and
stores `bay_proc` through a non-null `pProc`; the superclass is asked in none of
these cases. -/
theorem ladder_rejected_and_bay_doors_served (h h2 : Inherited) (s : XRDoorState) (x : ℚ)
    (v : XR2) :
    SetDoorState h XRDoorID.XRD_Ladder s v = (false, v) ∧
    GetDoorState h XRDoorID.XRD_Ladder (some x) v
      = (XRDoorState.XRDS_DoorNotSupported, some (-1)) ∧
    GetDoorState h XRDoorID.XRD_Ladder none v = (XRDoorState.XRDS_DoorNotSupported, none) ∧
    SetDoorState h XRDoorID.XRD_PayloadBayDoors s v
      = (true, h.ActivateBayDoors (h.ToDoorStatus s) v) ∧
    GetDoorState h XRDoorID.XRD_PayloadBayDoors (some x) v
      = (h.ToXRDoorState v.bay_status, some v.bay_proc) ∧
    GetDoorState h XRDoorID.XRD_PayloadBayDoors none v = (h.ToXRDoorState v.bay_status, none) ∧
    SetDoorState { h with SetDoorState := h2.SetDoorState } XRDoorID.XRD_Ladder s v
      = SetDoorState h XRDoorID.XRD_Ladder s v ∧
    SetDoorState { h with SetDoorState := h2.SetDoorState } XRDoorID.XRD_PayloadBayDoors s v
      = SetDoorState h XRDoorID.XRD_PayloadBayDoors s v ∧
    GetDoorState { h with GetDoorState := h2.GetDoorState } XRDoorID.XRD_Ladder (some x) v
      = GetDoorState h XRDoorID.XRD_Ladder (some x) v ∧
    GetDoorState { h with GetDoorState := h2.GetDoorState } XRDoorID.XRD_PayloadBayDoors (some x) v
      = GetDoorState h XRDoorID.XRD_PayloadBayDoors (some x) v :=
  ⟨rfl, rfl, rfl, rfl, rfl, rfl, rfl, rfl, rfl, rfl⟩

/-- C27, the claim as written fails: the superclass reports an unsupported field (its
`SetXRSystemStatus` returns false) while `CrewElevator` is `XRDMG_NotSupported`, and
the XR2 method returns true. -/
theorem SetXRSystemStatus_ignores_superclass_result_counterexample :
    (plainInherited.SetXRSystemStatus
        { PayloadBayDoors := XRDamageState.XRDMG_online,
          CrewElevator := XRDamageState.XRDMG_NotSupported } bayOpening).1 = false ∧
    (SetXRSystemStatus plainInherited
        { PayloadBayDoors := XRDamageState.XRDMG_online,
          CrewElevator := XRDamageState.XRDMG_NotSupported } bayOpening).1 = true := by
  decide

/-- C27, amended. `XR2Ravenstar::SetXRSystemStatus` returns false exactly when
`status.CrewElevator` is not `XRDMG_NotSupported` and true otherwise; the value that
the superclass call returns is discarded, so the result is the same whatever the
superclass reports. -/
theorem SetXRSystemStatus_false_iff_crew_elevator_set (h : Inherited)
    (status : XRSystemStatusWrite) (v : XR2) (report : XRSystemStatusWrite → XR2 → Bool) :
    ((SetXRSystemStatus h status v).1 = false
        ↔ status.CrewElevator ≠ XRDamageState.XRDMG_NotSupported) ∧
    ((SetXRSystemStatus h status v).1 = true
        ↔ status.CrewElevator = XRDamageState.XRDMG_NotSupported) ∧
    SetXRSystemStatus
        { h with SetXRSystemStatus := fun st s => (report st s, (h.SetXRSystemStatus st s).2) }
        status v
      = SetXRSystemStatus h status v := by
  refine ⟨?_, ?_, rfl⟩ <;> simp [SetXRSystemStatus]

end XR2Ravenstar

/-! ## Framework: the result of `ParseVesselConfig` -/

namespace VesselConfigFileParser

/-- After the announcing statements, `overrideFileExists` is what `PathFileExists`
says of `Config\<vesselName>.xrcfg`, and when the file exists the stored override
file name is that name. -/
theorem ParseVesselConfig_announce (PathFileExists : String → Bool) (pVesselName : String)
    (p : VesselConfigFileParser) :
    (ParseVesselConfig.announce PathFileExists pVesselName p).1
      = PathFileExists ("Config\\" ++ pVesselName ++ ".xrcfg") ∧
    (PathFileExists ("Config\\" ++ pVesselName ++ ".xrcfg") = true →
      (ParseVesselConfig.announce PathFileExists pVesselName p).2.m_csOverrideFilename
        = "Config\\" ++ pVesselName ++ ".xrcfg") := by
  refine ⟨rfl, fun h => ?_⟩
  simp [ParseVesselConfig.announce, h]

/-- C25. `ParseVesselConfig` returns true if and only if `ParseFile()` of the default
file returned true and either `Config\<vesselName>.xrcfg` does not exist or
`ParseFile` of that file returned true too; the override file is parsed in the state
that the parse of the default file left, that is after it, and it is parsed even when
the default file failed. `ParseFile` is assumed not to write the stored override
file name. -/
theorem ParseVesselConfig_true_iff (PathFileExists : String → Bool)
    (ParseFile : Option String → VesselConfigFileParser → Bool × VesselConfigFileParser)
    (pVesselName : String) (p : VesselConfigFileParser)
    (hframe : ∀ s, (ParseFile none s).2.m_csOverrideFilename = s.m_csOverrideFilename) :
    ((ParseVesselConfig PathFileExists ParseFile pVesselName p).1 = true ↔
      (ParseFile none (ParseVesselConfig.announce PathFileExists pVesselName p).2).1 = true ∧
      (PathFileExists ("Config\\" ++ pVesselName ++ ".xrcfg") = false ∨
        (ParseFile (some ("Config\\" ++ pVesselName ++ ".xrcfg"))
          (ParseFile none (ParseVesselConfig.announce PathFileExists pVesselName p).2).2).1
            = true)) ∧
    (PathFileExists ("Config\\" ++ pVesselName ++ ".xrcfg") = true →
      (ParseVesselConfig PathFileExists ParseFile pVesselName p).2
        = (ParseFile (some ("Config\\" ++ pVesselName ++ ".xrcfg"))
            (ParseFile none (ParseVesselConfig.announce PathFileExists pVesselName p).2).2).2) ∧
    (PathFileExists ("Config\\" ++ pVesselName ++ ".xrcfg") = false →
      (ParseVesselConfig PathFileExists ParseFile pVesselName p).2
        = (ParseFile none (ParseVesselConfig.announce PathFileExists pVesselName p).2).2) := by
  obtain ⟨h1, h2⟩ := ParseVesselConfig_announce PathFileExists pVesselName p
  cases hE : PathFileExists ("Config\\" ++ pVesselName ++ ".xrcfg")
  · rw [hE] at h1
    simp [ParseVesselConfig, h1]
  · rw [hE] at h1
    have h3 := h2 hE
    simp [ParseVesselConfig, h1, hframe, h3]

/-- C25 at a concrete input: the override file `Config\XR3-01.xrcfg` exists, the
default file parses and the override does not; the result is false and the log shows
the default file parsed before the override. -/
theorem ParseVesselConfig_true_iff_witness :
    (∀ s, (parseOnlyDefault none s).2.m_csOverrideFilename = s.m_csOverrideFilename) ∧
    (ParseVesselConfig (fun _ => true) parseOnlyDefault "XR3-01" fresh).1 = false ∧
    (ParseVesselConfig (fun _ => true) parseOnlyDefault "XR3-01" fresh).2.log
      = ["Using configuration file(s): Config\\XR3PhoenixPrefs.cfg + Config\\XR3-01.xrcfg",
         "parsed default", "failed Config\\XR3-01.xrcfg"] := by
  have h := ParseVesselConfig_true_iff (fun _ => true) parseOnlyDefault "XR3-01" fresh
    (fun _ => rfl)
  refine ⟨fun _ => rfl, ?_, ?_⟩
  · have h1 := h.1
    cases hr : (ParseVesselConfig (fun _ => true) parseOnlyDefault "XR3-01" fresh).1
    · rfl
    · rw [hr] at h1
      have h2 := (h1.mp rfl).2
      simp [parseOnlyDefault] at h2
  · rw [h.2.1 rfl]
    decide

end VesselConfigFileParser
